import Mathlib

/-! # Sheet-backed record access layer of the attendance tracker

A shallow embedding of `src/services/GoogleSheetsService.js`, of the id
generation of `src/components/AddStudentForm.jsx` and of the derived data of
`src/components/AttendanceAnalytics.jsx`.

* A sheet grid is a list of rows, a row a list of cell strings.  Reading a
  cell beyond the end of a row gives JavaScript `undefined`, modelled by
  `none`.
* `Array.prototype.findIndex` returns `-1` when nothing matches, so indices
  are integers.
* A thrown error is a value `JsError`; a function that may throw returns
  `Except JsError _`.
* The ambient state a write operation consults (`this.useOAuth`,
  `AuthService.isUserSignedIn()`, whether `gapi.client.sheets` is loaded, and
  what the authenticated remote call answers) is the explicit `Session`.
-/

namespace GoogleSheetsService

/-! ## Data model -/

/-- One row of a sheet: the cell strings, left to right. -/
abbrev Row := List String

/-- The grid a read returns: rows top to bottom, row 0 being the header row. -/
abbrev Grid := List Row

/-- A thrown JavaScript error: its `message` and, when the error carries an
HTTP response, `error.response.status`. -/
structure JsError where
  message : String
  status : Option Nat
deriving DecidableEq, Repr

/-- The payload `response.result` of a successful authenticated call. -/
structure ApiResult where
  payload : String
deriving DecidableEq, Repr

deriving instance DecidableEq for Except

/-- The ambient state consulted by a write operation. -/
structure Session where
  /-- The field `this.useOAuth`. -/
  useOAuth : Bool
  /-- The answer of `AuthService.isUserSignedIn()`. -/
  isUserSignedIn : Bool
  /-- Whether `gapi.client.sheets` is truthy. -/
  sheetsLoaded : Bool
  /-- What the authenticated `gapi.client.sheets` call does: resolve or throw. -/
  callOutcome : Except JsError ApiResult

/-- The address of the cells a `spreadsheets.values.update` call writes. -/
inductive A1Range where
  /-- The single cell `<sheet>!<column><row>`. -/
  | cell (sheetName : String) (columnLetter : String) (row : Int)
  /-- The row segment `<sheet>!<first><row>:<last><row>`. -/
  | rowSpan (sheetName : String) (firstColumn lastColumn : String) (row : Int)
deriving DecidableEq, Repr

/-- A mutation request handed to the authenticated client. -/
inductive WriteRequest where
  /-- The call `spreadsheets.values.update` with `range` and `values`. -/
  | valuesUpdate (range : A1Range) (values : List (List String))
  /-- The call `spreadsheets.batchUpdate` with one `deleteDimension` request on `ROWS`. -/
  | deleteDimension (sheetId : Nat) (startIndex endIndex : Int)
deriving DecidableEq, Repr

/-- What running an operation produced: the value returned or the error
thrown, and the requests that were sent to the authenticated client. -/
structure Outcome (α : Type) where
  result : Except JsError α
  requests : List WriteRequest

/-! ## JavaScript primitives -/

/-- The method `Array.prototype.findIndex`: index of the first element satisfying `p`, or `-1`. -/
def findIndex {α : Type} (p : α → Bool) (xs : List α) : Int :=
  match xs.findIdx? p with
  | some i => (i : Int)
  | none => -1

/-- The element access `row[i]`: `none` stands for `undefined`. -/
def cellAt (row : Row) (i : Int) : Option String :=
  if i < 0 then none else row[i.toNat]?

/-- The method `String.prototype.includes`. -/
def includes (s k : String) : Bool :=
  s.data.tails.any (fun t => k.data.isPrefixOf t)

/-- The method `String.prototype.toLowerCase`, on the ASCII letters.  The
keywords tested after lowering are ASCII words without `k`, and `i` occurs in
them only in front of `d`, so the non-ASCII characters JavaScript lowers to
ASCII letters (the Kelvin sign, dotted capital I) never change whether a
keyword occurs. -/
def toLowerCase (s : String) : String :=
  String.mk (s.data.map Char.toLower)

/-- The expression `a || b` on a cell: `undefined` and the empty string are falsy. -/
def orElse (cell : Option String) (dflt : String) : String :=
  match cell with
  | some v => if v = "" then dflt else v
  | none => dflt

/-- The method `String.prototype.padStart` with a one-character filler. -/
def padStart (s : String) (targetLength : Nat) (fill : Char) : String :=
  String.mk (List.replicate (targetLength - s.length) fill) ++ s

/-! ## Column letters -/

/-- The loop of `columnIndexToLetter`: while `index >= 0`, put the letter of
`index % 26` in front and continue with `floor(index / 26) - 1`. -/
def columnIndexToLetterLoop (index : Int) (letter : String) : String :=
  if _h : 0 ≤ index then
    columnIndexToLetterLoop (index / 26 - 1)
      (String.singleton (Char.ofNat (65 + (index % 26).toNat)) ++ letter)
  else
    letter
termination_by (index + 1).toNat
decreasing_by
  simp_wf
  omega

/-- The helper `columnIndexToLetter(index)`. -/
def columnIndexToLetter (index : Int) : String :=
  columnIndexToLetterLoop index ""

/-! ## Reads -/

/-- The method `getSampleData(sheetName)`: the built-in grid for the sheet
called "Students" (in any letter case), a one-cell grid otherwise. -/
def getSampleData (sheetName : String) : Grid :=
  if toLowerCase sheetName = "students" then
    [["ID", "Name", "Class", "School"],
     ["1", "Harshavardhan", "6th Class", "BV & B N high school Jandrapet"],
     ["2", "Lakshmi priya p", "9th Class", "BV & B N high school Jandrapet"],
     ["3", "Madhu sree", "8th Class", "BV & B N high school Jandrapet"],
     ["4", "Muthukuri.thirupathamma", "10th Class", "BV & B N high school Jandrapet"],
     ["5", "Pallavi p", "11th Class", "BV & B N high school Jandrapet"],
     ["6", "Varshini D.", "12th Class", "BV & B N high school Jandrapet"],
     ["7", "Nitya Sri", "6th Class", "BV & B N high school Jandrapet"],
     ["8", "KOLLURU Sir Vidya", "7th Class", "BV & B N high school Jandrapet"],
     ["9", "Perikala Bhavishya", "8th Class", "BV & B N high school Jandrapet"],
     ["10", "Shanmukha priya", "9th Class", "BV & B N high school Jandrapet"],
     ["11", "M.Manasvi", "10th Class", "BV & B N high school Jandrapet"],
     ["12", "MANCHIKANTI NIHARIKA", "11th Class", "BV & B N high school Jandrapet"],
     ["13", "MANCHIKANTI VEERA VENKAT SIVA SAI VARUN", "12th Class",
      "BV & B N high school Jandrapet"],
     ["14", "KOLLURU shanvitha sir ram", "6th Class", "BV & B N high school Jandrapet"],
     ["15", "Hema sai", "7th Class", "BV & B N high school Jandrapet"],
     ["16", "Mokshitha", "8th Class", "BV & B N high school Jandrapet"]]
  else
    [["No Data Available"]]

/-- A student record as `getStudentData` builds it. -/
structure Student where
  id : String
  name : String
  classValue : String
  school : String
deriving DecidableEq, Repr

/-- The test `header && header.toLowerCase().includes(keyword)`. -/
def headerHas (keyword : String) (header : String) : Bool :=
  header != "" && includes (toLowerCase header) keyword

/-- The column indices `getStudentData` settles on for a header row. -/
structure ColumnMap where
  idColIndex : Int
  nameColIndex : Int
  classColIndex : Int
  schoolColIndex : Int
deriving DecidableEq, Repr

/-- The column heuristics of `getStudentData`: first header containing the
keyword; for the id a second scan for "number" or "phone"; then the defaults
0, 1, 2, 3. -/
def resolveColumns (headerRow : Row) : ColumnMap :=
  let idColIndex := findIndex (headerHas "id") headerRow
  let nameColIndex := findIndex (headerHas "name") headerRow
  let classColIndex := findIndex (headerHas "class") headerRow
  let schoolColIndex := findIndex (headerHas "school") headerRow
  let idColIndex :=
    if idColIndex = -1 then
      findIndex (fun header => headerHas "number" header || headerHas "phone" header) headerRow
    else idColIndex
  { idColIndex := if idColIndex = -1 then 0 else idColIndex
    nameColIndex := if nameColIndex = -1 then 1 else nameColIndex
    classColIndex := if classColIndex = -1 then 2 else classColIndex
    schoolColIndex := if schoolColIndex = -1 then 3 else schoolColIndex }

/-- The placeholder id: "S" and `index + 1` padded with zeros to three characters. -/
def placeholderId (index : Nat) : String :=
  "S" ++ padStart (toString (index + 1)) 3 '0'

/-- The placeholder name "Student " and `index + 1`. -/
def placeholderName (index : Nat) : String :=
  "Student " ++ toString (index + 1)

/-- The callback `getStudentData` maps over the data rows of a fetched grid. -/
def studentOfRow (cols : ColumnMap) (index : Nat) (row : Row) : Student :=
  if row.length = 0 then
    { id := placeholderId index
      name := placeholderName index
      classValue := "N/A"
      school := "N/A" }
  else
    { id := orElse (cellAt row cols.idColIndex) (placeholderId index)
      name := orElse (cellAt row cols.nameColIndex) (placeholderName index)
      classValue := orElse (cellAt row cols.classColIndex) "N/A"
      school := orElse (cellAt row cols.schoolColIndex) "N/A" }

/-- The callback `getStudentData` maps over the data rows of the sample grid. -/
def studentOfSampleRow (cols : ColumnMap) (index : Nat) (row : Row) : Student :=
  { id := orElse (cellAt row cols.idColIndex) (placeholderId index)
    name := orElse (cellAt row cols.nameColIndex) (placeholderName index)
    classValue := orElse (cellAt row cols.classColIndex) "N/A"
    school := orElse (cellAt row cols.schoolColIndex) "N/A" }

/-- The `catch` block of `getStudentData`: the records of the sample grid
when the flag `USE_SAMPLE_DATA_ON_ERROR` is set, the error again otherwise. -/
def getStudentDataFallback (useSampleDataOnError : Bool) (sheetName : String)
    (error : JsError) : Except JsError (List Student) :=
  if useSampleDataOnError then
    let sampleData := getSampleData sheetName
    if sampleData.length ≤ 1 then
      .error ⟨"No sample student data available", none⟩
    else
      .ok ((sampleData.drop 1).mapIdx (studentOfSampleRow (resolveColumns (sampleData.headD []))))
  else
    .error error

/-- The method `getStudentData(sheetName, range)`; `fetched` is what
`await this.getSheetData(sheetName, range)` gave. -/
def getStudentData (useSampleDataOnError : Bool) (sheetName : String)
    (fetched : Except JsError Grid) : Except JsError (List Student) :=
  match fetched with
  | .error error => getStudentDataFallback useSampleDataOnError sheetName error
  | .ok data =>
    if data.length = 0 then
      getStudentDataFallback useSampleDataOnError sheetName
        ⟨"No student data found in the sheet", none⟩
    else
      .ok ((data.drop 1).mapIdx (studentOfRow (resolveColumns (data.headD []))))

/-! ## Writes -/

/-- The outer `catch` of a write operation: an error with HTTP status 401 or
403 is replaced by an explanatory one, any other error is thrown again. -/
def classifyWriteError (authMessage : String) (error : JsError) : JsError :=
  if error.status = some 401 then
    ⟨authMessage, none⟩
  else if error.status = some 403 then
    ⟨"Permission denied: Make sure your Google Sheet is shared with edit permissions.", none⟩
  else
    error

/-- The 401 message of `addDateColumn` and `updateAttendanceByStudentId`. -/
def signInToWrite : String :=
  "Authentication error: You need to sign in with your Google account to write to Google Sheets."

/-- The 401 message of `updateStudentById`. -/
def signInToUpdate : String :=
  "Authentication error: You need to sign in with your Google account to update students."

/-- The 401 message of `deleteStudentById`. -/
def signInToDelete : String :=
  "Authentication error: You need to sign in with your Google account to delete students."

/-- The object `addDateColumn` returns. -/
structure DateColumnResult where
  columnIndex : Int
  columnLetter : String
  isExisting : Bool
  simulated : Bool
deriving DecidableEq, Repr

/-- The method `addDateColumn(sheetName, dateStr)`; `fetched` is what
`await this.getSheetData(sheetName, 'A1:Z1')` gave. -/
def addDateColumn (s : Session) (fetched : Except JsError Grid) (sheetName dateStr : String) :
    Outcome DateColumnResult :=
  match fetched with
  | .error error => ⟨.error (classifyWriteError signInToWrite error), []⟩
  | .ok headerData =>
    match headerData.head? with
    | none =>
      ⟨.error (classifyWriteError signInToWrite ⟨"Could not retrieve headers", none⟩), []⟩
    | some headers =>
      let existingColumnIndex := findIndex (fun header => header == dateStr) headers
      let columnIndex : Int :=
        if existingColumnIndex ≠ -1 then existingColumnIndex else (headers.length : Int)
      let columnLetter := columnIndexToLetter columnIndex
      let isExisting : Bool := decide (existingColumnIndex ≠ -1)
      let simulation : DateColumnResult :=
        { columnIndex := columnIndex, columnLetter := columnLetter,
          isExisting := isExisting, simulated := true }
      let real : DateColumnResult :=
        { columnIndex := columnIndex, columnLetter := columnLetter,
          isExisting := isExisting, simulated := false }
      if s.useOAuth && s.isUserSignedIn then
        if existingColumnIndex = -1 then
          if !s.sheetsLoaded then
            ⟨.ok simulation, []⟩
          else
            let request := WriteRequest.valuesUpdate (.cell sheetName columnLetter 1) [[dateStr]]
            match s.callOutcome with
            | .ok _ => ⟨.ok real, [request]⟩
            | .error _ => ⟨.ok simulation, [request]⟩
        else
          ⟨.ok real, []⟩
      else
        ⟨.ok simulation, []⟩

/-- The row scan shared by `updateAttendanceByStudentId` and
`findStudentRowByID`: `rows` are the rows from index `i` on; the first row
whose id cell is `studentId` gives `i + 1`, none gives `-1`. -/
def scanStudentRows (idColIndex : Int) (studentId : String) : List Row → Nat → Int
  | [], _ => -1
  | row :: rest, i =>
    if cellAt row idColIndex = some studentId then (i : Int) + 1
    else scanStudentRows idColIndex studentId rest (i + 1)

/-- The message of the error thrown when no row carries the id. -/
def studentNotFound (studentId : String) : JsError :=
  ⟨"Student with ID " ++ studentId ++ " not found", none⟩

/-- The id column `updateAttendanceByStudentId` resolves: the first header
containing "id", "number" or "phone", column 0 when there is none. -/
def attendanceIdColumn (headerRow : Row) : Int :=
  let idColIndex :=
    findIndex (fun header =>
      headerHas "id" header || headerHas "number" header || headerHas "phone" header) headerRow
  if idColIndex = -1 then 0 else idColIndex

/-- The object `updateAttendanceByStudentId` returns. -/
structure AttendanceResult where
  success : Bool
  studentRowIndex : Int
  dateColumnLetter : String
  simulated : Bool
deriving DecidableEq, Repr

/-- The method `updateAttendanceByStudentId(sheetName, studentId,
dateColumnLetter, status)`; `fetched` is what
`await this.getSheetData(sheetName, 'A1:Z1000')` gave. -/
def updateAttendanceByStudentId (s : Session) (fetched : Except JsError Grid)
    (sheetName studentId dateColumnLetter status : String) : Outcome AttendanceResult :=
  match fetched with
  | .error error => ⟨.error (classifyWriteError signInToWrite error), []⟩
  | .ok studentData =>
    let headerRow := studentData.headD []
    let idColIndex := attendanceIdColumn headerRow
    let studentRowIndex := scanStudentRows idColIndex studentId (studentData.drop 1) 1
    if studentRowIndex = -1 then
      ⟨.error (classifyWriteError signInToWrite (studentNotFound studentId)), []⟩
    else
      let simulation : AttendanceResult :=
        { success := true, studentRowIndex := studentRowIndex,
          dateColumnLetter := dateColumnLetter, simulated := true }
      let real : AttendanceResult :=
        { success := true, studentRowIndex := studentRowIndex,
          dateColumnLetter := dateColumnLetter, simulated := false }
      if s.useOAuth && s.isUserSignedIn then
        if !s.sheetsLoaded then
          ⟨.ok simulation, []⟩
        else
          let request :=
            WriteRequest.valuesUpdate (.cell sheetName dateColumnLetter studentRowIndex) [[status]]
          match s.callOutcome with
          | .ok _ => ⟨.ok real, [request]⟩
          | .error _ => ⟨.ok simulation, [request]⟩
      else
        ⟨.ok simulation, []⟩

/-- The id column `findStudentRowByID` resolves: the first header containing
"id", column 0 when there is none. -/
def lookupIdColumn (headerRow : Row) : Int :=
  let idColIndex := findIndex (headerHas "id") headerRow
  if idColIndex = -1 then 0 else idColIndex

/-- The object `findStudentRowByID` returns. -/
structure StudentRow where
  rowIndex : Int
  idColIndex : Int
  headerRow : Row
  studentData : Grid
deriving DecidableEq, Repr

/-- The method `findStudentRowByID(sheetName, studentId)`; `fetched` is what
`await this.getSheetData(sheetName, 'A1:Z1000')` gave.  Its `catch` throws
the error again unchanged. -/
def findStudentRowByID (fetched : Except JsError Grid) (studentId : String) :
    Except JsError StudentRow :=
  match fetched with
  | .error error => .error error
  | .ok studentData =>
    let headerRow := studentData.headD []
    let idColIndex := lookupIdColumn headerRow
    let studentRowIndex := scanStudentRows idColIndex studentId (studentData.drop 1) 1
    if studentRowIndex = -1 then
      .error (studentNotFound studentId)
    else
      .ok { rowIndex := studentRowIndex, idColIndex := idColIndex,
            headerRow := headerRow, studentData := studentData }

/-- The method `updateStudentById(studentId, rowData)`; `fetched` is what
the read inside `findStudentRowByID` gave. -/
def updateStudentById (s : Session) (fetched : Except JsError Grid) (studentId : String)
    (rowData : List String) : Outcome ApiResult :=
  match findStudentRowByID fetched studentId with
  | .error error => ⟨.error (classifyWriteError signInToUpdate error), []⟩
  | .ok found =>
    if s.useOAuth && s.isUserSignedIn then
      if !s.sheetsLoaded then
        ⟨.error (classifyWriteError signInToUpdate ⟨"Google Sheets API not loaded", none⟩), []⟩
      else
        let request :=
          WriteRequest.valuesUpdate (.rowSpan "Students" "A" "E" found.rowIndex) [rowData]
        match s.callOutcome with
        | .ok response => ⟨.ok response, [request]⟩
        | .error oauthError => ⟨.error (classifyWriteError signInToUpdate oauthError), [request]⟩
    else
      ⟨.error (classifyWriteError signInToUpdate ⟨signInToUpdate, none⟩), []⟩

/-- The method `deleteStudentById(studentId)`; `fetched` is what the read
inside `findStudentRowByID` gave. -/
def deleteStudentById (s : Session) (fetched : Except JsError Grid) (studentId : String) :
    Outcome ApiResult :=
  match findStudentRowByID fetched studentId with
  | .error error => ⟨.error (classifyWriteError signInToDelete error), []⟩
  | .ok found =>
    if s.useOAuth && s.isUserSignedIn then
      if !s.sheetsLoaded then
        ⟨.error (classifyWriteError signInToDelete ⟨"Google Sheets API not loaded", none⟩), []⟩
      else
        let request := WriteRequest.deleteDimension 0 (found.rowIndex - 1) found.rowIndex
        match s.callOutcome with
        | .ok response => ⟨.ok response, [request]⟩
        | .error oauthError => ⟨.error (classifyWriteError signInToDelete oauthError), [request]⟩
    else
      ⟨.error (classifyWriteError signInToDelete ⟨signInToDelete, none⟩), []⟩

/-! ## The remote spreadsheet

The store behind the client is the spreadsheet service.  It is modelled as one
sheet, a grid of cells of any width, with the service's documented behaviour:
a read of a range leaves out trailing empty cells and trailing empty rows, a
`values.update` stores the given strings at the addressed cells (extending the
sheet with empty cells where needed), and a `deleteDimension` on rows removes
the rows `startIndex` (included) to `endIndex` (excluded). -/

/-- The zero-based column a column reference in A1 notation denotes: "A" is
0, "Z" is 25, "AA" is 26. -/
def letterToColumnIndex (letters : String) : Nat :=
  letters.data.foldl (fun acc c => acc * 26 + (c.toNat - 64)) 0 - 1

/-- A row as a read returns it: without its trailing empty cells. -/
def trimRow (row : Row) : Row :=
  row.rdropWhile (fun cell => cell == "")

/-- What a read of the first `maxRows` rows and `maxCols` columns returns
(`A1:Z1` is 1 and 26, `A1:Z1000` is 1000 and 26). -/
def readRange (sheet : Grid) (maxRows maxCols : Nat) : Grid :=
  ((sheet.take maxRows).map (fun row => trimRow (row.take maxCols))).rdropWhile
    (fun row => row == [])

/-- Store `v` at position `i` of a list, filling up with `blank` when the list is shorter. -/
def setAt {α : Type} (xs : List α) (i : Nat) (blank v : α) : List α :=
  (xs ++ List.replicate (i + 1 - xs.length) blank).set i v

/-- Store `v` in the cell at row `rowIdx` and column `colIdx` (both zero-based). -/
def setCell (sheet : Grid) (rowIdx colIdx : Nat) (v : String) : Grid :=
  setAt sheet rowIdx [] (setAt (sheet.getD rowIdx []) colIdx "" v)

/-- Store a block of values with its top left corner at `rowIdx`, `colIdx`. -/
def writeBlock (sheet : Grid) (rowIdx colIdx : Nat) (values : List (List String)) : Grid :=
  values.enum.foldl
    (fun acc rv => rv.2.enum.foldl
      (fun acc2 cv => setCell acc2 (rowIdx + rv.1) (colIdx + cv.1) cv.2) acc)
    sheet

/-- The effect of one request on the sheet. -/
def applyRequest (sheet : Grid) : WriteRequest → Grid
  | .valuesUpdate (.cell _ columnLetter row) values =>
    writeBlock sheet (row - 1).toNat (letterToColumnIndex columnLetter) values
  | .valuesUpdate (.rowSpan _ firstColumn _ row) values =>
    writeBlock sheet (row - 1).toNat (letterToColumnIndex firstColumn) values
  | .deleteDimension _ startIndex endIndex =>
    sheet.take startIndex.toNat ++ sheet.drop endIndex.toNat

/-- The sheet after an operation: its requests take effect when the
authenticated call resolves, and leave the sheet as it was when it throws. -/
def sheetAfter (s : Session) (sheet : Grid) (requests : List WriteRequest) : Grid :=
  match s.callOutcome with
  | .ok _ => requests.foldl applyRequest sheet
  | .error _ => sheet

/-- The answer of `addDateColumn` in closed form, for the header row
`headers`: the column of the date or the first column behind the header row,
and `simulated` unless the call was signed in and either found the date or
wrote it. -/
def dateColumnAnswer (s : Session) (headers : Row) (dateStr : String) : DateColumnResult :=
  { columnIndex :=
      if findIndex (fun header => header == dateStr) headers ≠ -1 then
        findIndex (fun header => header == dateStr) headers
      else (headers.length : Int)
    columnLetter :=
      columnIndexToLetter
        (if findIndex (fun header => header == dateStr) headers ≠ -1 then
          findIndex (fun header => header == dateStr) headers
        else (headers.length : Int))
    isExisting := decide (findIndex (fun header => header == dateStr) headers ≠ -1)
    simulated :=
      !((s.useOAuth && s.isUserSignedIn) &&
        (decide (findIndex (fun header => header == dateStr) headers ≠ -1) ||
          (s.sheetsLoaded && s.callOutcome.toBool))) }

/-- The method `addDateColumn` run against the remote sheet: its read of
`A1:Z1` is served from the sheet; the answer is what the call produced
together with the sheet it leaves behind. -/
def addDateColumnOnSheet (s : Session) (sheet : Grid) (sheetName dateStr : String) :
    Outcome DateColumnResult × Grid :=
  let outcome := addDateColumn s (.ok (readRange sheet 1 26)) sheetName dateStr
  (outcome, sheetAfter s sheet outcome.requests)

/-! ## Vocabulary of the properties -/

/-- Row `i` of the grid is a data row (not the header row) whose cell in
column `idCol` is `studentId`. -/
def dataRowHasId (grid : Grid) (idCol : Int) (studentId : String) (i : Nat) : Prop :=
  1 ≤ i ∧ grid[i]?.bind (fun row => cellAt row idCol) = some studentId

instance (grid : Grid) (idCol : Int) (studentId : String) (i : Nat) :
    Decidable (dataRowHasId grid idCol studentId i) :=
  inferInstanceAs (Decidable (_ ∧ _))

/-- A header row 27 cells wide: the four student columns, 22 weekly dates in
columns E to Z, and one more date in column AA. -/
def wideHeaderRow : Row :=
  ["ID", "Name", "Class", "School",
   "2024-01-07", "2024-01-14", "2024-01-21", "2024-01-28", "2024-02-04", "2024-02-11",
   "2024-02-18", "2024-02-25", "2024-03-03", "2024-03-10", "2024-03-17", "2024-03-24",
   "2024-03-31", "2024-04-07", "2024-04-14", "2024-04-21", "2024-04-28", "2024-05-05",
   "2024-05-12", "2024-05-19", "2024-05-26", "2024-06-02",
   "2024-06-09"]

/-- The ordinal `n` written with three decimal digits, zeros in front
(`001`, `042`, `999`): the placeholder numbering in the specification's words. -/
def threeDigits (n : Nat) : String :=
  String.mk [Nat.digitChar (n / 100 % 10), Nat.digitChar (n / 10 % 10), Nat.digitChar (n % 10)]

/-! ## The remote read and the next student id -/

/-- What a run of `getSheetData` did: the grid returned or the error thrown,
the number of HTTP requests made, and the delays awaited (milliseconds, in
order). -/
structure ReadRun where
  result : Except JsError Grid
  requests : Nat
  waits : List Nat
deriving DecidableEq, Repr

/-- The method `getSheetData(sheetName, range, retryCount)`.  `remote n` is
what the HTTP read made with `retryCount = n` answers: the `values` of the
response (absent for an empty range) or the error thrown, whose `status` is
`error.response.status`.  The flag is `this.USE_SAMPLE_DATA_ON_ERROR`, which
the constructor sets to `true`. -/
def getSheetData (useSampleDataOnError : Bool) (remote : Nat → Except JsError (Option Grid))
    (sheetName : String) (retryCount : Nat) : ReadRun :=
  match remote retryCount with
  | .ok values => { result := .ok (values.getD []), requests := 1, waits := [] }
  | .error error =>
    if _h : error.status = some 429 ∧ retryCount < 3 then
      let waitTime := 2 ^ retryCount * 1000
      let retried := getSheetData useSampleDataOnError remote sheetName (retryCount + 1)
      { result := retried.result, requests := retried.requests + 1,
        waits := waitTime :: retried.waits }
    else if useSampleDataOnError then
      { result := .ok (getSampleData sheetName), requests := 1, waits := [] }
    else
      { result := .error error, requests := 1, waits := [] }
termination_by 3 - retryCount
decreasing_by
  simp_wf
  omega

/-- The white space `parseInt` skips in front of the numeral. -/
def isWhiteSpace (c : Char) : Bool :=
  c.toNat = 0x09 || c.toNat = 0x0A || c.toNat = 0x0B || c.toNat = 0x0C || c.toNat = 0x0D ||
  c.toNat = 0x20 || c.toNat = 0xA0 || c.toNat = 0x1680 ||
  (0x2000 ≤ c.toNat && c.toNat ≤ 0x200A) ||
  c.toNat = 0x2028 || c.toNat = 0x2029 || c.toNat = 0x202F || c.toNat = 0x205F ||
  c.toNat = 0x3000 || c.toNat = 0xFEFF

/-- The value of a run of decimal digits. -/
def digitsValue (digits : List Char) : Nat :=
  digits.foldl (fun acc c => acc * 10 + (c.toNat - 48)) 0

/-- The function `parseInt(s, 10)`: leading white space is skipped, one sign
is read, then the longest run of decimal digits; `none` stands for `NaN`
(no digit there).  JavaScript numbers are doubles: the integer read is exact
up to `2 ^ 53`, the range this model covers. -/
def parseInt (s : String) : Option Int :=
  let body := s.data.dropWhile isWhiteSpace
  let signed : Bool × List Char :=
    match body with
    | '-' :: rest => (true, rest)
    | '+' :: rest => (false, rest)
    | rest => (false, rest)
  let digits := signed.2.takeWhile Char.isDigit
  if digits = [] then none
  else if signed.1 then some (-(digitsValue digits : Int))
  else some (digitsValue digits : Int)

/-- The body of the `forEach` in `generateStudentId`: a row whose first cell
parses to a number above `highestId` raises it. -/
def highestIdStep (highestId : Int) (row : Row) : Int :=
  match row[0]? with
  | none => highestId
  | some cell =>
    if cell = "" then highestId
    else
      match parseInt cell with
      | none => highestId
      | some idValue => if idValue > highestId then idValue else highestId

/-- The spacing of the doubles around the magnitude `a`: the least power of
two `p`, among `p`, `2 * p`, ..., with `a < 2 ^ 53 * p`.  The fuel bounds
the doublings; 1024 of them cover every finite double. -/
def doubleSpacing : Nat → Nat → Nat → Nat
  | 0, _, p => p
  | fuel + 1, a, p => if a < 2 ^ 53 * p then p else doubleSpacing fuel a (2 * p)

/-- The double nearest to the integer `n`, ties going to the even
significand: the value of an arithmetic result whose exact value is `n`. -/
def roundToDouble (n : Int) : Int :=
  let a := n.natAbs
  let p := doubleSpacing 1024 a 1
  let q := a / p
  let r := a % p
  let q := if 2 * r > p || (2 * r == p && q % 2 == 1) then q + 1 else q
  if n < 0 then -((q * p : Nat) : Int) else ((q * p : Nat) : Int)

/-- The function `generateStudentId` of `AddStudentForm`: the id it puts in
the form.  `fetched` is what `await GoogleSheetsService.getSheetData(
'Students', 'A1:A1000')` gave, `nowMs` is `Date.now()`.  The sum
`highestId + 1` is a sum of doubles; the numeral of an integer up to `2 ^ 53`
is its decimal expansion. -/
def generateStudentId (fetched : Except JsError Grid) (nowMs : Nat) : String :=
  match fetched with
  | .ok data =>
    let highestId : Int :=
      if data.length > 1 then (data.drop 1).foldl highestIdStep 0 else 0
    toString (roundToDouble (highestId + 1))
  | .error _ => toString (nowMs / 1000)

/-- The id `AddStudentForm` generates when its read goes through
`getSheetData` against the remote. -/
def generateStudentIdFromRemote (useSampleDataOnError : Bool)
    (remote : Nat → Except JsError (Option Grid)) (nowMs : Nat) : String :=
  generateStudentId (getSheetData useSampleDataOnError remote "Students" 0).result nowMs


/-- The integers `parseInt` reads from the column-0 cells of the data rows, in row order. -/
def parsedIds (data : Grid) : List Int :=
  (data.drop 1).filterMap (fun row => row[0]?.bind parseInt)

/-- The id in the specification's words: the decimal numeral of one more than
the largest integer parsed from the column-0 cells, 0 standing in when no
cell parses. -/
def specNextStudentId (data : Grid) : String :=
  match parsedIds data with
  | [] => toString ((0 : Int) + 1)
  | v :: vs => toString (vs.foldl max v + 1)


/-! ## Attendance analytics

The component `AttendanceAnalytics`.  Its counters are natural numbers.  A
rate `(present / total) * 100` is a JavaScript double: the quotient of the
two counts is rounded to the nearest double, and its product with 100 is
rounded again.  A rate is kept as the rational number that double is, so
rates compare and subtract as the doubles do.  `Array.prototype.sort` with
a consistent comparator is the stable sort, computed here by insertion. -/

/-- A date column: its index in the header row and its header. -/
structure DateColumn where
  index : Nat
  date : String
deriving DecidableEq, Repr

/-- The test `/^\d{4}-\d{2}-\d{2}$/.test(header)`. -/
def isDateHeader (header : String) : Bool :=
  match header.data with
  | [y1, y2, y3, y4, s1, m1, m2, s2, d1, d2] =>
    y1.isDigit && y2.isDigit && y3.isDigit && y4.isDigit && s1 == '-' &&
    m1.isDigit && m2.isDigit && s2 == '-' && d1.isDigit && d2.isDigit
  | _ => false

/-- The `indices` memo of the component. -/
structure Indices where
  nameIndex : Int
  idIndex : Int
  classIndex : Int
  schoolIndex : Int
  dateColumns : List DateColumn
deriving DecidableEq, Repr

/-- The date columns of a header row, in header order (the `reduce` of the component). -/
def dateColumnsOf (headers : Row) : List DateColumn :=
  headers.enum.filterMap (fun p =>
    if p.2 != "" && isDateHeader p.2 then some { index := p.1, date := p.2 } else none)

/-- The column indices the component resolves from the header row. -/
def analyticsIndices (headers : Row) : Indices :=
  { nameIndex := findIndex (fun h => h != "" && includes (toLowerCase h) "name" &&
      !includes (toLowerCase h) "school") headers
    idIndex := findIndex (fun h => h != "" && includes (toLowerCase h) "id") headers
    classIndex := findIndex (fun h => h != "" && includes (toLowerCase h) "class") headers
    schoolIndex := findIndex (fun h => h != "" && includes (toLowerCase h) "school") headers
    dateColumns := dateColumnsOf headers }

/-- The three counters of an aggregate. -/
structure Counts where
  present : Nat
  absent : Nat
  total : Nat
deriving DecidableEq, Repr

/-- Counting one status cell: a non-empty status adds to `total`, and to
`present` when it contains "present", else to `absent` when it contains
"absent". -/
def countStatus (c : Counts) (status : Option String) : Counts :=
  match status with
  | none => c
  | some s =>
    if s = "" then c
    else if includes (toLowerCase s) "present" then
      { present := c.present + 1, absent := c.absent, total := c.total + 1 }
    else if includes (toLowerCase s) "absent" then
      { present := c.present, absent := c.absent + 1, total := c.total + 1 }
    else
      { present := c.present, absent := c.absent, total := c.total + 1 }

/-- Counting one row under the date filter: all date columns for "All",
otherwise the first date column with the selected header, if there is one. -/
def countRow (ix : Indices) (selectedDate : String) (c : Counts) (row : Row) : Counts :=
  if selectedDate = "All" then
    ix.dateColumns.foldl (fun acc dateCol => countStatus acc row[dateCol.index]?) c
  else
    match ix.dateColumns.find? (fun col => col.date == selectedDate) with
    | some dateCol => countStatus c row[dateCol.index]?
    | none => c

/-- The row filter on school and class: "All" lets every row pass. -/
def rowPasses (ix : Indices) (selectedSchool selectedClass : String) (row : Row) : Bool :=
  (selectedSchool == "All" || cellAt row ix.schoolIndex == some selectedSchool) &&
  (selectedClass == "All" || cellAt row ix.classIndex == some selectedClass)

/-- A finite double that is not negative: the significand scaled by
`2 ^ down / 2 ^ up` (one of the two exponents is 0). -/
structure Double where
  significand : Nat
  down : Nat
  up : Nat
deriving DecidableEq, Repr

/-- The rational number a double is. -/
def Double.value (x : Double) : ℚ :=
  (x.significand : ℚ) * 2 ^ x.down / 2 ^ x.up

/-- Doubling the numerator `n` while `n / d` is below `2 ^ 52`: the
numerator reached and the number of doublings added to `k`. -/
def scaleUp : Nat → Nat → Nat → Nat → Nat × Nat
  | 0, n, _, k => (n, k)
  | fuel + 1, n, d, k => if n < 2 ^ 52 * d then scaleUp fuel (2 * n) d (k + 1) else (n, k)

/-- Doubling the denominator `d` while `n / d` is at least `2 ^ 53`: the
denominator reached and the number of doublings added to `k`. -/
def scaleDown : Nat → Nat → Nat → Nat → Nat × Nat
  | 0, _, d, k => (d, k)
  | fuel + 1, n, d, k => if 2 ^ 53 * d ≤ n then scaleDown fuel n (2 * d) (k + 1) else (d, k)

/-- The integer nearest to the ratio `n / d`, a tie going to the even one. -/
def roundHalfEven (n d : Nat) : Nat :=
  let q := n / d
  let r := n % d
  if 2 * r > d ∨ (2 * r = d ∧ q % 2 = 1) then q + 1 else q

/-- The double nearest to the ratio `n / d`, ties going to the even
significand: the ratio is scaled by a power of two into `[2 ^ 52, 2 ^ 53)`
and rounded to an integer there.  The exponent range of doubles is not
limited here; ratios and products of counts lie far inside it. -/
def nearestDouble (n d : Nat) : Double :=
  if n = 0 ∨ d = 0 then { significand := 0, down := 0, up := 0 }
  else
    let up := scaleUp (53 + d) n d 0
    let down := scaleDown n up.1 d 0
    { significand := roundHalfEven up.1 down.1, down := down.2, up := up.2 }

/-- The expression `(count / total) * 100` on counts, `total` positive: the
quotient is rounded to a double, and so is its product with 100. -/
def percentOf (count total : Nat) : ℚ :=
  let quotient := nearestDouble count total
  (nearestDouble (quotient.significand * 2 ^ quotient.down * 100) (2 ^ quotient.up)).value

/-- The guarded rate `total > 0 ? (present / total) * 100 : 0`. -/
def attendanceRateOf (present total : Nat) : ℚ :=
  if total > 0 then percentOf present total else 0

/-- A JavaScript number that may fail to be finite. -/
inductive JsNumber where
  | finite (q : ℚ)
  | infinity
  | nan
deriving DecidableEq

/-- The unguarded `(count / totalEntries) * 100` of the overall aggregate:
`0 / 0` is `NaN`, a positive count over 0 is `Infinity`. -/
def percentageOf (count totalEntries : Nat) : JsNumber :=
  if totalEntries = 0 then (if count = 0 then .nan else .infinity)
  else .finite (percentOf count totalEntries)

/-- One slice of the overall aggregate. -/
structure OverallSlice where
  name : String
  value : Nat
  percentage : JsNumber
deriving DecidableEq

/-- The memo `overallAttendanceData`. -/
def overallAttendanceData (ix : Indices) (rows : List Row)
    (selectedSchool selectedClass selectedDate : String) : List OverallSlice :=
  if ix.dateColumns.length = 0 then []
  else
    let filteredRows := rows.filter (rowPasses ix selectedSchool selectedClass)
    let c := filteredRows.foldl (countRow ix selectedDate) { present := 0, absent := 0, total := 0 }
    [{ name := "Present", value := c.present, percentage := percentageOf c.present c.total },
     { name := "Absent", value := c.absent, percentage := percentageOf c.absent c.total }]

/-- The school options: "All" and the schools of the rows, each once, in order of first occurrence. -/
def schoolOptions (ix : Indices) (rows : List Row) : List String :=
  "All" :: rows.foldl (fun acc row =>
    match cellAt row ix.schoolIndex with
    | some school => if school = "" ∨ school ∈ acc then acc else acc ++ [school]
    | none => acc) []

/-- One per-school aggregate. -/
structure SchoolAggregate where
  name : String
  attendanceRate : ℚ
  present : Nat
  absent : Nat
  total : Nat
deriving DecidableEq

/-- The memo `schoolAttendanceData`. -/
def schoolAttendanceData (ix : Indices) (rows : List Row) (selectedDate : String) :
    List SchoolAggregate :=
  if ix.dateColumns.length = 0 ∨ (schoolOptions ix rows).length ≤ 1 then []
  else
    ((schoolOptions ix rows).filter (fun school => school != "All")).map (fun school =>
      let schoolRows := rows.filter (fun row => cellAt row ix.schoolIndex == some school)
      let c := schoolRows.foldl (countRow ix selectedDate) { present := 0, absent := 0, total := 0 }
      { name := school, attendanceRate := attendanceRateOf c.present c.total,
        present := c.present, absent := c.absent, total := c.total })

/-- One per-student aggregate. -/
structure StudentAggregate where
  id : Option String
  name : Option String
  classValue : Option String
  school : Option String
  attendanceRate : ℚ
  present : Nat
  absent : Nat
  total : Nat
deriving DecidableEq

/-- The aggregate of one row, as the `map` of `studentAttendanceData` builds it. -/
def studentAggregateOf (ix : Indices) (selectedDate : String) (row : Row) : StudentAggregate :=
  let c := countRow ix selectedDate { present := 0, absent := 0, total := 0 } row
  { id := cellAt row ix.idIndex, name := cellAt row ix.nameIndex,
    classValue := cellAt row ix.classIndex, school := cellAt row ix.schoolIndex,
    attendanceRate := attendanceRateOf c.present c.total,
    present := c.present, absent := c.absent, total := c.total }

/-- The students that enter the ranking: the aggregates of the rows passing
the filter, those with `total > 0`. -/
def rankedStudents (ix : Indices) (rows : List Row)
    (selectedSchool selectedClass selectedDate : String) : List StudentAggregate :=
  ((rows.filter (rowPasses ix selectedSchool selectedClass)).map
    (studentAggregateOf ix selectedDate)).filter (fun student => decide (student.total > 0))

/-- The memo `studentAttendanceData`: the ten lowest rates, ascending. -/
def studentAttendanceData (ix : Indices) (rows : List Row)
    (selectedSchool selectedClass selectedDate : String) : List StudentAggregate :=
  if ix.dateColumns.length = 0 then []
  else
    ((rankedStudents ix rows selectedSchool selectedClass selectedDate).insertionSort
      (fun a b => a.attendanceRate ≤ b.attendanceRate)).take 10


/-- One point of the trend series. -/
structure TrendPoint where
  date : String
  attendanceRate : ℚ
  present : Nat
  absent : Nat
  total : Nat
deriving DecidableEq

/-- The aggregate of one date column over the filtered rows. -/
def trendPointOf (filteredRows : List Row) (dateCol : DateColumn) : TrendPoint :=
  let c := filteredRows.foldl (fun acc row => countStatus acc row[dateCol.index]?)
    { present := 0, absent := 0, total := 0 }
  { date := dateCol.date, attendanceRate := attendanceRateOf c.present c.total,
    present := c.present, absent := c.absent, total := c.total }

/-- Leap years of the Gregorian calendar. -/
def isLeapYear (y : Nat) : Bool :=
  y % 4 = 0 && (y % 100 ≠ 0 || y % 400 = 0)

/-- The number of days of month `m` (1 to 12) in year `y`. -/
def daysInMonth (y m : Nat) : Nat :=
  if m = 2 then (if isLeapYear y then 29 else 28)
  else if m = 4 ∨ m = 6 ∨ m = 9 ∨ m = 11 then 30
  else 31

/-- The year, month and day of a text `YYYY-MM-DD` that names a day of the
calendar; `none` for any other text. -/
def parseDate (s : String) : Option (Nat × Nat × Nat) :=
  if isDateHeader s then
    let y := digitsValue (s.data.take 4)
    let m := digitsValue ((s.data.drop 5).take 2)
    let d := digitsValue ((s.data.drop 8).take 2)
    if 1 ≤ m ∧ m ≤ 12 ∧ 1 ≤ d ∧ d ≤ daysInMonth y m then some (y, m, d) else none
  else none

/-- The day number of 1 January of year `y`, counted from 1 January 1970
(`DayFromYear` of the language specification). -/
def dayFromYear (y : Int) : Int :=
  365 * (y - 1970) + (y - 1969) / 4 - (y - 1901) / 100 + (y - 1601) / 400

/-- The number of days of year `y` before its month `m` (1 to 12). -/
def daysBeforeMonth (y m : Nat) : Nat :=
  [0, 31, 59, 90, 120, 151, 181, 212, 243, 273, 304, 334].getD (m - 1) 0 +
    (if 2 < m ∧ isLeapYear y = true then 1 else 0)

/-- The time value, in milliseconds, of midnight UTC of a calendar day. -/
def epochMs (t : Nat × Nat × Nat) : Int :=
  (dayFromYear (t.1 : Int) + (daysBeforeMonth t.1 t.2.1 : Int) + ((t.2.2 : Int) - 1)) * 86400000

/-- The time value of `new Date(header)` for a header naming a day of the
calendar.  For any other text the value is `NaN` or depends on the engine;
`none` stands for that. -/
def dateValue (s : String) : Option Int :=
  (parseDate s).map epochMs

/-- The comparator `new Date(a.date) - new Date(b.date)` of the trend sort
does not put `b` before `a`: the difference is not positive (a `NaN`
difference counts as 0). -/
def trendBefore (a b : TrendPoint) : Bool :=
  match dateValue a.date, dateValue b.date with
  | some x, some y => decide (x ≤ y)
  | _, _ => true

/-- The memo `attendanceTrendData`; the date filter is not among its inputs. -/
def attendanceTrendData (ix : Indices) (rows : List Row)
    (selectedSchool selectedClass : String) : List TrendPoint :=
  if ix.dateColumns.length = 0 then []
  else
    let filteredRows := rows.filter (rowPasses ix selectedSchool selectedClass)
    (ix.dateColumns.map (trendPointOf filteredRows)).insertionSort
      (fun a b => trendBefore a b = true)

/-- What the component derives from its `data` and its three filters. -/
structure AnalyticsView where
  overall : List OverallSlice
  schools : List SchoolAggregate
  students : List StudentAggregate
  trend : List TrendPoint

/-- The component `AttendanceAnalytics`: its derived data for the grid `data`
and the state `selectedSchool`, `selectedClass`, `selectedDate`. -/
def attendanceAnalytics (data : Grid) (selectedSchool selectedClass selectedDate : String) :
    AnalyticsView :=
  let headers := data.headD []
  let rows := data.drop 1
  let ix := analyticsIndices headers
  { overall := overallAttendanceData ix rows selectedSchool selectedClass selectedDate
    schools := schoolAttendanceData ix rows selectedDate
    students := studentAttendanceData ix rows selectedSchool selectedClass selectedDate
    trend := attendanceTrendData ix rows selectedSchool selectedClass }

/-- Calendar order on year, month, day: earlier or the same day. -/
def calendarLe (a b : Nat × Nat × Nat) : Prop :=
  a.1 < b.1 ∨ (a.1 = b.1 ∧ (a.2.1 < b.2.1 ∨ (a.2.1 = b.2.1 ∧ a.2.2 ≤ b.2.2)))


/-- A status cell that is counted: present and not empty. -/
def statusEntered (status : Option String) : Bool :=
  match status with
  | some s => s != ""
  | none => false

/-- A counted status that contains "present" in any letter case. -/
def statusPresent (status : Option String) : Bool :=
  match status with
  | some s => s != "" && includes (toLowerCase s) "present"
  | none => false

/-- A counted status that contains "absent" and does not contain "present". -/
def statusAbsent (status : Option String) : Bool :=
  match status with
  | some s => s != "" && !includes (toLowerCase s) "present" && includes (toLowerCase s) "absent"
  | none => false

/-- A year, month, day that is a day of the calendar. -/
def validDay (t : Nat × Nat × Nat) : Prop :=
  1 ≤ t.2.1 ∧ t.2.1 ≤ 12 ∧ 1 ≤ t.2.2 ∧ t.2.2 ≤ daysInMonth t.1 t.2.1


/-- The 401 message of `appendRow`. -/
def signInToAdd : String :=
  "Authentication error: You need to sign in with your Google account to add students."

/-- The method `appendRow(sheetName, values)`.  Signed in, the authenticated
`values.append` is tried first and its response returned; when it throws, or
when not signed in, the row is posted with the API key, and `postOutcome` is
what that HTTP post answers.  An error of the post reaches the outer `catch`. -/
def appendRow (s : Session) (postOutcome : Except JsError ApiResult) : Except JsError ApiResult :=
  let apiKeyMethod : Except JsError ApiResult :=
    match postOutcome with
    | .ok response => .ok response
    | .error error => .error (classifyWriteError signInToAdd error)
  if s.useOAuth && s.isUserSignedIn then
    if !s.sheetsLoaded then apiKeyMethod
    else
      match s.callOutcome with
      | .ok response => .ok response
      | .error _ => apiKeyMethod
  else apiKeyMethod

/-- What the outer `catch` of a write operation makes of the error `raised`
that reached it: `thrown` is the error the operation throws. -/
def handledAs (raised thrown : JsError) : Prop :=
  (raised.status = some 401 → ∃ rest, thrown.message = "Authentication error" ++ rest) ∧
  (raised.status = some 403 → ∃ rest, thrown.message = "Permission denied" ++ rest) ∧
  (raised.status ≠ some 401 → raised.status ≠ some 403 → thrown = raised)


/-- The date columns in scope of the date filter: all of them for "All",
otherwise the first one whose header is the selected date, if any. -/
def scopedColumns (ix : Indices) (selectedDate : String) : List DateColumn :=
  if selectedDate = "All" then ix.dateColumns
  else (ix.dateColumns.find? (fun col => col.date == selectedDate)).toList

/-- The status cells in scope: for each of the rows, its cells in the scoped date columns. -/
def scopedCells (ix : Indices) (selectedDate : String) (rows : List Row) : List (Option String) :=
  (rows.map (fun row => (scopedColumns ix selectedDate).map (fun dateCol =>
    row[dateCol.index]?))).flatten

/-- The counters behind the overall aggregate (`totalPresent`, `totalAbsent`,
`totalEntries`): the loop of `overallAttendanceData` over the filtered rows. -/
def overallCounts (ix : Indices) (rows : List Row)
    (selectedSchool selectedClass selectedDate : String) : Counts :=
  (rows.filter (rowPasses ix selectedSchool selectedClass)).foldl (countRow ix selectedDate)
    { present := 0, absent := 0, total := 0 }


/-- A status that contains "present" or "absent" in any letter case. -/
def statusRecognised (status : Option String) : Bool :=
  match status with
  | some s => includes (toLowerCase s) "present" || includes (toLowerCase s) "absent"
  | none => false

/-- The counters of a list of status cells. -/
def countsOfCells (cells : List (Option String)) : Counts :=
  { present := (cells.filter statusPresent).length
    absent := (cells.filter statusAbsent).length
    total := (cells.filter statusEntered).length }

/-- The invariant of a triple of counters taken over `cells`: present plus
absent is at most total, with equality exactly when every non-empty cell
contains one of the two words. -/
def countsWithin (present absent total : Nat) (cells : List (Option String)) : Prop :=
  present + absent ≤ total ∧
  (present + absent = total ↔
    ∀ cell ∈ cells, statusEntered cell = true → statusRecognised cell = true)


/-! ## The student forms -/

/-- The state `formData` of `AddStudentForm` and `EditStudentForm`. -/
structure FormData where
  studentId : String
  studentName : String
  schoolName : String
  classValue : String
  mobileNumber : String
deriving DecidableEq, Repr

/-- The array `rowData` that `handleSubmit` of both forms builds and hands to
`appendRow` or `updateStudentById`. -/
def formRowData (formData : FormData) : Row :=
  [formData.studentId, formData.studentName, formData.schoolName, formData.classValue,
    formData.mobileNumber]

/-- The validation of both forms: id, name, school and class are filled in. -/
def formIsValid (formData : FormData) : Bool :=
  formData.studentId != "" && formData.studentName != "" && formData.schoolName != "" &&
    formData.classValue != ""


/-! ## The attendance form and its modal -/

/-- The local calendar fields of a `Date`: `getFullYear()`, `getMonth()`
(0 for January to 11 for December) and `getDate()`. -/
structure LocalDate where
  fullYear : Int
  month : Nat
  date : Nat
deriving DecidableEq, Repr

/-- The function `formatDateForSheet(date)` of `SheetDataInput`. -/
def formatDateForSheet (date : LocalDate) : String :=
  toString date.fullYear ++ "-" ++ padStart (toString (date.month + 1)) 2 '0' ++ "-" ++
    padStart (toString date.date) 2 '0'

/-- The callback `checkExistingDates`: the state `existingDates` after it.
`fetched` is what `await GoogleSheetsService.getSheetData(sheetName, 'A1:Z1')`
gave; an error is logged and the state stays. -/
def checkExistingDates (fetched : Except JsError Grid) (existingDates : List String) :
    List String :=
  match fetched with
  | .error _ => existingDates
  | .ok headerData =>
    match headerData.head? with
    | none => existingDates
    | some headers => headers.filter (fun header => header != "" && isDateHeader header)

/-- A student of the form: the record of `getStudentData` and the field
`attendanceStatus`. -/
structure MarkedStudent where
  student : Student
  attendanceStatus : String
deriving DecidableEq, Repr

/-- The list `studentsWithStatus` that `fetchStudents` puts in the state
`students`: every student starts as "Present". -/
def studentsWithStatus (studentData : List Student) : List MarkedStudent :=
  studentData.map (fun student => { student := student, attendanceStatus := "Present" })

/-- The state of `AttendanceModal`. -/
structure ModalState where
  currentIndex : Nat
  attendanceData : List MarkedStudent
  isCompleted : Bool
  present : Nat
  absent : Nat
deriving DecidableEq, Repr

/-- The effect of the modal that runs when its `students` change: every
student is "Present", the first student is current. -/
def modalInit (students : List MarkedStudent) : ModalState :=
  { currentIndex := 0
    attendanceData := students.map (fun student => { student with attendanceStatus := "Present" })
    isCompleted := false
    present := 0
    absent := 0 }

/-- The function `updateAttendance(status)` of the modal: the current
student gets the status, the summary counts it, and the next student becomes
current or the modal is completed.  The buttons calling it are rendered only
while there is a current student. -/
def updateAttendance (m : ModalState) (status : String) : ModalState :=
  { currentIndex :=
      if m.currentIndex + 1 < m.attendanceData.length then m.currentIndex + 1 else m.currentIndex
    attendanceData := m.attendanceData.mapIdx (fun i student =>
      if i = m.currentIndex then { student with attendanceStatus := status } else student)
    isCompleted := if m.currentIndex + 1 < m.attendanceData.length then m.isCompleted else true
    present := if status = "Present" then m.present + 1 else m.present
    absent := if status = "Absent" then m.absent + 1 else m.absent }

/-- The button handler `markPresent`. -/
def markPresent (m : ModalState) : ModalState :=
  updateAttendance m "Present"

/-- The button handler `markAbsent`. -/
def markAbsent (m : ModalState) : ModalState :=
  updateAttendance m "Absent"

/-- What a run of `handleSubmit` does with the statuses: nothing when there
is no student or the date column fails, the summary of the demo message, or
the calls `updateAttendanceByStudentId(sheetName, id, columnLetter, status)`
it makes, as the triples of id, column letter and status. -/
inductive Submission where
  | noStudents
  | failed (error : JsError)
  | simulated (attendanceSummary : String)
  | written (updates : List (String × String × String))
deriving DecidableEq, Repr

/-- The function `handleSubmit` of `SheetDataInput`, in a render whose state
is `students` and `selectedDate`; `fetched` is the header row `addDateColumn`
reads. -/
def handleSubmit (s : Session) (fetched : Except JsError Grid) (sheetName : String)
    (selectedDate : LocalDate) (students : List MarkedStudent) : Submission :=
  if students.length = 0 then .noStudents
  else
    let formattedDate := formatDateForSheet selectedDate
    match (addDateColumn s fetched sheetName formattedDate).result with
    | .error error => .failed error
    | .ok columnInfo =>
      if columnInfo.simulated then
        .simulated (String.intercalate ", "
          (students.map (fun student => student.student.name ++ ": " ++ student.attendanceStatus)))
      else
        .written (students.map (fun student =>
          (student.student.id, columnInfo.columnLetter, student.attendanceStatus)))

/-- What a call of `handleModalComplete` leaves: the state `students` of the
next render and the submission it started. -/
structure ModalCompletion where
  students : List MarkedStudent
  submission : Submission
deriving DecidableEq, Repr

/-- The function `handleModalComplete(updatedStudents)` of a render whose
state is `students`: `setStudents(updatedStudents)` sets the state of the
next render, and `handleSubmit()` is the function of this render, which
reads this render's `students`. -/
def handleModalComplete (s : Session) (fetched : Except JsError Grid) (sheetName : String)
    (selectedDate : LocalDate) (students updatedStudents : List MarkedStudent) :
    ModalCompletion :=
  { students := updatedStudents
    submission := handleSubmit s fetched sheetName selectedDate students }

/-- The button handler `handleComplete` of the modal: `onComplete(attendanceData)`
with the `handleModalComplete` of the form. -/
def handleComplete (s : Session) (fetched : Except JsError Grid) (sheetName : String)
    (selectedDate : LocalDate) (students : List MarkedStudent) (m : ModalState) :
    ModalCompletion :=
  handleModalComplete s fetched sheetName selectedDate students m.attendanceData

/-- A date with a four-digit year: the fields of a calendar day of the years 1000 to 9999. -/
def fourDigitYear (d : LocalDate) : Prop :=
  1000 ≤ d.fullYear ∧ d.fullYear ≤ 9999 ∧ d.month ≤ 11 ∧ 1 ≤ d.date ∧ d.date ≤ 31

instance (d : LocalDate) : Decidable (fourDigitYear d) :=
  inferInstanceAs (Decidable (_ ∧ _))


/-- The rule of the rates, for a reported `rate` and the counters beside it:
0 for an empty total; for a positive total the double of
`(present / total) * 100`, which is within the fraction `2 ^ -51` of
`100 * present / total`; and 75 for 3 out of 4. -/
def rateFollows (rate : ℚ) (present total : Nat) : Prop :=
  (total = 0 → rate = 0) ∧
  (0 < total →
    rate = percentOf present total ∧
    |rate - 100 * (present : ℚ) / (total : ℚ)| ≤ 100 * (present : ℚ) / (total : ℚ) / 2 ^ 51) ∧
  (present = 3 → total = 4 → rate = 75)


/-! ## Column letters: properties -/

theorem columnIndexToLetterLoop_neg (index : Int) (letter : String) (h : index < 0) :
    columnIndexToLetterLoop index letter = letter := by
  rw [columnIndexToLetterLoop]
  simp [not_le.mpr h]

theorem columnIndexToLetterLoop_nonneg (index : Int) (letter : String) (h : 0 ≤ index) :
    columnIndexToLetterLoop index letter =
      columnIndexToLetterLoop (index / 26 - 1)
        (String.singleton (Char.ofNat (65 + (index % 26).toNat)) ++ letter) := by
  rw [columnIndexToLetterLoop]
  simp [h]

/-- The accumulator of the loop is only ever extended at the front. -/
theorem columnIndexToLetterLoop_append (k : Nat) :
    ∀ (index : Int) (letter : String), (index + 1).toNat ≤ k →
      columnIndexToLetterLoop index letter = columnIndexToLetterLoop index "" ++ letter := by
  induction k with
  | zero =>
    intro index letter hk
    have hneg : index < 0 := by omega
    simp [columnIndexToLetterLoop_neg index _ hneg]
  | succ k ih =>
    intro index letter hk
    by_cases h : 0 ≤ index
    · rw [columnIndexToLetterLoop_nonneg index letter h, columnIndexToLetterLoop_nonneg index "" h]
      have hk2 : (index / 26 - 1 + 1).toNat ≤ k := by omega
      rw [ih (index / 26 - 1) _ hk2]
      rw [ih (index / 26 - 1) (String.singleton (Char.ofNat (65 + (index % 26).toNat)) ++ "") hk2]
      simp [String.append_assoc]
    · have hneg : index < 0 := by omega
      simp [columnIndexToLetterLoop_neg index _ hneg]

/-- An index below 26 gives one letter. -/
theorem columnIndexToLetter_lt (n : Int) (h0 : 0 ≤ n) (h26 : n < 26) :
    columnIndexToLetter n = String.singleton (Char.ofNat (65 + n.toNat)) := by
  unfold columnIndexToLetter
  rw [columnIndexToLetterLoop_nonneg n "" h0]
  have hneg : n / 26 - 1 < 0 := by omega
  rw [columnIndexToLetterLoop_neg _ _ hneg]
  have hmod : n % 26 = n := by omega
  simp [hmod]

/-- An index from 26 on gives the letters of `floor(n / 26) - 1` and one more letter. -/
theorem columnIndexToLetter_ge (n : Int) (h26 : 26 ≤ n) :
    columnIndexToLetter n =
      columnIndexToLetter (n / 26 - 1) ++ String.singleton (Char.ofNat (65 + (n % 26).toNat)) := by
  unfold columnIndexToLetter
  rw [columnIndexToLetterLoop_nonneg n "" (by omega)]
  rw [columnIndexToLetterLoop_append _ (n / 26 - 1) _ (le_refl _)]
  simp

/-- C5: `columnIndexToLetter` sends 0, 25, 26, 27 to A, Z, AA, AB; an index
below 26 gives the single letter with code `65 + n`, and an index from 26 on
gives the letters of `floor(n / 26) - 1` followed by the letter with code
`65 + n mod 26`. -/
theorem columnIndexToLetter_spec :
    columnIndexToLetter 0 = "A" ∧ columnIndexToLetter 25 = "Z" ∧
    columnIndexToLetter 26 = "AA" ∧ columnIndexToLetter 27 = "AB" ∧
    (∀ n : Int, 0 ≤ n → n < 26 →
      columnIndexToLetter n = String.singleton (Char.ofNat (65 + n.toNat))) ∧
    (∀ n : Int, 26 ≤ n →
      columnIndexToLetter n =
        columnIndexToLetter (n / 26 - 1) ++ String.singleton (Char.ofNat (65 + (n % 26).toNat))) := by
  refine ⟨?_, ?_, ?_, ?_, columnIndexToLetter_lt, columnIndexToLetter_ge⟩
  · rw [columnIndexToLetter_lt 0 (by decide) (by decide)]; decide
  · rw [columnIndexToLetter_lt 25 (by decide) (by decide)]; decide
  · rw [columnIndexToLetter_ge 26 (by decide)]
    have h : (26 : Int) / 26 - 1 = 0 := by decide
    rw [h, columnIndexToLetter_lt 0 (by decide) (by decide)]; decide
  · rw [columnIndexToLetter_ge 27 (by decide)]
    have h : (27 : Int) / 26 - 1 = 0 := by decide
    rw [h, columnIndexToLetter_lt 0 (by decide) (by decide)]; decide

/-- C5 at work: index 3 is a single letter, and index 701 (at least 26) splits
into the letters of `701 / 26 - 1` and the letter of `701 % 26`. -/
theorem columnIndexToLetter_spec_witness :
    ((0 : Int) ≤ 3 ∧ (3 : Int) < 26 ∧
      columnIndexToLetter 3 = String.singleton (Char.ofNat (65 + (3 : Int).toNat))) ∧
    ((26 : Int) ≤ 701 ∧
      columnIndexToLetter 701 =
        columnIndexToLetter (701 / 26 - 1) ++
          String.singleton (Char.ofNat (65 + ((701 : Int) % 26).toNat))) :=
  ⟨⟨by decide, by decide, columnIndexToLetter_spec.2.2.2.2.1 3 (by decide) (by decide)⟩,
   ⟨by decide, columnIndexToLetter_spec.2.2.2.2.2 701 (by decide)⟩⟩

/-! ## `findIndex`: properties -/

theorem findIndex_eq_neg_one {α : Type} (p : α → Bool) (xs : List α) :
    findIndex p xs = -1 ↔ ∀ x ∈ xs, p x = false := by
  unfold findIndex
  cases h : xs.findIdx? p with
  | none =>
    simp only [true_iff]
    exact List.findIdx?_eq_none_iff.mp h
  | some i =>
    constructor
    · intro hi
      have : (0 : Int) ≤ (i : Int) := Int.ofNat_nonneg i
      simp only at hi
      omega
    · intro hall
      rw [List.findIdx?_eq_none_iff.mpr hall] at h
      cases h

theorem findIndex_found {α : Type} (p : α → Bool) (xs : List α) (h : findIndex p xs ≠ -1) :
    ∃ i : Nat, findIndex p xs = (i : Int) ∧
      (∃ x, xs[i]? = some x ∧ p x = true) ∧
      ∀ j, j < i → ∀ y, xs[j]? = some y → p y = false := by
  unfold findIndex at h ⊢
  cases hf : xs.findIdx? p with
  | none => simp [hf] at h
  | some i =>
    obtain ⟨hlt, hp, hmin⟩ := List.findIdx?_eq_some_iff_getElem.mp hf
    refine ⟨i, rfl, ⟨xs[i], by simp [hlt], hp⟩, ?_⟩
    intro j hj y hy
    have hjl : j < xs.length := Nat.lt_trans hj hlt
    have hyj : xs[j] = y := by
      rw [List.getElem?_eq_getElem hjl] at hy
      exact Option.some.inj hy
    have := hmin j hj
    rw [hyj] at this
    simpa using this

/-! ## Row lookup: properties -/

theorem scanStudentRows_eq_neg_one (idCol : Int) (studentId : String) (rows : List Row) :
    ∀ i : Nat, scanStudentRows idCol studentId rows i = -1 ↔
      ∀ row ∈ rows, cellAt row idCol ≠ some studentId := by
  induction rows with
  | nil => intro i; simp [scanStudentRows]
  | cons row rest ih =>
    intro i
    by_cases h : cellAt row idCol = some studentId
    · simp only [scanStudentRows, h, if_true]
      constructor
      · intro hi; omega
      · intro hall; exact absurd h (hall row (List.mem_cons_self _ _))
    · simp only [scanStudentRows, h, if_false, ih (i + 1)]
      simp [h]

theorem scanStudentRows_first (idCol : Int) (studentId : String) (rows : List Row) :
    ∀ (i k : Nat), rows[k]?.bind (fun row => cellAt row idCol) = some studentId →
      (∀ j, j < k → rows[j]?.bind (fun row => cellAt row idCol) ≠ some studentId) →
      scanStudentRows idCol studentId rows i = (i : Int) + (k : Int) + 1 := by
  induction rows with
  | nil => intro i k hk; simp at hk
  | cons row rest ih =>
    intro i k hk hmin
    cases k with
    | zero =>
      have h : cellAt row idCol = some studentId := by simpa using hk
      simp [scanStudentRows, h]
    | succ k =>
      have h0 : cellAt row idCol ≠ some studentId := by simpa using hmin 0 (Nat.succ_pos k)
      have hk2 : rest[k]?.bind (fun row => cellAt row idCol) = some studentId := by
        simpa using hk
      have hmin2 : ∀ j, j < k →
          rest[j]?.bind (fun row => cellAt row idCol) ≠ some studentId := by
        intro j hj
        simpa using hmin (j + 1) (Nat.succ_lt_succ hj)
      simp only [scanStudentRows, h0, if_false]
      rw [ih (i + 1) k hk2 hmin2]
      push_cast
      ring

/-- The scan over the data rows of a grid misses exactly when no data row carries the id. -/
theorem scan_grid_eq_neg_one (grid : Grid) (idCol : Int) (studentId : String) :
    scanStudentRows idCol studentId (grid.drop 1) 1 = -1 ↔
      ∀ i, ¬ dataRowHasId grid idCol studentId i := by
  rw [scanStudentRows_eq_neg_one]
  constructor
  · intro hall i hi
    obtain ⟨h1, hrow⟩ := hi
    obtain ⟨k, rfl⟩ : ∃ k, i = k + 1 := ⟨i - 1, by omega⟩
    cases hg : grid[k + 1]? with
    | none => simp [hg] at hrow
    | some row =>
      have hmem : row ∈ grid.drop 1 := by
        apply List.mem_iff_getElem?.mpr
        refine ⟨k, ?_⟩
        rw [List.getElem?_drop, Nat.add_comm 1 k]
        exact hg
      have hcell : cellAt row idCol = some studentId := by simpa [hg] using hrow
      exact hall row hmem hcell
  · intro hnone row hmem hcell
    obtain ⟨k, hk⟩ := List.mem_iff_getElem?.mp hmem
    rw [List.getElem?_drop, Nat.add_comm 1 k] at hk
    exact hnone (k + 1) ⟨by omega, by simp [hk, hcell]⟩

/-- The scan over the data rows of a grid answers the least matching row index plus one. -/
theorem scan_grid_least (grid : Grid) (idCol : Int) (studentId : String) (i : Nat)
    (hi : dataRowHasId grid idCol studentId i)
    (hmin : ∀ j, j < i → ¬ dataRowHasId grid idCol studentId j) :
    scanStudentRows idCol studentId (grid.drop 1) 1 = (i : Int) + 1 := by
  obtain ⟨h1, hrow⟩ := hi
  obtain ⟨k, rfl⟩ : ∃ k, i = k + 1 := ⟨i - 1, by omega⟩
  have hshift : ∀ j, (grid.drop 1)[j]? = grid[j + 1]? := by
    intro j
    rw [List.getElem?_drop, Nat.add_comm 1 j]
  rw [scanStudentRows_first idCol studentId (grid.drop 1) 1 k]
  · push_cast; ring
  · rw [hshift]; exact hrow
  · intro j hj hcell
    rw [hshift] at hcell
    exact hmin (j + 1) (by omega) ⟨by omega, hcell⟩

/-- Among the matching data rows there is a least one. -/
theorem exists_least_dataRow (grid : Grid) (idCol : Int) (studentId : String)
    (h : ∃ i, dataRowHasId grid idCol studentId i) :
    ∃ i, dataRowHasId grid idCol studentId i ∧
      ∀ j, j < i → ¬ dataRowHasId grid idCol studentId j := by
  classical
  exact ⟨Nat.find h, Nat.find_spec h, fun j hj => Nat.find_min h hj⟩

/-! ## The write state machine -/

/-- With a header row fetched, `addDateColumn` always returns, and this is what it returns. -/
theorem addDateColumn_result (s : Session) (headers : Row) (rest : Grid)
    (sheetName dateStr : String) :
    (addDateColumn s (.ok (headers :: rest)) sheetName dateStr).result =
      .ok (dateColumnAnswer s headers dateStr) := by
  unfold addDateColumn dateColumnAnswer
  simp only [List.head?_cons]
  by_cases hauth : (s.useOAuth && s.isUserSignedIn) = true
  · by_cases hidx : findIndex (fun header => header == dateStr) headers = -1
    · by_cases hload : s.sheetsLoaded = true
      · cases hc : s.callOutcome <;> simp [hauth, hidx, hload, Except.toBool]
      · simp [hauth, hidx, hload]
    · simp [hauth, hidx]
  · simp [hauth]

/-- The date string is absent from the header row exactly when `findIndex` answers `-1`. -/
theorem findIndex_date_eq_neg_one (headers : Row) (dateStr : String) :
    findIndex (fun header => header == dateStr) headers = -1 ↔ dateStr ∉ headers := by
  rw [findIndex_eq_neg_one]
  constructor
  · intro hall hin
    simpa using hall dateStr hin
  · intro hnot x hx
    by_cases hxd : x = dateStr
    · exact absurd (hxd ▸ hx) hnot
    · simpa using hxd

/-- When the scan finds a row, `updateAttendanceByStudentId` returns, and this is what it returns. -/
theorem updateAttendanceByStudentId_result (s : Session) (grid : Grid)
    (sheetName studentId dateColumnLetter status : String)
    (hscan : scanStudentRows (attendanceIdColumn (grid.headD [])) studentId (grid.drop 1) 1
      ≠ -1) :
    (updateAttendanceByStudentId s (.ok grid) sheetName studentId dateColumnLetter status).result =
      .ok { success := true
            studentRowIndex :=
              scanStudentRows (attendanceIdColumn (grid.headD [])) studentId (grid.drop 1) 1
            dateColumnLetter := dateColumnLetter
            simulated :=
              !((s.useOAuth && s.isUserSignedIn) && (s.sheetsLoaded && s.callOutcome.toBool)) } := by
  unfold updateAttendanceByStudentId
  simp only [hscan, if_false]
  by_cases hauth : (s.useOAuth && s.isUserSignedIn) = true
  · by_cases hload : s.sheetsLoaded = true
    · cases hc : s.callOutcome <;> simp [hauth, hload, Except.toBool]
    · simp [hauth, hload]
  · simp [hauth]

/-- C1: with the header row fetched, `addDateColumn` called while the user is
not signed in, or whose authenticated write throws, returns (it does not
throw) a result with `simulated = true` whose `columnIndex`, `columnLetter`
and `isExisting` are filled in; and `updateAttendanceByStudentId`, for a
student id carried by a data row, under the same conditions returns a result
with `simulated = true`. -/
theorem writes_simulated_when_unauthenticated (s : Session) (headers : Row) (rest : Grid)
    (grid : Grid) (sheetName dateStr studentId dateColumnLetter status : String) :
    ((s.isUserSignedIn = false ∨
        (dateStr ∉ headers ∧ (s.sheetsLoaded = false ∨ ∃ e, s.callOutcome = .error e))) →
      ∃ r, (addDateColumn s (.ok (headers :: rest)) sheetName dateStr).result = .ok r ∧
        r.simulated = true ∧
        r.columnLetter = columnIndexToLetter r.columnIndex ∧
        (r.isExisting = true ↔ dateStr ∈ headers) ∧
        (dateStr ∉ headers → r.columnIndex = (headers.length : Int)) ∧
        (dateStr ∈ headers → ∃ i : Nat, r.columnIndex = (i : Int) ∧ headers[i]? = some dateStr)) ∧
    ((s.isUserSignedIn = false ∨ s.sheetsLoaded = false ∨ ∃ e, s.callOutcome = .error e) →
      (∃ i, dataRowHasId grid (attendanceIdColumn (grid.headD [])) studentId i) →
      ∃ r, (updateAttendanceByStudentId s (.ok grid) sheetName studentId dateColumnLetter
          status).result = .ok r ∧ r.simulated = true) := by
  constructor
  · intro hs
    have hmem := findIndex_date_eq_neg_one headers dateStr
    refine ⟨dateColumnAnswer s headers dateStr,
      addDateColumn_result s headers rest sheetName dateStr, ?_, rfl, ?_, ?_, ?_⟩
    · rcases hs with hs | ⟨hnew, hload | ⟨e, he⟩⟩
      · simp [dateColumnAnswer, hs]
      · simp [dateColumnAnswer, hmem.mpr hnew, hload]
      · simp [dateColumnAnswer, hmem.mpr hnew, he, Except.toBool]
    · simp only [dateColumnAnswer, decide_eq_true_iff, Ne, hmem, not_not]
    · intro hnot
      simp only [dateColumnAnswer, Ne, hmem.mpr hnot, not_true, if_false]
    · intro hin
      have hne : findIndex (fun header => header == dateStr) headers ≠ -1 := by
        rw [Ne, hmem, not_not]; exact hin
      obtain ⟨i, hi, ⟨x, hx, hpx⟩, _⟩ := findIndex_found _ _ hne
      refine ⟨i, ?_, ?_⟩
      · simp only [dateColumnAnswer]
        rw [if_pos hne, hi]
      · have : x = dateStr := by simpa using hpx
        rw [hx, this]
  · intro hs hex
    have hscan : scanStudentRows (attendanceIdColumn (grid.headD [])) studentId (grid.drop 1) 1
        ≠ -1 := by
      intro h
      obtain ⟨i, hi⟩ := hex
      exact (scan_grid_eq_neg_one grid _ studentId).mp h i hi
    refine ⟨_, updateAttendanceByStudentId_result s grid sheetName studentId dateColumnLetter
      status hscan, ?_⟩
    rcases hs with hs | hs | ⟨e, he⟩
    · simp [hs]
    · simp [hs]
    · simp [he, Except.toBool]

/-- C1 at work: a signed-out session on the sheet `ID, Name / 7, Asha`. -/
theorem writes_simulated_when_unauthenticated_witness :
    (∃ r, (addDateColumn ⟨true, false, true, .ok ⟨""⟩⟩ (.ok [["ID", "Name"], ["7", "Asha"]])
        "Students" "2024-01-07").result = .ok r ∧
      r.simulated = true ∧
      r.columnLetter = columnIndexToLetter r.columnIndex ∧
      (r.isExisting = true ↔ "2024-01-07" ∈ ["ID", "Name"]) ∧
      ("2024-01-07" ∉ ["ID", "Name"] → r.columnIndex = ((["ID", "Name"] : Row).length : Int)) ∧
      ("2024-01-07" ∈ ["ID", "Name"] →
        ∃ i : Nat, r.columnIndex = (i : Int) ∧ (["ID", "Name"] : Row)[i]? = some "2024-01-07")) ∧
    (∃ r, (updateAttendanceByStudentId ⟨true, false, true, .ok ⟨""⟩⟩
        (.ok [["ID", "Name"], ["7", "Asha"]]) "Students" "7" "C" "Present").result = .ok r ∧
      r.simulated = true) :=
  ⟨(writes_simulated_when_unauthenticated ⟨true, false, true, .ok ⟨""⟩⟩ ["ID", "Name"]
      [["7", "Asha"]] [["ID", "Name"], ["7", "Asha"]] "Students" "2024-01-07" "7" "C"
      "Present").1 (Or.inl rfl),
   (writes_simulated_when_unauthenticated ⟨true, false, true, .ok ⟨""⟩⟩ ["ID", "Name"]
      [["7", "Asha"]] [["ID", "Name"], ["7", "Asha"]] "Students" "2024-01-07" "7" "C"
      "Present").2 (Or.inl rfl) ⟨1, by decide⟩⟩

/-- When the scan finds a row, `findStudentRowByID` returns it. -/
theorem findStudentRowByID_found (grid : Grid) (studentId : String)
    (hscan : scanStudentRows (lookupIdColumn (grid.headD [])) studentId (grid.drop 1) 1 ≠ -1) :
    findStudentRowByID (.ok grid) studentId =
      .ok { rowIndex := scanStudentRows (lookupIdColumn (grid.headD [])) studentId (grid.drop 1) 1
            idColIndex := lookupIdColumn (grid.headD [])
            headerRow := grid.headD []
            studentData := grid } := by
  unfold findStudentRowByID
  simp only [hscan, if_false]

/-- When the scan finds no row, `findStudentRowByID` throws "not found". -/
theorem findStudentRowByID_missing (grid : Grid) (studentId : String)
    (hscan : scanStudentRows (lookupIdColumn (grid.headD [])) studentId (grid.drop 1) 1 = -1) :
    findStudentRowByID (.ok grid) studentId = .error (studentNotFound studentId) := by
  unfold findStudentRowByID
  simp only [hscan, if_true]

/-- C2, refuted as stated: signed out, on the sheet `ID, Name / 7, Asha`, both
`updateStudentById` and `deleteStudentById` throw an authentication error
for the id 7 instead of returning a simulated result. -/
theorem student_writes_throw_when_signed_out :
    (updateStudentById ⟨true, false, true, .ok ⟨""⟩⟩ (.ok [["ID", "Name"], ["7", "Asha"]]) "7"
        ["7", "Asha", "School", "Class", "999"]).result =
      .error ⟨"Authentication error: You need to sign in with your Google account to update students.",
        none⟩ ∧
    (deleteStudentById ⟨true, false, true, .ok ⟨""⟩⟩ (.ok [["ID", "Name"], ["7", "Asha"]])
        "7").result =
      .error ⟨"Authentication error: You need to sign in with your Google account to delete students.",
        none⟩ := by
  constructor <;> decide

/-- C2, amended: for a student id carried by a data row, `updateStudentById`
and `deleteStudentById` do not simulate.  Signed out they throw their
authentication error; signed in with the client library missing they throw
"Google Sheets API not loaded"; when the authenticated call throws, that error
reaches the caller (reworded for HTTP status 401 or 403); and they return a
value only when the authenticated call resolved, namely its response. -/
theorem student_writes_raise_instead_of_simulating (s : Session) (grid : Grid)
    (studentId : String) (rowData : List String)
    (hpresent : ∃ i, dataRowHasId grid (lookupIdColumn (grid.headD [])) studentId i) :
    (s.isUserSignedIn = false →
      (updateStudentById s (.ok grid) studentId rowData).result = .error ⟨signInToUpdate, none⟩ ∧
      (deleteStudentById s (.ok grid) studentId).result = .error ⟨signInToDelete, none⟩) ∧
    (s.useOAuth = true → s.isUserSignedIn = true → s.sheetsLoaded = false →
      (updateStudentById s (.ok grid) studentId rowData).result =
        .error ⟨"Google Sheets API not loaded", none⟩ ∧
      (deleteStudentById s (.ok grid) studentId).result =
        .error ⟨"Google Sheets API not loaded", none⟩) ∧
    (∀ e, s.useOAuth = true → s.isUserSignedIn = true → s.sheetsLoaded = true →
      s.callOutcome = .error e →
      (updateStudentById s (.ok grid) studentId rowData).result =
        .error (classifyWriteError signInToUpdate e) ∧
      (deleteStudentById s (.ok grid) studentId).result =
        .error (classifyWriteError signInToDelete e)) ∧
    (∀ r, ((updateStudentById s (.ok grid) studentId rowData).result = .ok r ∨
        (deleteStudentById s (.ok grid) studentId).result = .ok r) →
      s.isUserSignedIn = true ∧ s.callOutcome = .ok r) := by
  have hscan : scanStudentRows (lookupIdColumn (grid.headD [])) studentId (grid.drop 1) 1
      ≠ -1 := by
    intro h
    obtain ⟨i, hi⟩ := hpresent
    exact (scan_grid_eq_neg_one grid _ studentId).mp h i hi
  have hfound := findStudentRowByID_found grid studentId hscan
  refine ⟨?_, ?_, ?_, ?_⟩
  · intro hout
    constructor
    · simp [updateStudentById, hfound, hout, classifyWriteError]
    · simp [deleteStudentById, hfound, hout, classifyWriteError]
  · intro h1 h2 h3
    constructor
    · simp [updateStudentById, hfound, h1, h2, h3, classifyWriteError]
    · simp [deleteStudentById, hfound, h1, h2, h3, classifyWriteError]
  · intro e h1 h2 h3 h4
    constructor
    · simp [updateStudentById, hfound, h1, h2, h3, h4]
    · simp [deleteStudentById, hfound, h1, h2, h3, h4]
  · intro r hr
    by_cases hauth : (s.useOAuth && s.isUserSignedIn) = true
    · by_cases hload : s.sheetsLoaded = true
      · cases hc : s.callOutcome with
        | error e =>
          simp [updateStudentById, deleteStudentById, hfound, hauth, hload, hc] at hr
        | ok v =>
          simp [updateStudentById, deleteStudentById, hfound, hauth, hload, hc] at hr
          simp only [Bool.and_eq_true] at hauth
          exact ⟨hauth.2, by rw [hr]⟩
      · simp [updateStudentById, deleteStudentById, hfound, hauth, hload] at hr
    · simp [updateStudentById, deleteStudentById, hfound, hauth] at hr

/-- C2 amended, at work: the id 7 on the sheet `ID, Name / 7, Asha`, signed
out, and signed in with a call that throws with HTTP status 500. -/
theorem student_writes_raise_instead_of_simulating_witness :
    ((updateStudentById ⟨true, false, true, .ok ⟨""⟩⟩ (.ok [["ID", "Name"], ["7", "Asha"]]) "7"
        ["7", "Asha"]).result = .error ⟨signInToUpdate, none⟩ ∧
      (deleteStudentById ⟨true, false, true, .ok ⟨""⟩⟩ (.ok [["ID", "Name"], ["7", "Asha"]])
        "7").result = .error ⟨signInToDelete, none⟩) ∧
    ((updateStudentById ⟨true, true, true, .error ⟨"Internal error", some 500⟩⟩
        (.ok [["ID", "Name"], ["7", "Asha"]]) "7" ["7", "Asha"]).result =
        .error (classifyWriteError signInToUpdate ⟨"Internal error", some 500⟩) ∧
      (deleteStudentById ⟨true, true, true, .error ⟨"Internal error", some 500⟩⟩
        (.ok [["ID", "Name"], ["7", "Asha"]]) "7").result =
        .error (classifyWriteError signInToDelete ⟨"Internal error", some 500⟩)) :=
  ⟨(student_writes_raise_instead_of_simulating ⟨true, false, true, .ok ⟨""⟩⟩
      [["ID", "Name"], ["7", "Asha"]] "7" ["7", "Asha"] ⟨1, by decide⟩).1 rfl,
   (student_writes_raise_instead_of_simulating
      ⟨true, true, true, .error ⟨"Internal error", some 500⟩⟩
      [["ID", "Name"], ["7", "Asha"]] "7" ["7", "Asha"] ⟨1, by decide⟩).2.2.1
      ⟨"Internal error", some 500⟩ rfl rfl rfl rfl⟩

/-! ## Attendance update: the row it targets -/

/-- C6: `updateAttendanceByStudentId` targets the first data row whose id
cell is the student id: if `i` is the least index of such a row, the call
returns with `studentRowIndex = i + 1`, which is at least 2; and it throws
"Student with ID <id> not found" exactly when no data row carries the id. -/
theorem updateAttendance_targets_first_match (s : Session) (grid : Grid)
    (sheetName studentId dateColumnLetter status : String) :
    (∀ i, dataRowHasId grid (attendanceIdColumn (grid.headD [])) studentId i →
      (∀ j, j < i → ¬ dataRowHasId grid (attendanceIdColumn (grid.headD [])) studentId j) →
      ∃ r, (updateAttendanceByStudentId s (.ok grid) sheetName studentId dateColumnLetter
          status).result = .ok r ∧
        r.studentRowIndex = (i : Int) + 1 ∧ 2 ≤ r.studentRowIndex) ∧
    ((updateAttendanceByStudentId s (.ok grid) sheetName studentId dateColumnLetter
          status).result = .error ⟨"Student with ID " ++ studentId ++ " not found", none⟩ ↔
      ∀ i, ¬ dataRowHasId grid (attendanceIdColumn (grid.headD [])) studentId i) := by
  constructor
  · intro i hi hmin
    have hval := scan_grid_least grid _ studentId i hi hmin
    have hscan : scanStudentRows (attendanceIdColumn (grid.headD [])) studentId (grid.drop 1) 1
        ≠ -1 := by
      rw [hval]; omega
    refine ⟨_, updateAttendanceByStudentId_result s grid sheetName studentId dateColumnLetter
      status hscan, hval, ?_⟩
    have h1 : 1 ≤ i := hi.1
    simp only [hval]
    omega
  · constructor
    · intro herr
      by_contra hex
      push_neg at hex
      have hscan : scanStudentRows (attendanceIdColumn (grid.headD [])) studentId
          (grid.drop 1) 1 ≠ -1 := by
        intro h
        obtain ⟨i, hi⟩ := hex
        exact (scan_grid_eq_neg_one grid _ studentId).mp h i hi
      rw [updateAttendanceByStudentId_result s grid sheetName studentId dateColumnLetter
        status hscan] at herr
      cases herr
    · intro hnone
      have hscan := (scan_grid_eq_neg_one grid _ studentId).mpr hnone
      unfold updateAttendanceByStudentId
      simp only [hscan, if_true]
      simp [classifyWriteError, studentNotFound]

/-- C6 at work: two rows carry the id 7; the first of them, grid row 2, is targeted as sheet row 3. -/
theorem updateAttendance_targets_first_match_witness :
    ∃ r, (updateAttendanceByStudentId ⟨true, true, true, .ok ⟨""⟩⟩
        (.ok [["ID", "Name"], ["5", "Bala"], ["7", "Asha"], ["7", "Ravi"]]) "Students" "7" "C"
        "Present").result = .ok r ∧
      r.studentRowIndex = ((2 : Nat) : Int) + 1 ∧ 2 ≤ r.studentRowIndex :=
  (updateAttendance_targets_first_match ⟨true, true, true, .ok ⟨""⟩⟩
    [["ID", "Name"], ["5", "Bala"], ["7", "Asha"], ["7", "Ravi"]] "Students" "7" "C"
    "Present").1 2 (by decide) (by decide)

/-! ## Deleting a student -/

/-- Removing the rows `i` to `i + 1` is erasing row `i`. -/
theorem applyRequest_deleteDimension (sheet : Grid) (sheetId i : Nat) :
    applyRequest sheet (.deleteDimension sheetId (i : Int) ((i : Int) + 1)) = sheet.eraseIdx i := by
  have h : ((i : Int) + 1).toNat = i + 1 := by omega
  simp only [applyRequest, Int.toNat_ofNat, h]
  exact (List.eraseIdx_eq_take_drop_succ sheet i).symm

/-- A row carrying the id proves the scan of `findStudentRowByID` succeeds. -/
theorem scan_ne_neg_one_of_dataRow (grid : Grid) (idCol : Int) (studentId : String) (i : Nat)
    (hi : dataRowHasId grid idCol studentId i) :
    scanStudentRows idCol studentId (grid.drop 1) 1 ≠ -1 := fun h =>
  (scan_grid_eq_neg_one grid idCol studentId).mp h i hi

/-- Erasing a data row leaves the header row in place. -/
theorem headD_eraseIdx_dataRow (grid : Grid) (i : Nat) (h1 : 1 ≤ i) :
    (grid.eraseIdx i).headD [] = grid.headD [] := by
  cases grid with
  | nil => rfl
  | cons row rest =>
    cases i with
    | zero => omega
    | succ k => rfl

/-- What `deleteStudentById` sends when signed in: one `deleteDimension` for the row found. -/
theorem deleteStudentById_requests (s : Session) (grid : Grid) (studentId : String) (i : Nat)
    (hsigned : s.useOAuth = true ∧ s.isUserSignedIn = true ∧ s.sheetsLoaded = true)
    (hi : dataRowHasId grid (lookupIdColumn (grid.headD [])) studentId i)
    (hmin : ∀ j, j < i → ¬ dataRowHasId grid (lookupIdColumn (grid.headD [])) studentId j) :
    (deleteStudentById s (.ok grid) studentId).requests =
      [.deleteDimension 0 (i : Int) ((i : Int) + 1)] := by
  have hval := scan_grid_least grid _ studentId i hi hmin
  have hfound := findStudentRowByID_found grid studentId
    (scan_ne_neg_one_of_dataRow grid _ studentId i hi)
  obtain ⟨h1, h2, h3⟩ := hsigned
  unfold deleteStudentById
  rw [hfound]
  simp only [hval]
  cases hc : s.callOutcome <;> simp [h1, h2, h3]

/-- C7, refuted as stated: two rows carry the id 7; after the delete the
lookup of 7 still succeeds, on the row that moved up. -/
theorem deleteStudentById_duplicate_still_found :
    (deleteStudentById ⟨true, true, true, .ok ⟨""⟩⟩
        (.ok [["ID", "Name"], ["7", "Asha"], ["7", "Ravi"]]) "7").requests =
      [.deleteDimension 0 1 2] ∧
    sheetAfter ⟨true, true, true, .ok ⟨""⟩⟩ [["ID", "Name"], ["7", "Asha"], ["7", "Ravi"]]
        [.deleteDimension 0 1 2] = [["ID", "Name"], ["7", "Ravi"]] ∧
    findStudentRowByID (.ok [["ID", "Name"], ["7", "Ravi"]]) "7" =
      .ok { rowIndex := 2, idColIndex := 0, headerRow := ["ID", "Name"],
            studentData := [["ID", "Name"], ["7", "Ravi"]] } := by
  refine ⟨by decide, by decide, by decide⟩

/-- C7, amended: signed in, with the authenticated call resolving,
`deleteStudentById` requests the removal of exactly one row, the first data
row `i` carrying the id (zero-based range `i` to `i + 1`, that is
`rowIndex - 1` to `rowIndex`); on the resulting grid the rows before `i` are
unchanged, every later row has moved up by one and the grid is one row
shorter; and when no other data row carries the id, a subsequent lookup of
the id throws "Student with ID <id> not found". -/
theorem deleteStudentById_removes_found_row (s : Session) (grid : Grid) (studentId : String)
    (i : Nat) (v : ApiResult)
    (hsigned : s.useOAuth = true ∧ s.isUserSignedIn = true ∧ s.sheetsLoaded = true)
    (hcall : s.callOutcome = .ok v)
    (hi : dataRowHasId grid (lookupIdColumn (grid.headD [])) studentId i)
    (hmin : ∀ j, j < i → ¬ dataRowHasId grid (lookupIdColumn (grid.headD [])) studentId j) :
    (deleteStudentById s (.ok grid) studentId).requests =
      [.deleteDimension 0 (i : Int) ((i : Int) + 1)] ∧
    (sheetAfter s grid (deleteStudentById s (.ok grid) studentId).requests).length + 1 =
      grid.length ∧
    (∀ j, j < i →
      (sheetAfter s grid (deleteStudentById s (.ok grid) studentId).requests)[j]? = grid[j]?) ∧
    (∀ j, i ≤ j →
      (sheetAfter s grid (deleteStudentById s (.ok grid) studentId).requests)[j]? =
        grid[j + 1]?) ∧
    ((∀ j, j ≠ i → ¬ dataRowHasId grid (lookupIdColumn (grid.headD [])) studentId j) →
      findStudentRowByID
          (.ok (sheetAfter s grid (deleteStudentById s (.ok grid) studentId).requests))
          studentId =
        .error ⟨"Student with ID " ++ studentId ++ " not found", none⟩) := by
  have hreq := deleteStudentById_requests s grid studentId i hsigned hi hmin
  have hafter : sheetAfter s grid (deleteStudentById s (.ok grid) studentId).requests =
      grid.eraseIdx i := by
    rw [hreq]
    simp only [sheetAfter, hcall, List.foldl_cons, List.foldl_nil]
    exact applyRequest_deleteDimension grid 0 i
  have hlen : i < grid.length := by
    obtain ⟨_, hrow⟩ := hi
    by_contra hge
    rw [List.getElem?_eq_none (by omega)] at hrow
    simp at hrow
  rw [hafter]
  refine ⟨hreq, ?_, ?_, ?_, ?_⟩
  · rw [List.length_eraseIdx_of_lt hlen]; omega
  · intro j hj
    exact List.getElem?_eraseIdx_of_lt grid i j hj
  · intro j hj
    exact List.getElem?_eraseIdx_of_ge grid i j hj
  · intro huniq
    have hhead := headD_eraseIdx_dataRow grid i hi.1
    apply findStudentRowByID_missing
    rw [hhead]
    apply (scan_grid_eq_neg_one _ _ _).mpr
    intro k hk
    obtain ⟨hk1, hrow⟩ := hk
    by_cases hki : k < i
    · rw [List.getElem?_eraseIdx_of_lt grid i k hki] at hrow
      exact huniq k (by omega) ⟨hk1, hrow⟩
    · rw [List.getElem?_eraseIdx_of_ge grid i k (by omega)] at hrow
      exact huniq (k + 1) (by omega) ⟨by omega, hrow⟩

/-- C7 amended, at work: deleting the id 7 from `ID, Name / 5, Bala / 7, Asha / 9, Ravi`. -/
theorem deleteStudentById_removes_found_row_witness :
    (deleteStudentById ⟨true, true, true, .ok ⟨""⟩⟩
        (.ok [["ID", "Name"], ["5", "Bala"], ["7", "Asha"], ["9", "Ravi"]]) "7").requests =
      [.deleteDimension 0 ((2 : Nat) : Int) (((2 : Nat) : Int) + 1)] ∧
    findStudentRowByID
        (.ok (sheetAfter ⟨true, true, true, .ok ⟨""⟩⟩
          [["ID", "Name"], ["5", "Bala"], ["7", "Asha"], ["9", "Ravi"]]
          (deleteStudentById ⟨true, true, true, .ok ⟨""⟩⟩
            (.ok [["ID", "Name"], ["5", "Bala"], ["7", "Asha"], ["9", "Ravi"]]) "7").requests))
        "7" =
      .error ⟨"Student with ID " ++ "7" ++ " not found", none⟩ :=
  have h := deleteStudentById_removes_found_row ⟨true, true, true, .ok ⟨""⟩⟩
    [["ID", "Name"], ["5", "Bala"], ["7", "Asha"], ["9", "Ravi"]] "7" 2 ⟨""⟩
    ⟨rfl, rfl, rfl⟩ rfl (by decide) (by decide)
  ⟨h.1, h.2.2.2.2 (by
    intro j hj hd
    rcases Nat.lt_or_ge j 4 with hlt | hge
    · interval_cases j
      · exact absurd hd (by decide)
      · exact absurd hd (by decide)
      · exact hj rfl
      · exact absurd hd (by decide)
    · have hrow := hd.2
      rw [List.getElem?_eq_none (by simpa using hge)] at hrow
      simp at hrow)⟩

/-! ## Decimal numerals -/

theorem toDigitsCore_acc (f : Nat) : ∀ (n : Nat) (ds : List Char),
    Nat.toDigitsCore 10 f n ds = Nat.toDigitsCore 10 f n [] ++ ds := by
  induction f with
  | zero => intro n ds; simp [Nat.toDigitsCore]
  | succ f ih =>
    intro n ds
    simp only [Nat.toDigitsCore]
    split
    · simp
    · rw [ih (n / 10) (Nat.digitChar (n % 10) :: ds), ih (n / 10) [Nat.digitChar (n % 10)]]
      simp

theorem toDigitsCore_enough_fuel (n : Nat) : ∀ (f : Nat), n < f →
    Nat.toDigitsCore 10 f n [] = Nat.toDigitsCore 10 (n + 1) n [] := by
  induction n using Nat.strong_induction_on with
  | _ n ih =>
    intro f hf
    obtain ⟨g, rfl⟩ : ∃ g, f = g + 1 := ⟨f - 1, by omega⟩
    simp only [Nat.toDigitsCore]
    by_cases h0 : n / 10 = 0
    · simp [h0]
    · simp only [h0, if_false]
      have hlt : n / 10 < n := by omega
      rw [toDigitsCore_acc g, toDigitsCore_acc n]
      rw [ih (n / 10) hlt g (by omega), ih (n / 10) hlt n hlt]

/-- The numeral of a number below ten is its digit. -/
theorem toString_digit (n : Nat) (h : n < 10) :
    toString n = String.mk [Nat.digitChar n] := by
  have h0 : n / 10 = 0 := by omega
  have hm : n % 10 = n := by omega
  show Nat.repr n = _
  simp [Nat.repr, Nat.toDigits, Nat.toDigitsCore, h0, hm, List.asString]

/-- The numeral of a number from ten on is the numeral of its tenth followed by its last digit. -/
theorem toString_step (n : Nat) (h : 10 ≤ n) :
    toString n = toString (n / 10) ++ String.mk [Nat.digitChar (n % 10)] := by
  have h0 : n / 10 ≠ 0 := by omega
  have hlt : n / 10 < n := by omega
  show Nat.repr n = Nat.repr (n / 10) ++ _
  simp only [Nat.repr, Nat.toDigits, Nat.toDigitsCore, h0, if_false]
  rw [toDigitsCore_acc n, toDigitsCore_enough_fuel (n / 10) n hlt]
  simp only [List.asString]
  rfl

/-- Below 1000, `padStart(3, '0')` of the numeral is the three-digit numeral. -/
theorem padStart_three (n : Nat) (h : n < 1000) :
    padStart (toString n) 3 '0' = threeDigits n := by
  unfold padStart threeDigits
  by_cases h10 : n < 10
  · rw [toString_digit n h10]
    have e1 : n / 100 % 10 = 0 := by omega
    have e2 : n / 10 % 10 = 0 := by omega
    have e3 : n % 10 = n := by omega
    rw [e1, e2, e3]
    rfl
  · by_cases h100 : n < 100
    · rw [toString_step n (by omega), toString_digit (n / 10) (by omega)]
      have e1 : n / 100 % 10 = 0 := by omega
      have e2 : n / 10 % 10 = n / 10 := by omega
      rw [e1, e2]
      rfl
    · rw [toString_step n (by omega), toString_step (n / 10) (by omega),
        toString_digit (n / 10 / 10) (by omega)]
      have e1 : n / 100 % 10 = n / 10 / 10 := by omega
      rw [e1]
      rfl

/-- From 1000 on, the numeral has at least three characters and `padStart` adds nothing. -/
theorem padStart_long (n : Nat) (h : 1000 ≤ n) :
    padStart (toString n) 3 '0' = toString n := by
  unfold padStart
  have hlen : 3 ≤ (toString n).length := by
    rw [toString_step n (by omega), toString_step (n / 10) (by omega),
      toString_step (n / 10 / 10) (by omega)]
    have hone : ∀ c : Char, (String.mk [c]).length = 1 := fun _ => rfl
    simp only [String.length_append, hone]
    omega
  have hpad : 3 - (toString n).length = 0 := by omega
  rw [hpad]
  show String.mk [] ++ toString n = toString n
  exact String.empty_append _

/-! ## Student records -/

theorem orElse_of_missing (cell : Option String) (dflt : String)
    (h : cell = none ∨ cell = some "") : orElse cell dflt = dflt := by
  rcases h with h | h <;> simp [orElse, h]

theorem orElse_of_present (v dflt : String) (h : v ≠ "") : orElse (some v) dflt = v := by
  simp [orElse, h]

theorem cellAt_nil (i : Int) : cellAt [] i = none := by
  unfold cellAt
  split <;> simp

/-- The records of a non-empty fetched grid: the callback mapped over the data rows. -/
theorem getStudentData_ok (useSampleDataOnError : Bool) (sheetName : String) (grid : Grid)
    (h : grid ≠ []) :
    getStudentData useSampleDataOnError sheetName (.ok grid) =
      .ok ((grid.drop 1).mapIdx (studentOfRow (resolveColumns (grid.headD [])))) := by
  have hlen : grid.length ≠ 0 := by
    intro h0
    exact h (List.length_eq_zero.mp h0)
  simp only [getStudentData, hlen, if_false]

/-- The record at position `k` is built from the data row at grid index `k + 1`. -/
theorem getStudentData_record (useSampleDataOnError : Bool) (sheetName : String) (grid : Grid)
    (k : Nat) (row : Row) (hrow : grid[k + 1]? = some row) :
    ∃ students, getStudentData useSampleDataOnError sheetName (.ok grid) = .ok students ∧
      students[k]? = some (studentOfRow (resolveColumns (grid.headD [])) k row) := by
  have hne : grid ≠ [] := by
    intro h
    rw [h] at hrow
    simp at hrow
  refine ⟨_, getStudentData_ok useSampleDataOnError sheetName grid hne, ?_⟩
  rw [List.getElem?_mapIdx, List.getElem?_drop, Nat.add_comm 1 k, hrow]
  rfl

/-- The fields of a record, whether the row is empty or not. -/
theorem studentOfRow_fields (cols : ColumnMap) (index : Nat) (row : Row) :
    (studentOfRow cols index row).id = orElse (cellAt row cols.idColIndex) (placeholderId index) ∧
    (studentOfRow cols index row).name =
      orElse (cellAt row cols.nameColIndex) (placeholderName index) ∧
    (studentOfRow cols index row).classValue = orElse (cellAt row cols.classColIndex) "N/A" ∧
    (studentOfRow cols index row).school = orElse (cellAt row cols.schoolColIndex) "N/A" := by
  unfold studentOfRow
  by_cases h : row.length = 0
  · have hnil : row = [] := List.length_eq_zero.mp h
    subst hnil
    simp [cellAt_nil, orElse]
  · simp [h]

/-- C8: for a non-empty grid `getStudentData` returns one record per data
row, in row order: the output has the grid length minus one records, and the
record at position `k` is the one built from the row at grid index `k + 1`,
whatever cells that row has or lacks. -/
theorem getStudentData_one_record_per_row (useSampleDataOnError : Bool) (sheetName : String)
    (grid : Grid) (h : grid ≠ []) :
    ∃ students, getStudentData useSampleDataOnError sheetName (.ok grid) = .ok students ∧
      students.length = grid.length - 1 ∧
      ∀ k row, grid[k + 1]? = some row →
        students[k]? = some (studentOfRow (resolveColumns (grid.headD [])) k row) := by
  refine ⟨_, getStudentData_ok useSampleDataOnError sheetName grid h, ?_, ?_⟩
  · simp
  · intro k row hrow
    rw [List.getElem?_mapIdx, List.getElem?_drop, Nat.add_comm 1 k, hrow]
    rfl

/-- C8 at work: a grid with a full row, an empty row and a short row gives three records. -/
theorem getStudentData_one_record_per_row_witness :
    ∃ students, getStudentData true "Students"
        (.ok [["ID", "Name", "Class", "School"], ["7", "Asha", "6th", "Hill"], [], ["", "Ravi"]]) =
        .ok students ∧
      students.length =
        ([["ID", "Name", "Class", "School"], ["7", "Asha", "6th", "Hill"], [], ["", "Ravi"]] :
          Grid).length - 1 ∧
      ∀ k row,
        ([["ID", "Name", "Class", "School"], ["7", "Asha", "6th", "Hill"], [], ["", "Ravi"]] :
          Grid)[k + 1]? = some row →
        students[k]? = some (studentOfRow (resolveColumns
          (([["ID", "Name", "Class", "School"], ["7", "Asha", "6th", "Hill"], [], ["", "Ravi"]] :
            Grid).headD [])) k row) :=
  getStudentData_one_record_per_row true "Students"
    [["ID", "Name", "Class", "School"], ["7", "Asha", "6th", "Hill"], [], ["", "Ravi"]]
    (by decide)

/-- C9: a data row whose id cell is missing or empty gets the id "S"
followed by its ordinal among the data rows written with three digits, zeros
in front (the plain numeral from 1000 on); a row with an id cell keeps that
cell's text as its id. -/
theorem getStudentData_placeholder_id (useSampleDataOnError : Bool) (sheetName : String)
    (grid : Grid) (k : Nat) (row : Row) (hrow : grid[k + 1]? = some row) :
    ∃ students st, getStudentData useSampleDataOnError sheetName (.ok grid) = .ok students ∧
      students[k]? = some st ∧
      ((cellAt row (resolveColumns (grid.headD [])).idColIndex = none ∨
          cellAt row (resolveColumns (grid.headD [])).idColIndex = some "") →
        st.id = "S" ++ (if k + 1 < 1000 then threeDigits (k + 1) else toString (k + 1))) ∧
      (∀ v, cellAt row (resolveColumns (grid.headD [])).idColIndex = some v → v ≠ "" →
        st.id = v) := by
  obtain ⟨students, hok, hk⟩ := getStudentData_record useSampleDataOnError sheetName grid k row hrow
  refine ⟨students, _, hok, hk, ?_, ?_⟩
  · intro hmissing
    rw [(studentOfRow_fields _ k row).1, orElse_of_missing _ _ hmissing]
    unfold placeholderId
    by_cases hlt : k + 1 < 1000
    · rw [if_pos hlt, padStart_three (k + 1) hlt]
    · rw [if_neg hlt, padStart_long (k + 1) (by omega)]
  · intro v hv hne
    rw [(studentOfRow_fields _ k row).1, hv, orElse_of_present v _ hne]

/-- C9 at work: the second data row is empty and gets the id `S002`. -/
theorem getStudentData_placeholder_id_witness :
    ∃ students st, getStudentData true "Students"
        (.ok [["ID", "Name"], ["7", "Asha"], [], ["9", "Ravi"]]) = .ok students ∧
      students[1]? = some st ∧ st.id = "S002" := by
  obtain ⟨students, st, hok, hk, hmissing, _⟩ :=
    getStudentData_placeholder_id true "Students" [["ID", "Name"], ["7", "Asha"], [], ["9", "Ravi"]]
      1 [] (by decide)
  exact ⟨students, st, hok, hk, (hmissing (Or.inl (cellAt_nil _))).trans (by decide)⟩

/-- C10, refuted as stated: a row with an empty name cell gets the name
"Student 1", not "N/A". -/
theorem getStudentData_missing_name_not_NA :
    getStudentData true "Students"
        (.ok [["ID", "Name", "Class", "School"], ["7", "", "6th", "Hill"]]) =
      .ok [{ id := "7", name := "Student 1", classValue := "6th", school := "Hill" }] := by
  decide

/-- C10, amended: in the record of a data row a missing or empty class or
school cell yields "N/A", a missing or empty name cell yields "Student "
followed by the row's ordinal among the data rows, and a name, class or
school cell that is present is copied unchanged. -/
theorem getStudentData_field_placeholders (useSampleDataOnError : Bool) (sheetName : String)
    (grid : Grid) (k : Nat) (row : Row) (hrow : grid[k + 1]? = some row) :
    ∃ students st, getStudentData useSampleDataOnError sheetName (.ok grid) = .ok students ∧
      students[k]? = some st ∧
      ((cellAt row (resolveColumns (grid.headD [])).classColIndex = none ∨
          cellAt row (resolveColumns (grid.headD [])).classColIndex = some "") →
        st.classValue = "N/A") ∧
      ((cellAt row (resolveColumns (grid.headD [])).schoolColIndex = none ∨
          cellAt row (resolveColumns (grid.headD [])).schoolColIndex = some "") →
        st.school = "N/A") ∧
      ((cellAt row (resolveColumns (grid.headD [])).nameColIndex = none ∨
          cellAt row (resolveColumns (grid.headD [])).nameColIndex = some "") →
        st.name = "Student " ++ toString (k + 1)) ∧
      (∀ v, v ≠ "" →
        (cellAt row (resolveColumns (grid.headD [])).nameColIndex = some v → st.name = v) ∧
        (cellAt row (resolveColumns (grid.headD [])).classColIndex = some v →
          st.classValue = v) ∧
        (cellAt row (resolveColumns (grid.headD [])).schoolColIndex = some v →
          st.school = v)) := by
  obtain ⟨students, hok, hk⟩ := getStudentData_record useSampleDataOnError sheetName grid k row hrow
  obtain ⟨_, hname, hclass, hschool⟩ := studentOfRow_fields (resolveColumns (grid.headD [])) k row
  refine ⟨students, _, hok, hk, ?_, ?_, ?_, ?_⟩
  · intro hmissing
    rw [hclass, orElse_of_missing _ _ hmissing]
  · intro hmissing
    rw [hschool, orElse_of_missing _ _ hmissing]
  · intro hmissing
    rw [hname, orElse_of_missing _ _ hmissing]
    rfl
  · intro v hne
    refine ⟨?_, ?_, ?_⟩
    · intro hv
      rw [hname, hv, orElse_of_present v _ hne]
    · intro hv
      rw [hclass, hv, orElse_of_present v _ hne]
    · intro hv
      rw [hschool, hv, orElse_of_present v _ hne]

/-- C10 amended, at work: the row `7, (empty), 6th` has no school cell and an empty name cell. -/
theorem getStudentData_field_placeholders_witness :
    ∃ students st, getStudentData true "Students"
        (.ok [["ID", "Name", "Class", "School"], ["7", "", "6th"]]) = .ok students ∧
      students[0]? = some st ∧ st.school = "N/A" ∧ st.name = "Student " ++ toString (0 + 1) ∧
      st.classValue = "6th" := by
  obtain ⟨students, st, hok, hk, _, hschool, hname, hcopy⟩ :=
    getStudentData_field_placeholders true "Students"
      [["ID", "Name", "Class", "School"], ["7", "", "6th"]] 0 ["7", "", "6th"] (by decide)
  exact ⟨students, st, hok, hk, hschool (Or.inl (by decide)), hname (Or.inr (by decide)),
    (hcopy "6th" (by decide)).2.1 (by decide)⟩

/-! ## The remote sheet: reading back a written header -/

/-- The letters of a column index denote that index again. -/
theorem letterValue_columnIndexToLetter (n : Nat) :
    (columnIndexToLetter (n : Int)).data.foldl (fun acc c => acc * 26 + (c.toNat - 64)) 0 =
      n + 1 := by
  induction n using Nat.strong_induction_on with
  | _ n ih =>
    by_cases h : n < 26
    · rw [columnIndexToLetter_lt (n : Int) (by omega) (by omega)]
      simp only [Int.toNat_ofNat, String.singleton, String.push, List.nil_append,
        List.foldl_cons, List.foldl_nil]
      interval_cases n <;> rfl
    · rw [columnIndexToLetter_ge (n : Int) (by omega)]
      have hq : (n : Int) / 26 - 1 = ((n / 26 - 1 : Nat) : Int) := by omega
      have hr : ((n : Int) % 26).toNat = n % 26 := by omega
      rw [hq, hr, String.data_append, List.foldl_append, ih (n / 26 - 1) (by omega)]
      simp only [String.singleton, String.push, List.nil_append, List.foldl_cons,
        List.foldl_nil]
      have hc : (Char.ofNat (65 + n % 26)).toNat - 64 = n % 26 + 1 := by
        have hlt : n % 26 < 26 := Nat.mod_lt n (by decide)
        generalize n % 26 = m at hlt
        interval_cases m <;> rfl
      rw [hc]
      omega

theorem letterToColumnIndex_columnIndexToLetter (n : Nat) :
    letterToColumnIndex (columnIndexToLetter (n : Int)) = n := by
  unfold letterToColumnIndex
  rw [letterValue_columnIndexToLetter]
  omega

theorem trimRow_concat_blank (l : Row) : trimRow (l ++ [""]) = trimRow l :=
  List.rdropWhile_concat_pos _ l "" (by decide)

theorem trimRow_concat_nonblank (l : Row) (d : String) (hd : d ≠ "") :
    trimRow (l ++ [d]) = l ++ [d] :=
  List.rdropWhile_concat_neg _ l d (by simpa using hd)

/-- A row is what its trimmed form is, followed by blank cells only. -/
theorem trimRow_decomp (t : Row) : ∃ b : Row, t = trimRow t ++ b ∧ ∀ x ∈ b, x = "" := by
  induction t using List.reverseRecOn with
  | nil => exact ⟨[], by simp [trimRow, List.rdropWhile_nil], by simp⟩
  | append_singleton l x ih =>
    by_cases hx : x = ""
    · obtain ⟨b, hb, hall⟩ := ih
      subst hx
      refine ⟨b ++ [""], ?_, ?_⟩
      · rw [trimRow_concat_blank, ← List.append_assoc, ← hb]
      · intro y hy
        rcases List.mem_append.mp hy with hy | hy
        · exact hall y hy
        · simpa using hy
    · exact ⟨[], by rw [trimRow_concat_nonblank l x hx, List.append_nil], by simp⟩

/-- Blank cells at the end of a row do not survive trimming. -/
theorem trimRow_append_blanks (l b : Row) (hb : ∀ x ∈ b, x = "") :
    trimRow (l ++ b) = trimRow l := by
  induction b using List.reverseRecOn with
  | nil => simp
  | append_singleton b x ih =>
    have hx : x = "" := hb x (by simp)
    subst hx
    rw [← List.append_assoc, trimRow_concat_blank]
    exact ih (fun y hy => hb y (List.mem_append_left _ hy))

/-- Writing a non-empty string just behind the last non-empty cell of the
first `m` columns appends it to what a read of those columns returns. -/
theorem trimRow_take_setAt (r : Row) (m : Nat) (d : String) (hd : d ≠ "")
    (hlen : (trimRow (r.take m)).length < m) :
    trimRow ((setAt r (trimRow (r.take m)).length "" d).take m) = trimRow (r.take m) ++ [d] := by
  obtain ⟨b, hb, hall⟩ := trimRow_decomp (r.take m)
  generalize hh : trimRow (r.take m) = h at hb hlen ⊢
  unfold setAt
  rw [List.set_take]
  cases b with
  | nil =>
    rw [List.append_nil] at hb
    have hrl : r.length = h.length := by
      have := congrArg List.length hb
      rw [List.length_take] at this
      omega
    have hr : r = h := by
      rw [← hb, List.take_of_length_le (by omega)]
    rw [hr]
    have hpad : h.length + 1 - h.length = 1 := by omega
    rw [hpad]
    have htake : List.take m (h ++ List.replicate 1 "") = h ++ [""] := by
      rw [List.take_of_length_le (by simp; omega)]
      rfl
    rw [htake, List.set_append_right _ _ (le_refl _)]
    simp only [Nat.sub_self, List.set_cons_zero]
    exact trimRow_concat_nonblank h d hd
  | cons x b =>
    have hx : x = "" := hall x (by simp)
    subst hx
    have hrl : h.length + 1 ≤ r.length := by
      have := congrArg List.length hb
      rw [List.length_take] at this
      simp at this
      omega
    have hpad : h.length + 1 - r.length = 0 := by omega
    rw [hpad]
    simp only [List.replicate_zero, List.append_nil]
    rw [hb, List.set_append_right _ _ (le_refl _)]
    simp only [Nat.sub_self, List.set_cons_zero]
    have : h ++ d :: b = (h ++ [d]) ++ b := by simp
    rw [this, trimRow_append_blanks _ b (fun y hy => hall y (List.mem_cons_of_mem _ hy))]
    exact trimRow_concat_nonblank h d hd

/-- In a header row extended by a new date, the date is found at the old length. -/
theorem findIndex_append_new (headers : Row) (dateStr : String) (hnew : dateStr ∉ headers) :
    findIndex (fun header => header == dateStr) (headers ++ [dateStr]) = (headers.length : Int) := by
  have hnone : List.findIdx? (fun header => header == dateStr) headers = none := by
    rw [List.findIdx?_eq_none_iff]
    intro x hx
    by_cases hxd : x = dateStr
    · exact absurd (hxd ▸ hx) hnew
    · simpa using hxd
  unfold findIndex
  rw [List.findIdx?_append, hnone]
  simp

/-! ## Adding a date column twice -/

/-- What `addDateColumn` sends: one header write when signed in, the date
being new and the client library loaded; nothing otherwise. -/
theorem addDateColumn_requests (s : Session) (headers : Row) (rest : Grid)
    (sheetName dateStr : String) :
    (addDateColumn s (.ok (headers :: rest)) sheetName dateStr).requests =
      if ((s.useOAuth && s.isUserSignedIn) &&
          decide (findIndex (fun header => header == dateStr) headers = -1) &&
          s.sheetsLoaded) = true then
        [.valuesUpdate (.cell sheetName (columnIndexToLetter (headers.length : Int)) 1)
          [[dateStr]]]
      else [] := by
  unfold addDateColumn
  simp only [List.head?_cons]
  by_cases hauth : (s.useOAuth && s.isUserSignedIn) = true
  · by_cases hidx : findIndex (fun header => header == dateStr) headers = -1
    · by_cases hload : s.sheetsLoaded = true
      · cases hc : s.callOutcome <;> simp [hauth, hidx, hload]
      · simp [hauth, hidx, hload]
    · simp [hauth, hidx]
  · simp [hauth]

/-- Writing one value at the top row is one `setCell`. -/
theorem applyRequest_header_write (sheet : Grid) (sheetName columnLetter dateStr : String) :
    applyRequest sheet (.valuesUpdate (.cell sheetName columnLetter 1) [[dateStr]]) =
      setCell sheet 0 (letterToColumnIndex columnLetter) dateStr := by
  simp [applyRequest, writeBlock, List.enum, List.enumFrom]

/-- A read of `A1:Z1` on a sheet: nothing when the first row is blank there, its trimmed form otherwise. -/
theorem readRange_header (row : Row) (rest : Grid) :
    readRange (row :: rest) 1 26 =
      if trimRow (row.take 26) = [] then [] else [trimRow (row.take 26)] := by
  unfold readRange
  simp only [List.take_succ_cons, List.take_zero, List.map_cons, List.map_nil]
  rw [List.rdropWhile_singleton]
  by_cases h : trimRow (List.take 26 row) = [] <;> simp [h]

/-- A sheet whose read of `A1:Z1` gives a header row has a first row, of which it is the trimmed form. -/
theorem sheet_of_readRange_header (sheet : Grid) (headers : Row)
    (hread : readRange sheet 1 26 = [headers]) :
    ∃ row rest, sheet = row :: rest ∧ trimRow (row.take 26) = headers := by
  cases sheet with
  | nil => simp [readRange, List.rdropWhile_nil] at hread
  | cons row rest =>
    refine ⟨row, rest, rfl, ?_⟩
    rw [readRange_header] at hread
    by_cases h : trimRow (List.take 26 row) = []
    · simp [h] at hread
    · simpa [h] using hread

/-- The header row read back after a new, non-empty date has been written
behind fewer than 26 header cells: the old header row and the date. -/
theorem readRange_after_header_write (row : Row) (rest : Grid) (dateStr : String)
    (hd : dateStr ≠ "") (hlen : (trimRow (row.take 26)).length < 26) :
    readRange (setCell (row :: rest) 0 (trimRow (row.take 26)).length dateStr) 1 26 =
      [trimRow (row.take 26) ++ [dateStr]] := by
  have hset : setCell (row :: rest) 0 (trimRow (row.take 26)).length dateStr =
      setAt row (trimRow (row.take 26)).length "" dateStr :: rest := by
    simp [setCell, setAt]
  rw [hset, readRange_header, trimRow_take_setAt row 26 dateStr hd hlen]
  simp

/-- C3, refuted as stated: signed out, on a sheet with the header row `ID,
Name`, both calls for the new date 2024-01-07 are simulated, the sheet stays
as it was, and the second call answers `isExisting = false`. -/
theorem addDateColumn_twice_signed_out :
    (addDateColumnOnSheet ⟨true, false, true, .ok ⟨""⟩⟩
        (addDateColumnOnSheet ⟨true, false, true, .ok ⟨""⟩⟩ [["ID", "Name"], ["7", "Asha"]]
          "Students" "2024-01-07").2
        "Students" "2024-01-07").1.result =
      .ok { columnIndex := 2, columnLetter := "C", isExisting := false, simulated := true } := by
  have hread : readRange [["ID", "Name"], ["7", "Asha"]] 1 26 = [["ID", "Name"]] := by decide
  have hidx : findIndex (fun header => header == "2024-01-07") ["ID", "Name"] = -1 := by decide
  have hletter : columnIndexToLetter 2 = "C" := by
    rw [columnIndexToLetter_lt 2 (by decide) (by decide)]; decide
  have hsheet : (addDateColumnOnSheet ⟨true, false, true, .ok ⟨""⟩⟩
      [["ID", "Name"], ["7", "Asha"]] "Students" "2024-01-07").2 =
      [["ID", "Name"], ["7", "Asha"]] := by
    simp only [addDateColumnOnSheet, hread, addDateColumn_requests, hidx]
    rfl
  rw [hsheet]
  simp only [addDateColumnOnSheet, hread, addDateColumn_result, dateColumnAnswer, hidx]
  simp [hletter]

/-- The sheet `addDateColumn` leaves: the date written behind the header row
when the call really wrote, the sheet as it was otherwise. -/
theorem sheetAfter_addDateColumn (s : Session) (sheet : Grid) (headers : Row) (rest : Grid)
    (sheetName dateStr : String) :
    sheetAfter s sheet (addDateColumn s (.ok (headers :: rest)) sheetName dateStr).requests =
      if ((s.useOAuth && s.isUserSignedIn) &&
          decide (findIndex (fun header => header == dateStr) headers = -1) &&
          s.sheetsLoaded && s.callOutcome.toBool) = true then
        setCell sheet 0 headers.length dateStr
      else sheet := by
  rw [addDateColumn_requests]
  unfold sheetAfter
  by_cases hsend : ((s.useOAuth && s.isUserSignedIn) &&
      decide (findIndex (fun header => header == dateStr) headers = -1) &&
      s.sheetsLoaded) = true
  · cases hc : s.callOutcome with
    | error e => simp [hsend, Except.toBool]
    | ok v =>
      simp only [hsend, if_true, List.foldl_cons, List.foldl_nil, applyRequest_header_write,
        letterToColumnIndex_columnIndexToLetter, Except.toBool, Bool.and_true]
  · cases hc : s.callOutcome <;> simp [hsend]

/-- C3, amended: on a sheet with a header row, where a date that is new is
non-empty and finds fewer than 26 header cells in `A1:Z1`, two successive
`addDateColumn` calls with the same date both return, with the same column
letter; and the second returns `isExisting = true` exactly when the first
call found the date in the header row or really wrote it (`simulated =
false`).  After a simulated first call for a new date the second call
answers `isExisting = false` again. -/
theorem addDateColumn_twice (s1 s2 : Session) (sheet : Grid) (headers : Row)
    (sheetName dateStr : String)
    (hread : readRange sheet 1 26 = [headers])
    (hnew : dateStr ∉ headers → headers.length < 26 ∧ dateStr ≠ "") :
    ∃ r1 r2,
      (addDateColumnOnSheet s1 sheet sheetName dateStr).1.result = .ok r1 ∧
      (addDateColumnOnSheet s2 (addDateColumnOnSheet s1 sheet sheetName dateStr).2
        sheetName dateStr).1.result = .ok r2 ∧
      r2.columnLetter = r1.columnLetter ∧
      (r2.isExisting = true ↔ (r1.isExisting = true ∨ r1.simulated = false)) := by
  obtain ⟨row, rest, hsheet, htrim⟩ := sheet_of_readRange_header sheet headers hread
  have hmem := findIndex_date_eq_neg_one headers dateStr
  have h1 : (addDateColumnOnSheet s1 sheet sheetName dateStr).1 =
      addDateColumn s1 (.ok [headers]) sheetName dateStr := by
    simp only [addDateColumnOnSheet, hread]
  have h2 : (addDateColumnOnSheet s1 sheet sheetName dateStr).2 =
      sheetAfter s1 sheet (addDateColumn s1 (.ok [headers]) sheetName dateStr).requests := by
    simp only [addDateColumnOnSheet, hread]
  rw [h1, h2, sheetAfter_addDateColumn]
  by_cases hwrote : ((s1.useOAuth && s1.isUserSignedIn) &&
      decide (findIndex (fun header => header == dateStr) headers = -1) &&
      s1.sheetsLoaded && s1.callOutcome.toBool) = true
  · -- the first call really wrote the new date
    simp only [Bool.and_eq_true, decide_eq_true_eq] at hwrote
    obtain ⟨⟨⟨hauth, hidx⟩, hload⟩, hcall⟩ := hwrote
    obtain ⟨hwidth, hdate⟩ := hnew (hmem.mp hidx)
    have hread2 : readRange (setCell sheet 0 headers.length dateStr) 1 26 =
        [headers ++ [dateStr]] := by
      rw [hsheet, ← htrim]
      exact readRange_after_header_write row rest dateStr hdate (by rw [htrim]; exact hwidth)
    have hidx2 := findIndex_append_new headers dateStr (hmem.mp hidx)
    have hne2 : (headers.length : Int) ≠ -1 := by omega
    refine ⟨dateColumnAnswer s1 headers dateStr,
      dateColumnAnswer s2 (headers ++ [dateStr]) dateStr,
      addDateColumn_result s1 headers [] sheetName dateStr, ?_, ?_, ?_⟩
    · simp only [Bool.and_eq_true, decide_eq_true_eq, hauth, hidx, hload, hcall, and_self,
        if_true, addDateColumnOnSheet, hread2]
      exact addDateColumn_result s2 (headers ++ [dateStr]) [] sheetName dateStr
    · simp only [dateColumnAnswer, hidx2, hidx, hne2, ne_eq, not_false_eq_true,
        not_true_eq_false, if_true, if_false]
    · simp [dateColumnAnswer, hidx2, hidx, hauth.1, hauth.2, hload, hcall]
  · -- the sheet is as it was
    refine ⟨dateColumnAnswer s1 headers dateStr, dateColumnAnswer s2 headers dateStr,
      addDateColumn_result s1 headers [] sheetName dateStr, ?_, rfl, ?_⟩
    · simp only [hwrote, if_false, addDateColumnOnSheet, hread, Bool.false_eq_true]
      exact addDateColumn_result s2 headers [] sheetName dateStr
    · by_cases hidx : findIndex (fun header => header == dateStr) headers = -1
      · simp only [hidx, decide_True, Bool.and_true, Bool.true_and] at hwrote
        simp only [dateColumnAnswer, hidx, ne_eq, not_true_eq_false, decide_False,
          Bool.false_eq_true, false_or, Bool.false_or, false_iff, Bool.not_eq_false',
          Bool.not_eq_true', Bool.not_eq_true]
        simpa [Bool.and_assoc] using hwrote
      · simp [dateColumnAnswer, hidx]

/-- C3 amended, at work: signed in on a sheet with the header row `ID, Name`;
the first call writes 2024-01-07 into column C, the second finds it there. -/
theorem addDateColumn_twice_witness :
    ∃ r1 r2,
      (addDateColumnOnSheet ⟨true, true, true, .ok ⟨""⟩⟩ [["ID", "Name"], ["7", "Asha"]]
        "Students" "2024-01-07").1.result = .ok r1 ∧
      (addDateColumnOnSheet ⟨true, false, true, .ok ⟨""⟩⟩
        (addDateColumnOnSheet ⟨true, true, true, .ok ⟨""⟩⟩ [["ID", "Name"], ["7", "Asha"]]
          "Students" "2024-01-07").2
        "Students" "2024-01-07").1.result = .ok r2 ∧
      r2.columnLetter = r1.columnLetter ∧
      (r2.isExisting = true ↔ (r1.isExisting = true ∨ r1.simulated = false)) :=
  addDateColumn_twice ⟨true, true, true, .ok ⟨""⟩⟩ ⟨true, false, true, .ok ⟨""⟩⟩
    [["ID", "Name"], ["7", "Asha"]] ["ID", "Name"] "Students" "2024-01-07" (by decide)
    (fun _ => ⟨by decide, by decide⟩)

/-! ## A header row wider than `A1:Z1` -/

/-- C4, the defect: on a sheet whose header row fills columns A to AA, the
date 2024-06-16 is not in the header row; `addDateColumn`, signed in, reads
only `A1:Z1`, chooses column index 26, letter AA, where the header 2024-06-09
stands, and its write replaces that header. -/
theorem addDateColumn_overwrites_column_AA :
    "2024-06-16" ∉ wideHeaderRow ∧
    (addDateColumnOnSheet ⟨true, true, true, .ok ⟨""⟩⟩ [wideHeaderRow, ["7", "Asha"]]
        "Students" "2024-06-16").1.result =
      .ok { columnIndex := 26, columnLetter := "AA", isExisting := false, simulated := false } ∧
    wideHeaderRow[26]? = some "2024-06-09" ∧
    (addDateColumnOnSheet ⟨true, true, true, .ok ⟨""⟩⟩ [wideHeaderRow, ["7", "Asha"]]
        "Students" "2024-06-16").2 =
      [wideHeaderRow.take 26 ++ ["2024-06-16"], ["7", "Asha"]] := by
  have hread : readRange [wideHeaderRow, ["7", "Asha"]] 1 26 = [wideHeaderRow.take 26] := by
    decide
  have hidx : findIndex (fun header => header == "2024-06-16") (wideHeaderRow.take 26) = -1 := by
    decide
  have hlen : ((wideHeaderRow.take 26).length : Int) = 26 := by decide
  have hletter : columnIndexToLetter 26 = "AA" := by
    rw [columnIndexToLetter_ge 26 (by decide)]
    have h : (26 : Int) / 26 - 1 = 0 := by decide
    rw [h, columnIndexToLetter_lt 0 (by decide) (by decide)]; decide
  refine ⟨by decide, ?_, by decide, ?_⟩
  · simp only [addDateColumnOnSheet, hread, addDateColumn_result, dateColumnAnswer, hidx, hlen]
    simp [hletter, Except.toBool]
  · simp only [addDateColumnOnSheet, hread, sheetAfter_addDateColumn, hidx]
    decide

/-! ## Column heuristics -/

/-- The index `findIndex` answers when an element satisfies the test and none before it does. -/
theorem findIndex_eq_of_first {α : Type} (p : α → Bool) (xs : List α) (i : Nat) (x : α)
    (hi : xs[i]? = some x) (hp : p x = true)
    (hfirst : ∀ j, j < i → ∀ y, xs[j]? = some y → p y = false) :
    findIndex p xs = (i : Int) := by
  have hlt : i < xs.length := by
    by_contra hge
    rw [List.getElem?_eq_none (by omega)] at hi
    cases hi
  have hx : xs[i] = x := by
    rw [List.getElem?_eq_getElem hlt] at hi
    exact Option.some.inj hi
  have hfind : xs.findIdx? p = some i := by
    rw [List.findIdx?_eq_some_iff_getElem]
    refine ⟨hlt, by rw [hx]; exact hp, ?_⟩
    intro j hj
    have := hfirst j hj xs[j] (List.getElem?_eq_getElem (Nat.lt_trans hj hlt))
    simp [this]
  simp [findIndex, hfind]

/-- The empty text contains no keyword that has a letter. -/
theorem includes_empty (keyword : String) (h : keyword ≠ "") :
    includes (toLowerCase "") keyword = false := by
  have hdata : keyword.data ≠ [] := by
    intro hd
    apply h
    cases keyword
    simp_all
  unfold includes toLowerCase
  cases hk : keyword.data with
  | nil => exact absurd hk hdata
  | cons c cs => simp [List.tails, List.isPrefixOf]

/-- On a header that is not blank, the keyword test is the substring test on the lowered text. -/
theorem headerHas_iff (keyword header : String) (hk : keyword ≠ "") :
    headerHas keyword header = includes (toLowerCase header) keyword := by
  unfold headerHas
  by_cases hb : header = ""
  · subst hb
    rw [includes_empty keyword hk]
    rfl
  · simp [hb]

/-- C11: when some header contains "name" in any letter case, the column
heuristics of `getStudentData` resolve the name field to the index of the
first such header; a blank header never matches. -/
theorem resolveColumns_name_first (headerRow : Row) (i : Nat) (header : String)
    (hi : headerRow[i]? = some header)
    (hname : includes (toLowerCase header) "name" = true)
    (hfirst : ∀ j, j < i → ∀ other, headerRow[j]? = some other →
      includes (toLowerCase other) "name" = false) :
    (resolveColumns headerRow).nameColIndex = (i : Int) ∧ headerHas "name" "" = false := by
  have hidx : findIndex (headerHas "name") headerRow = (i : Int) := by
    apply findIndex_eq_of_first (headerHas "name") headerRow i header hi
    · rw [headerHas_iff "name" header (by decide)]; exact hname
    · intro j hj other ho
      rw [headerHas_iff "name" other (by decide)]
      exact hfirst j hj other ho
  refine ⟨?_, by decide⟩
  have hne : (i : Int) ≠ -1 := by omega
  simp only [resolveColumns, hidx, hne, if_false]

/-- C11 at work: in `Roll, (blank), Student NAME, Nickname` the name column is index 2. -/
theorem resolveColumns_name_first_witness :
    (resolveColumns ["Roll", "", "Student NAME", "Nickname"]).nameColIndex = ((2 : Nat) : Int) ∧
      headerHas "name" "" = false :=
  resolveColumns_name_first ["Roll", "", "Student NAME", "Nickname"] 2 "Student NAME"
    (by decide) (by decide) (by decide)

/-- The answer of `findIndex` is `-1` or a position. -/
theorem findIndex_nonneg_of_ne {α : Type} (p : α → Bool) (xs : List α)
    (h : findIndex p xs ≠ -1) : 0 ≤ findIndex p xs := by
  obtain ⟨i, hi, _⟩ := findIndex_found p xs h
  rw [hi]
  exact Int.ofNat_nonneg i

/-- No header passes the keyword test when no header contains the keyword. -/
theorem findIndex_headerHas_neg_one (keyword : String) (headerRow : Row)
    (h : ∀ header ∈ headerRow, includes (toLowerCase header) keyword = false) :
    findIndex (headerHas keyword) headerRow = -1 := by
  rw [findIndex_eq_neg_one]
  intro header hmem
  unfold headerHas
  rw [h header hmem]
  simp

/-- C12: a header row without any of the keywords id, number, phone, name,
class, school (the empty header row among them) resolves id, name, class,
school to 0, 1, 2, 3; for every header row the four indices are non-negative;
and each field whose keywords occur in no header takes its own default,
whatever the other fields resolve to. -/
theorem resolveColumns_defaults (headerRow : Row) :
    ((∀ header ∈ headerRow, ∀ keyword ∈ ["id", "number", "phone", "name", "class", "school"],
        includes (toLowerCase header) keyword = false) →
      resolveColumns headerRow =
        { idColIndex := 0, nameColIndex := 1, classColIndex := 2, schoolColIndex := 3 }) ∧
    resolveColumns [] =
      { idColIndex := 0, nameColIndex := 1, classColIndex := 2, schoolColIndex := 3 } ∧
    (0 ≤ (resolveColumns headerRow).idColIndex ∧ 0 ≤ (resolveColumns headerRow).nameColIndex ∧
      0 ≤ (resolveColumns headerRow).classColIndex ∧
      0 ≤ (resolveColumns headerRow).schoolColIndex) ∧
    ((∀ header ∈ headerRow, ∀ keyword ∈ ["id", "number", "phone"],
        includes (toLowerCase header) keyword = false) →
      (resolveColumns headerRow).idColIndex = 0) ∧
    ((∀ header ∈ headerRow, includes (toLowerCase header) "name" = false) →
      (resolveColumns headerRow).nameColIndex = 1) ∧
    ((∀ header ∈ headerRow, includes (toLowerCase header) "class" = false) →
      (resolveColumns headerRow).classColIndex = 2) ∧
    ((∀ header ∈ headerRow, includes (toLowerCase header) "school" = false) →
      (resolveColumns headerRow).schoolColIndex = 3) := by
  have hid : (∀ header ∈ headerRow, ∀ keyword ∈ ["id", "number", "phone"],
      includes (toLowerCase header) keyword = false) →
      (resolveColumns headerRow).idColIndex = 0 := by
    intro h
    have h1 := findIndex_headerHas_neg_one "id" headerRow
      (fun header hm => h header hm "id" (by simp))
    have h2 : findIndex (fun header => headerHas "number" header || headerHas "phone" header)
        headerRow = -1 := by
      rw [findIndex_eq_neg_one]
      intro header hm
      unfold headerHas
      rw [h header hm "number" (by simp), h header hm "phone" (by simp)]
      simp
    simp only [resolveColumns, h1, h2, if_true]
  have hname : (∀ header ∈ headerRow, includes (toLowerCase header) "name" = false) →
      (resolveColumns headerRow).nameColIndex = 1 := by
    intro h
    simp only [resolveColumns, findIndex_headerHas_neg_one "name" headerRow h, if_true]
  have hclass : (∀ header ∈ headerRow, includes (toLowerCase header) "class" = false) →
      (resolveColumns headerRow).classColIndex = 2 := by
    intro h
    simp only [resolveColumns, findIndex_headerHas_neg_one "class" headerRow h, if_true]
  have hschool : (∀ header ∈ headerRow, includes (toLowerCase header) "school" = false) →
      (resolveColumns headerRow).schoolColIndex = 3 := by
    intro h
    simp only [resolveColumns, findIndex_headerHas_neg_one "school" headerRow h, if_true]
  refine ⟨?_, by decide, ⟨?_, ?_, ?_, ?_⟩, hid, hname, hclass, hschool⟩
  · intro h
    have e1 := hid (fun header hm keyword hk =>
      h header hm keyword (by
        simp only [List.mem_cons, List.mem_singleton, List.mem_nil_iff, or_false] at hk ⊢
        rcases hk with hk | hk | hk <;> simp [hk]))
    have e2 := hname (fun header hm => h header hm "name" (by simp))
    have e3 := hclass (fun header hm => h header hm "class" (by simp))
    have e4 := hschool (fun header hm => h header hm "school" (by simp))
    cases hr : resolveColumns headerRow with
    | mk a b c d =>
      rw [hr] at e1 e2 e3 e4
      simp only at e1 e2 e3 e4
      rw [e1, e2, e3, e4]
  · simp only [resolveColumns]
    by_cases h1 : findIndex (headerHas "id") headerRow = -1
    · simp only [h1, if_true]
      by_cases h2 : findIndex (fun header => headerHas "number" header || headerHas "phone" header)
          headerRow = -1
      · simp [h2]
      · simp only [h2, if_false]
        exact findIndex_nonneg_of_ne _ _ h2
    · simp only [h1, if_false]
      exact findIndex_nonneg_of_ne _ _ h1
  · simp only [resolveColumns]
    by_cases h1 : findIndex (headerHas "name") headerRow = -1
    · simp [h1]
    · simp only [h1, if_false]
      exact findIndex_nonneg_of_ne _ _ h1
  · simp only [resolveColumns]
    by_cases h1 : findIndex (headerHas "class") headerRow = -1
    · simp [h1]
    · simp only [h1, if_false]
      exact findIndex_nonneg_of_ne _ _ h1
  · simp only [resolveColumns]
    by_cases h1 : findIndex (headerHas "school") headerRow = -1
    · simp [h1]
    · simp only [h1, if_false]
      exact findIndex_nonneg_of_ne _ _ h1

/-- C12 at work: `Roll, Pupil` has no keyword; in `Roll, Student Name` the
name is matched while class and school still take their defaults. -/
theorem resolveColumns_defaults_witness :
    resolveColumns ["Roll", "Pupil"] =
      { idColIndex := 0, nameColIndex := 1, classColIndex := 2, schoolColIndex := 3 } ∧
    (resolveColumns ["Roll", "Student Name"]).classColIndex = 2 ∧
    (resolveColumns ["Roll", "Student Name"]).schoolColIndex = 3 :=
  ⟨(resolveColumns_defaults ["Roll", "Pupil"]).1 (by decide),
   (resolveColumns_defaults ["Roll", "Student Name"]).2.2.2.2.2.1 (by decide),
   (resolveColumns_defaults ["Roll", "Student Name"]).2.2.2.2.2.2 (by decide)⟩

/-- C13, the defect: under the header row `Phone, ID, Name, Class, School`
the column heuristics of `getStudentData` take the id from column 1 (the
header containing "id"), while `updateAttendanceByStudentId` takes column 0
(the first header containing "id", "number" or "phone"); so the id 7 that
`getStudentData` reports for the row `999, 7, Asha, 6th, Hill` is not found
by the attendance update. -/
theorem attendanceIdColumn_differs_from_heuristics :
    (resolveColumns ["Phone", "ID", "Name", "Class", "School"]).idColIndex = 1 ∧
    attendanceIdColumn ["Phone", "ID", "Name", "Class", "School"] = 0 ∧
    getStudentData true "Students"
        (.ok [["Phone", "ID", "Name", "Class", "School"], ["999", "7", "Asha", "6th", "Hill"]]) =
      .ok [{ id := "7", name := "Asha", classValue := "6th", school := "Hill" }] ∧
    (updateAttendanceByStudentId ⟨true, true, true, .ok ⟨""⟩⟩
        (.ok [["Phone", "ID", "Name", "Class", "School"], ["999", "7", "Asha", "6th", "Hill"]])
        "Students" "7" "F" "Present").result =
      .error ⟨"Student with ID 7 not found", none⟩ := by
  refine ⟨by decide, by decide, by decide, by decide⟩

/-! ## The remote read: properties -/

theorem getSheetData_ok (useSampleDataOnError : Bool) (remote : Nat → Except JsError (Option Grid))
    (sheetName : String) (retryCount : Nat) (values : Option Grid)
    (h : remote retryCount = .ok values) :
    getSheetData useSampleDataOnError remote sheetName retryCount =
      { result := .ok (values.getD []), requests := 1, waits := [] } := by
  rw [getSheetData, h]

theorem getSheetData_retry (useSampleDataOnError : Bool)
    (remote : Nat → Except JsError (Option Grid)) (sheetName : String) (retryCount : Nat)
    (error : JsError) (h : remote retryCount = .error error) (h429 : error.status = some 429)
    (hlt : retryCount < 3) :
    getSheetData useSampleDataOnError remote sheetName retryCount =
      { result := (getSheetData useSampleDataOnError remote sheetName (retryCount + 1)).result
        requests :=
          (getSheetData useSampleDataOnError remote sheetName (retryCount + 1)).requests + 1
        waits := 2 ^ retryCount * 1000 ::
          (getSheetData useSampleDataOnError remote sheetName (retryCount + 1)).waits } := by
  rw [getSheetData, h]
  simp [h429, hlt]

theorem getSheetData_giveup (useSampleDataOnError : Bool)
    (remote : Nat → Except JsError (Option Grid)) (sheetName : String) (retryCount : Nat)
    (error : JsError) (h : remote retryCount = .error error)
    (hstop : error.status ≠ some 429 ∨ 3 ≤ retryCount) :
    getSheetData useSampleDataOnError remote sheetName retryCount =
      if useSampleDataOnError then
        { result := .ok (getSampleData sheetName), requests := 1, waits := [] }
      else
        { result := .error error, requests := 1, waits := [] } := by
  have hnot : ¬ (error.status = some 429 ∧ retryCount < 3) := by
    rintro ⟨h1, h2⟩
    rcases hstop with hs | hs
    · exact hs h1
    · omega
  rw [getSheetData, h]
  simp [hnot]

/-- A read that answers 429 from attempt `retryCount` up to attempt `k` (excluded)
and then fails for good returns the sample grid when the flag is set. -/
theorem getSheetData_failed_from (remote : Nat → Except JsError (Option Grid))
    (sheetName : String) (k : Nat) (error : JsError)
    (hfail : remote k = .error error) (hstop : error.status ≠ some 429 ∨ 3 ≤ k) :
    ∀ (d retryCount : Nat), retryCount + d = k →
      (∀ j, retryCount ≤ j → j < k → ∃ e, remote j = .error e ∧ e.status = some 429) → k ≤ 3 →
      (getSheetData true remote sheetName retryCount).result = .ok (getSampleData sheetName) := by
  intro d
  induction d with
  | zero =>
    intro retryCount hk _ _
    have hrk : retryCount = k := by omega
    subst hrk
    rw [getSheetData_giveup true remote sheetName retryCount error hfail hstop]
    rfl
  | succ d ih =>
    intro retryCount hk h429 hk3
    obtain ⟨e, he, hes⟩ := h429 retryCount (le_refl _) (by omega)
    rw [getSheetData_retry true remote sheetName retryCount e he hes (by omega)]
    exact ih (retryCount + 1) (by omega) (fun j hj hjk => h429 j (by omega) hjk) hk3

/-- C20: with the sample-data flag set, a read that fails (a non-429 error at
some attempt reached through 429 answers only, or a 429 answer at the fourth
attempt) makes `getSheetData` return `getSampleData(sheetName)`, not an error
and not an empty grid: for a sheet name that is "students" in lower case the
built-in grid of the header `ID, Name, Class, School` and 16 student rows, for
any other name the one-cell grid `No Data Available`. -/
theorem getSheetData_sample_on_failure (remote : Nat → Except JsError (Option Grid))
    (sheetName : String) (k : Nat) (error : JsError) (hk : k ≤ 3)
    (hretried : ∀ j, j < k → ∃ e, remote j = .error e ∧ e.status = some 429)
    (hfail : remote k = .error error) (hstop : error.status ≠ some 429 ∨ k = 3) :
    (getSheetData true remote sheetName 0).result = .ok (getSampleData sheetName) ∧
    getSampleData sheetName ≠ [] ∧
    (toLowerCase sheetName = "students" →
      getSampleData sheetName = getSampleData "Students" ∧
      (getSampleData sheetName).length = 17 ∧
      (getSampleData sheetName).head? = some ["ID", "Name", "Class", "School"] ∧
      (getSampleData sheetName).getLast? =
        some ["16", "Mokshitha", "8th Class", "BV & B N high school Jandrapet"]) ∧
    (toLowerCase sheetName ≠ "students" → getSampleData sheetName = [["No Data Available"]]) := by
  refine ⟨?_, ?_, ?_, ?_⟩
  · exact getSheetData_failed_from remote sheetName k error hfail
      (by rcases hstop with h | h; exact Or.inl h; exact Or.inr (by omega)) k 0 (by omega)
      (fun j _ hj => hretried j hj) hk
  · unfold getSampleData
    split <;> simp
  · intro hs
    have h1 : getSampleData sheetName = getSampleData "Students" := by
      unfold getSampleData
      rw [if_pos hs, if_pos (by decide)]
    rw [h1]
    exact ⟨rfl, by decide, by decide, by decide⟩
  · intro hs
    unfold getSampleData
    rw [if_neg hs]

/-- C20 at work: the sheet "STUDENTS" answered 429 four times, and the sheet
"Marks" answered 500 at once. -/
theorem getSheetData_sample_on_failure_witness :
    (getSheetData true (fun _ => .error ⟨"Too Many Requests", some 429⟩) "STUDENTS" 0).result =
      .ok (getSampleData "STUDENTS") ∧
    (getSheetData true (fun _ => .error ⟨"Server Error", some 500⟩) "Marks" 0).result =
      .ok (getSampleData "Marks") ∧
    getSampleData "Marks" = [["No Data Available"]] :=
  ⟨(getSheetData_sample_on_failure (fun _ => .error ⟨"Too Many Requests", some 429⟩) "STUDENTS" 3
      ⟨"Too Many Requests", some 429⟩ (le_refl _) (fun _ _ => ⟨_, rfl, rfl⟩) rfl (Or.inr rfl)).1,
   (getSheetData_sample_on_failure (fun _ => .error ⟨"Server Error", some 500⟩) "Marks" 0
      ⟨"Server Error", some 500⟩ (by decide) (fun j hj => absurd hj (Nat.not_lt_zero j)) rfl
      (Or.inl (by decide))).1,
   (getSheetData_sample_on_failure (fun _ => .error ⟨"Server Error", some 500⟩) "Marks" 0
      ⟨"Server Error", some 500⟩ (by decide) (fun j hj => absurd hj (Nat.not_lt_zero j)) rfl
      (Or.inl (by decide))).2.2.2 (by decide)⟩


/-! ## The next student id -/

/-- Below `2 ^ 53` the doubles are one apart. -/
theorem doubleSpacing_small (a : Nat) (h : a < 2 ^ 53) : doubleSpacing 1024 a 1 = 1 := by
  have hstep : ∀ fuel : Nat, doubleSpacing (fuel + 1) a 1 = 1 := by
    intro fuel
    simp only [doubleSpacing, Nat.mul_one, h, if_true]
  exact hstep 1023

/-- An integer of magnitude at most `2 ^ 53` is a double: rounding leaves it as it is. -/
theorem roundToDouble_exact (n : Int) (h : n.natAbs ≤ 2 ^ 53) : roundToDouble n = n := by
  rcases Nat.lt_or_ge n.natAbs (2 ^ 53) with hlt | hge
  · unfold roundToDouble
    simp only [doubleSpacing_small _ hlt, Nat.div_one, Nat.mod_one, Nat.mul_one]
    have hcond : (decide (2 * 0 > 1) || (2 * 0 == 1 && n.natAbs % 2 == 1)) = false := by
      simp
    simp only [hcond, Bool.false_eq_true, if_false]
    by_cases hneg : n < 0
    · simp only [hneg, if_true]
      omega
    · simp only [hneg, if_false]
      omega
  · have heq : n.natAbs = 2 ^ 53 := Nat.le_antisymm h hge
    rcases Int.natAbs_eq n with hn | hn
    · rw [heq] at hn
      rw [hn]
      decide
    · rw [heq] at hn
      rw [hn]
      decide

/-- One step of the scan, by what `parseInt` reads from the first cell. -/
theorem highestIdStep_eq (start : Int) (row : Row) :
    highestIdStep start row =
      match row[0]?.bind parseInt with
      | none => start
      | some v => if v > start then v else start := by
  unfold highestIdStep
  cases hc : row[0]? with
  | none => rfl
  | some cell =>
    by_cases hempty : cell = ""
    · subst hempty
      have hp : parseInt "" = none := by decide
      simp [hp]
    · simp only [hempty, if_false, Option.some_bind]

/-- The scan of `generateStudentId` keeps the largest value seen above its start. -/
theorem foldl_highestIdStep (rows : List Row) :
    ∀ start : Int,
      start ≤ rows.foldl highestIdStep start ∧
      (∀ row ∈ rows, ∀ cell v, row[0]? = some cell → parseInt cell = some v →
        v ≤ rows.foldl highestIdStep start) ∧
      (rows.foldl highestIdStep start = start ∨
        ∃ row ∈ rows, ∃ cell, row[0]? = some cell ∧
          parseInt cell = some (rows.foldl highestIdStep start)) := by
  induction rows with
  | nil => intro start; simp
  | cons row rest ih =>
    intro start
    obtain ⟨hge, hall, hfrom⟩ := ih (highestIdStep start row)
    have hstep : start ≤ highestIdStep start row ∧
        (∀ cell v, row[0]? = some cell → parseInt cell = some v → v ≤ highestIdStep start row) ∧
        (highestIdStep start row = start ∨
          ∃ cell, row[0]? = some cell ∧ parseInt cell = some (highestIdStep start row)) := by
      rw [highestIdStep_eq]
      cases hc : row[0]? with
      | none => simp
      | some cell =>
        cases hp : parseInt cell with
        | none =>
          have hb : (some cell).bind parseInt = none := hp
          rw [hb]
          refine ⟨le_refl _, ?_, Or.inl rfl⟩
          intro cell2 v h2 hv
          rw [← Option.some.inj h2, hp] at hv
          cases hv
        | some idValue =>
          have hb : (some cell).bind parseInt = some idValue := hp
          rw [hb]
          dsimp only
          have hval : ∀ cell2 v, some cell = some cell2 → parseInt cell2 = some v →
              v = idValue := by
            intro cell2 v h2 hv
            rw [← Option.some.inj h2, hp] at hv
            exact (Option.some.inj hv).symm
          by_cases hgt : idValue > start
          · rw [if_pos hgt]
            refine ⟨by omega, ?_, Or.inr ⟨cell, rfl, hp⟩⟩
            intro cell2 v h2 hv
            rw [hval cell2 v h2 hv]
          · rw [if_neg hgt]
            refine ⟨le_refl _, ?_, Or.inl rfl⟩
            intro cell2 v h2 hv
            rw [hval cell2 v h2 hv]
            omega
    obtain ⟨s1, s2, s3⟩ := hstep
    simp only [List.foldl_cons]
    refine ⟨le_trans s1 hge, ?_, ?_⟩
    · intro r hr cell v hcell hv
      rcases List.mem_cons.mp hr with hr | hr
      · subst hr
        exact le_trans (s2 cell v hcell hv) hge
      · exact hall r hr cell v hcell hv
    · rcases hfrom with hfrom | ⟨r, hr, cell, hcell, hv⟩
      · rcases s3 with s3 | ⟨cell, hcell, hv⟩
        · exact Or.inl (hfrom.trans s3)
        · exact Or.inr ⟨row, List.mem_cons_self _ _, cell, hcell, by rw [hfrom]; exact hv⟩
      · exact Or.inr ⟨r, List.mem_cons_of_mem _ hr, cell, hcell, hv⟩

/-- C14, refuted as stated: with the single id cell `-3` the largest integer
parsed is -3, so the id in the claim's words is "-2"; the form generates "1". -/
theorem generateStudentId_negative_id :
    parsedIds [["ID"], ["-3"]] = [-3] ∧
    specNextStudentId [["ID"], ["-3"]] = "-2" ∧
    generateStudentId (.ok [["ID"], ["-3"]]) 0 = "1" := by
  refine ⟨by decide, by decide, by decide⟩

/-- C14, amended: for a fetched grid whose id cells parse to numbers below
`2 ^ 53`, the id generated is the decimal numeral of `m + 1`, where `m` is the
largest positive integer `parseInt` reads from the column-0 cells of the data
rows and 0 when no cell gives a positive integer: `m` is at least 0, at least
every integer parsed, and is 0 or one of the integers parsed.  When no cell
parses, the id is "1". -/
theorem generateStudentId_next (data : Grid) (nowMs : Nat)
    (hsafe : ∀ row ∈ data.drop 1, ∀ cell v, row[0]? = some cell → parseInt cell = some v →
      v < 2 ^ 53) :
    (∃ m : Int, generateStudentId (.ok data) nowMs = toString (m + 1) ∧ 0 ≤ m ∧
      (∀ row ∈ data.drop 1, ∀ cell v, row[0]? = some cell → parseInt cell = some v → v ≤ m) ∧
      (m = 0 ∨ ∃ row ∈ data.drop 1, ∃ cell, row[0]? = some cell ∧ parseInt cell = some m)) ∧
    ((∀ row ∈ data.drop 1, ∀ cell, row[0]? = some cell → parseInt cell = none) →
      generateStudentId (.ok data) nowMs = "1") := by
  obtain ⟨hge, hall, hfrom⟩ := foldl_highestIdStep (data.drop 1) 0
  have hbound : (data.drop 1).foldl highestIdStep 0 < 2 ^ 53 := by
    rcases hfrom with h0 | ⟨row, hrow, cell, hcell, hv⟩
    · rw [h0]; decide
    · exact hsafe row hrow cell _ hcell hv
  have hexact : roundToDouble ((data.drop 1).foldl highestIdStep 0 + 1) =
      (data.drop 1).foldl highestIdStep 0 + 1 :=
    roundToDouble_exact _ (by omega)
  have hid : generateStudentId (.ok data) nowMs =
      toString ((data.drop 1).foldl highestIdStep 0 + 1) := by
    rw [← hexact]
    unfold generateStudentId
    by_cases hlen : data.length > 1
    · simp only [hlen, if_true]
    · have hnil : data.drop 1 = [] := List.drop_eq_nil_of_le (by omega)
      simp only [hlen, if_false, hnil, List.foldl_nil]
  refine ⟨⟨_, hid, hge, hall, hfrom⟩, ?_⟩
  intro hnone
  rcases hfrom with h0 | ⟨row, hrow, cell, hcell, hv⟩
  · rw [hid, h0]
    rfl
  · rw [hnone row hrow cell hcell] at hv
    cases hv

/-- C14 amended, at work: the ids 1, 2, 5 give "6". -/
theorem generateStudentId_next_witness :
    ∃ m : Int, generateStudentId (.ok [["ID"], ["1"], ["2"], ["5"]]) 0 = toString (m + 1) ∧
      0 ≤ m ∧ generateStudentId (.ok [["ID"], ["1"], ["2"], ["5"]]) 0 = "6" := by
  obtain ⟨⟨m, hm, h0, _, _⟩, _⟩ := generateStudentId_next [["ID"], ["1"], ["2"], ["5"]] 0 (by
    intro row hrow cell v hcell hv
    have h1 : parseInt "1" = some 1 := by decide
    have h2 : parseInt "2" = some 2 := by decide
    have h5 : parseInt "5" = some 5 := by decide
    simp only [List.drop_succ_cons, List.drop_zero, List.mem_cons, List.mem_singleton,
      List.mem_nil_iff, or_false] at hrow
    rcases hrow with rfl | rfl | rfl
    · obtain rfl : "1" = cell := by simpa using hcell
      rw [h1] at hv
      rw [← Option.some.inj hv]; decide
    · obtain rfl : "2" = cell := by simpa using hcell
      rw [h2] at hv
      rw [← Option.some.inj hv]; decide
    · obtain rfl : "5" = cell := by simpa using hcell
      rw [h5] at hv
      rw [← Option.some.inj hv]; decide)
  exact ⟨m, hm, h0, by decide⟩

/-- C15, the defect: the read of the id column fails with HTTP 500; with the
flag `USE_SAMPLE_DATA_ON_ERROR` as the constructor sets it, `getSheetData`
returns the sample grid instead of throwing, so the `catch` of
`generateStudentId` does not run and the id is "17", computed from the 16
sample students, at every time of day.  Only when the error reaches the form
(flag off) does the id become the time in whole seconds. -/
theorem generateStudentId_on_failed_read :
    (∀ nowMs, generateStudentIdFromRemote true
        (fun _ => .error ⟨"Request failed with status code 500", some 500⟩) nowMs = "17") ∧
    generateStudentIdFromRemote true
        (fun _ => .error ⟨"Request failed with status code 500", some 500⟩) 1700000000999 ≠
      toString (1700000000999 / 1000) ∧
    (∀ nowMs, generateStudentIdFromRemote false
        (fun _ => .error ⟨"Request failed with status code 500", some 500⟩) nowMs =
      toString (nowMs / 1000)) := by
  have hrun : ∀ flag : Bool, getSheetData flag
      (fun _ => .error ⟨"Request failed with status code 500", some 500⟩) "Students" 0 =
      if flag then { result := .ok (getSampleData "Students"), requests := 1, waits := [] }
      else { result := .error ⟨"Request failed with status code 500", some 500⟩,
             requests := 1, waits := [] } :=
    fun flag => getSheetData_giveup flag _ "Students" 0 _ rfl (Or.inl (by decide))
  have h17 : ∀ nowMs, generateStudentIdFromRemote true
      (fun _ => .error ⟨"Request failed with status code 500", some 500⟩) nowMs = "17" := by
    intro nowMs
    unfold generateStudentIdFromRemote
    rw [hrun true]
    have hfold : ((getSampleData "Students").drop 1).foldl highestIdStep 0 = 16 := by rfl
    have hlen : (getSampleData "Students").length > 1 := by decide
    show generateStudentId (.ok (getSampleData "Students")) nowMs = "17"
    simp only [generateStudentId, hlen, if_true, hfold]
    rw [roundToDouble_exact _ (by decide)]
    rfl
  refine ⟨h17, ?_, ?_⟩
  · rw [h17]
    decide
  · intro nowMs
    unfold generateStudentIdFromRemote
    rw [hrun false]
    rfl

/-! ## Calendar days and time values -/

theorem dayFromYear_succ (y : Nat) :
    dayFromYear ((y : Int) + 1) = dayFromYear (y : Int) + (if isLeapYear y then 366 else 365) := by
  unfold dayFromYear isLeapYear
  by_cases h4 : y % 4 = 0 <;> by_cases h100 : y % 100 = 0 <;> by_cases h400 : y % 400 = 0 <;>
    simp [h4, h100, h400] <;> omega

theorem dayFromYear_mono (y1 y2 : Nat) (h : y1 ≤ y2) :
    dayFromYear (y1 : Int) ≤ dayFromYear (y2 : Int) := by
  induction y2 with
  | zero =>
    have : y1 = 0 := by omega
    subst this; exact le_refl _
  | succ n ih =>
    by_cases hn : y1 = n + 1
    · subst hn; exact le_refl _
    · have h1 := ih (by omega)
      have h2 := dayFromYear_succ n
      push_cast
      rw [h2]
      split <;> omega

/-- A day of a year lies before the first day of the next year. -/
theorem dayInYear_le (y m d : Nat) (hm1 : 1 ≤ m) (hm12 : m ≤ 12) (hd : d ≤ daysInMonth y m) :
    daysBeforeMonth y m + d ≤ (if isLeapYear y then 366 else 365) := by
  unfold daysBeforeMonth daysInMonth at *
  by_cases hl : isLeapYear y = true <;>
    interval_cases m <;> simp_all <;> omega

/-- A day of a month lies before the first day of any later month of the year. -/
theorem daysBeforeMonth_le (y m1 m2 d : Nat) (hm1 : 1 ≤ m1) (h12 : m1 < m2) (hm12 : m2 ≤ 12)
    (hd : d ≤ daysInMonth y m1) :
    daysBeforeMonth y m1 + d ≤ daysBeforeMonth y m2 := by
  have hm11 : m1 ≤ 11 := by omega
  have hm2 : 2 ≤ m2 := by omega
  unfold daysBeforeMonth daysInMonth at *
  by_cases hl : isLeapYear y = true <;>
    interval_cases m1 <;> interval_cases m2 <;> simp_all <;> omega

/-- The time value grows strictly with the calendar day. -/
theorem epochMs_lt (a b : Nat × Nat × Nat) (ha : validDay a) (hb : validDay b)
    (hlt : a.1 < b.1 ∨ (a.1 = b.1 ∧ (a.2.1 < b.2.1 ∨ (a.2.1 = b.2.1 ∧ a.2.2 < b.2.2)))) :
    epochMs a < epochMs b := by
  obtain ⟨ya, ma, da⟩ := a
  obtain ⟨yb, mb, db⟩ := b
  obtain ⟨ha1, ha2, ha3, ha4⟩ := ha
  obtain ⟨hb1, hb2, hb3, hb4⟩ := hb
  simp only at ha1 ha2 ha3 ha4 hb1 hb2 hb3 hb4 hlt
  unfold epochMs
  simp only
  have hday : dayFromYear (ya : Int) + (daysBeforeMonth ya ma : Int) + ((da : Int) - 1) <
      dayFromYear (yb : Int) + (daysBeforeMonth yb mb : Int) + ((db : Int) - 1) := by
    rcases hlt with hy | ⟨hy, hm | ⟨hm, hd⟩⟩
    · have h1 := dayInYear_le ya ma da ha1 ha2 ha4
      have h2 := dayFromYear_succ ya
      have h3 := dayFromYear_mono (ya + 1) yb (by omega)
      push_cast at h3
      rw [h2] at h3
      split at h1 <;> simp_all <;> omega
    · subst hy
      have h1 := daysBeforeMonth_le ya ma mb da ha1 hm hb2 ha4
      omega
    · subst hy
      subst hm
      omega
  omega

/-- A text that parses names a day of the calendar. -/
theorem validDay_of_parseDate (s : String) (t : Nat × Nat × Nat) (h : parseDate s = some t) :
    validDay t := by
  unfold parseDate at h
  by_cases hd : isDateHeader s = true
  · simp only [hd, if_true] at h
    by_cases hv : 1 ≤ digitsValue ((s.data.drop 5).take 2) ∧ digitsValue ((s.data.drop 5).take 2) ≤ 12 ∧
        1 ≤ digitsValue ((s.data.drop 8).take 2) ∧
        digitsValue ((s.data.drop 8).take 2) ≤
          daysInMonth (digitsValue (s.data.take 4)) (digitsValue ((s.data.drop 5).take 2))
    · rw [if_pos hv] at h
      cases h
      exact hv
    · rw [if_neg hv] at h
      cases h
  · simp only [hd] at h
    cases h

/-- Between days of the calendar, the order of the time values is the calendar order. -/
theorem calendarLe_of_epochMs_le (a b : Nat × Nat × Nat) (ha : validDay a) (hb : validDay b)
    (h : epochMs a ≤ epochMs b) : calendarLe a b := by
  unfold calendarLe
  by_contra hnot
  have hlt : b.1 < a.1 ∨ (b.1 = a.1 ∧ (b.2.1 < a.2.1 ∨ (b.2.1 = a.2.1 ∧ b.2.2 < a.2.2))) := by
    omega
  have := epochMs_lt b a hb ha hlt
  omega


/-! ## Attendance analytics: rates -/

/-- Counting a status adds it to the three counters by its kind. -/
theorem countStatus_eq (c : Counts) (status : Option String) :
    countStatus c status =
      { present := c.present + (if statusPresent status then 1 else 0)
        absent := c.absent + (if statusAbsent status then 1 else 0)
        total := c.total + (if statusEntered status then 1 else 0) } := by
  unfold countStatus statusPresent statusAbsent statusEntered
  cases status with
  | none => rfl
  | some s =>
    by_cases he : s = ""
    · simp [he]
    · by_cases hp : includes (toLowerCase s) "present" = true
      · simp [he, hp]
      · by_cases ha : includes (toLowerCase s) "absent" = true
        · simp [he, hp, ha]
        · simp [he, hp, ha]

/-- The counters of one column over a list of rows: how many rows have a
status of each kind there. -/
theorem foldl_countStatus (cell : Row → Option String) (rows : List Row) :
    ∀ c : Counts,
      rows.foldl (fun acc row => countStatus acc (cell row)) c =
        { present := c.present + (rows.filter (fun row => statusPresent (cell row))).length
          absent := c.absent + (rows.filter (fun row => statusAbsent (cell row))).length
          total := c.total + (rows.filter (fun row => statusEntered (cell row))).length } := by
  induction rows with
  | nil => intro c; rfl
  | cons row rest ih =>
    intro c
    rw [List.foldl_cons, ih, countStatus_eq]
    simp only [List.filter_cons]
    by_cases hp : statusPresent (cell row) = true <;>
    by_cases ha : statusAbsent (cell row) = true <;>
    by_cases he : statusEntered (cell row) = true <;>
    simp [hp, ha, he] <;> omega

/-- C17, the defect: a grid with a date column and no status entry.  The
overall aggregate divides by `totalEntries = 0` without the guard its sibling
aggregates have, so both percentages are `NaN`, while the per-school
aggregate of the same grid reports the rate 0. -/
theorem overallAttendanceData_nan_on_empty_total :
    (attendanceAnalytics [["ID", "Name", "School", "2024-01-07"], ["7", "Asha", "Hill"]]
        "All" "All" "All").overall =
      [{ name := "Present", value := 0, percentage := .nan },
       { name := "Absent", value := 0, percentage := .nan }] ∧
    (attendanceAnalytics [["ID", "Name", "School", "2024-01-07"], ["7", "Asha", "Hill"]]
        "All" "All" "All").schools.map (fun s => (s.name, s.total)) = [("Hill", 0)] ∧
    attendanceRateOf 0 0 = 0 := by
  refine ⟨by decide, by decide, by decide⟩

/-! ## Attendance analytics: the ten lowest rates -/

/-- Without date columns no status is counted. -/
theorem countRow_no_dateColumns (ix : Indices) (selectedDate : String) (c : Counts) (row : Row)
    (h : ix.dateColumns = []) : countRow ix selectedDate c row = c := by
  unfold countRow
  rw [h]
  split <;> rfl

/-- Without date columns no student enters the ranking. -/
theorem rankedStudents_no_dateColumns (ix : Indices) (rows : List Row)
    (selectedSchool selectedClass selectedDate : String) (h : ix.dateColumns = []) :
    rankedStudents ix rows selectedSchool selectedClass selectedDate = [] := by
  unfold rankedStudents
  rw [List.filter_eq_nil_iff]
  intro s hs
  simp only [List.mem_map] at hs
  obtain ⟨row, _, hrow⟩ := hs
  rw [← hrow]
  simp [studentAggregateOf, countRow_no_dateColumns ix selectedDate _ row h]

/-- The result of `studentAttendanceData` is the first ten of the sorted ranking, in every case. -/
theorem studentAttendanceData_eq (ix : Indices) (rows : List Row)
    (selectedSchool selectedClass selectedDate : String) :
    studentAttendanceData ix rows selectedSchool selectedClass selectedDate =
      ((rankedStudents ix rows selectedSchool selectedClass selectedDate).insertionSort
        (fun a b => a.attendanceRate ≤ b.attendanceRate)).take 10 := by
  unfold studentAttendanceData
  split
  · rename_i h
    have hnil : ix.dateColumns = [] := List.length_eq_zero.mp h
    rw [rankedStudents_no_dateColumns ix rows selectedSchool selectedClass selectedDate hnil]
    rfl
  · rfl

/-- The doublings of the numerator end with the ratio at least `2 ^ 52`, and
below `2 ^ 53` when there was any doubling. -/
theorem scaleUp_spec (d : Nat) :
    ∀ (fuel n k : Nat), 2 ^ 52 * d ≤ n * 2 ^ fuel →
      ∃ j, scaleUp fuel n d k = (n * 2 ^ j, k + j) ∧ 2 ^ 52 * d ≤ n * 2 ^ j ∧
        (n * 2 ^ j < 2 ^ 53 * d ∨ j = 0) := by
  intro fuel
  induction fuel with
  | zero =>
    intro n k h
    exact ⟨0, by simp [scaleUp], by simpa using h, Or.inr rfl⟩
  | succ fuel ih =>
    intro n k h
    by_cases hlt : n < 2 ^ 52 * d
    · have e1 : n * 2 ^ (fuel + 1) = 2 * n * 2 ^ fuel := by ring
      obtain ⟨j, hj, hge, hor⟩ := ih (2 * n) (k + 1) (by rw [← e1]; exact h)
      have e2 : n * 2 ^ (j + 1) = 2 * n * 2 ^ j := by ring
      refine ⟨j + 1, ?_, ?_, Or.inl ?_⟩
      · simp only [scaleUp, hlt, if_true, hj, e2]
        refine Prod.ext rfl ?_
        simp only; omega
      · rw [e2]; exact hge
      · rcases hor with hor | hor
        · rw [e2]; exact hor
        · subst hor
          rw [e2]
          simp only [pow_zero, mul_one]
          have e3 : (2 : Nat) ^ 53 * d = 2 * (2 ^ 52 * d) := by ring
          rw [e3]; omega
    · refine ⟨0, by simp only [scaleUp, hlt, if_false, pow_zero, mul_one, add_zero], ?_,
        Or.inr rfl⟩
      simpa using Nat.le_of_not_lt hlt

/-- The doublings of the denominator end with the ratio below `2 ^ 53`, and
at least `2 ^ 52` when there was any doubling. -/
theorem scaleDown_spec (n : Nat) :
    ∀ (fuel d k : Nat), n < 2 ^ 53 * d * 2 ^ fuel →
      ∃ j, scaleDown fuel n d k = (d * 2 ^ j, k + j) ∧ n < 2 ^ 53 * (d * 2 ^ j) ∧
        (2 ^ 52 * (d * 2 ^ j) ≤ n ∨ j = 0) := by
  intro fuel
  induction fuel with
  | zero =>
    intro d k h
    exact ⟨0, by simp [scaleDown], by simpa using h, Or.inr rfl⟩
  | succ fuel ih =>
    intro d k h
    by_cases hge : 2 ^ 53 * d ≤ n
    · have e1 : 2 ^ 53 * d * 2 ^ (fuel + 1) = 2 ^ 53 * (2 * d) * 2 ^ fuel := by ring
      obtain ⟨j, hj, hlt, hor⟩ := ih (2 * d) (k + 1) (by rw [← e1]; exact h)
      have e2 : d * 2 ^ (j + 1) = 2 * d * 2 ^ j := by ring
      refine ⟨j + 1, ?_, ?_, Or.inl ?_⟩
      · simp only [scaleDown, hge, if_true, hj, e2]
        refine Prod.ext rfl ?_
        simp only; omega
      · rw [e2]; exact hlt
      · rcases hor with hor | hor
        · rw [e2]; exact hor
        · subst hor
          rw [e2]
          simp only [pow_zero, mul_one]
          have e3 : (2 : Nat) ^ 52 * (2 * d) = 2 ^ 53 * d := by ring
          rw [e3]; exact hge
    · refine ⟨0, by simp only [scaleDown, hge, if_false, pow_zero, mul_one, add_zero], ?_,
        Or.inr rfl⟩
      simpa using Nat.lt_of_not_le hge

/-- Rounding a ratio to an integer misses it by at most one half. -/
theorem roundHalfEven_spec (n d : Nat) (hd : 0 < d) :
    2 * roundHalfEven n d * d ≤ 2 * n + d ∧ 2 * n ≤ 2 * roundHalfEven n d * d + d := by
  have hdiv := Nat.div_add_mod n d
  have hmod := Nat.mod_lt n hd
  have hq : d * (n / d) = n - n % d := by omega
  unfold roundHalfEven
  simp only
  split
  · rename_i hrule
    have e : 2 * (n / d + 1) * d = 2 * (d * (n / d)) + 2 * d := by ring
    rw [e, hq]
    constructor
    · omega
    · rcases hrule with h | h
      · omega
      · omega
  · rename_i hrule
    have e : 2 * (n / d) * d = 2 * (d * (n / d)) := by ring
    rw [e, hq]
    have : ¬ 2 * (n % d) > d := fun h => hrule (Or.inl h)
    constructor
    · omega
    · omega

/-- What `nearestDouble` computes for a positive ratio: the ratio scaled by
a power of two into `[2 ^ 52, 2 ^ 53)` and rounded there. -/
theorem nearestDouble_spec (n d : Nat) (hn : 0 < n) (hd : 0 < d) :
    ∃ a b : Nat,
      nearestDouble n d =
        { significand := roundHalfEven (n * 2 ^ a) (d * 2 ^ b), down := b, up := a } ∧
      2 ^ 52 * (d * 2 ^ b) ≤ n * 2 ^ a ∧ n * 2 ^ a < 2 ^ 53 * (d * 2 ^ b) := by
  have hfuel : 2 ^ 52 * d ≤ n * 2 ^ (53 + d) := by
    have h1 : d < 2 ^ d := Nat.lt_two_pow d
    have h2 : 2 ^ (53 + d) = 2 ^ 53 * 2 ^ d := pow_add 2 53 d
    rw [h2]
    have h3 : 2 ^ 52 * d ≤ 2 ^ 53 * 2 ^ d := by
      have : 2 ^ 52 * d ≤ 2 ^ 53 * d := Nat.mul_le_mul_right d (by norm_num)
      exact this.trans (Nat.mul_le_mul_left _ h1.le)
    calc 2 ^ 52 * d ≤ 1 * (2 ^ 53 * 2 ^ d) := by simpa using h3
      _ ≤ n * (2 ^ 53 * 2 ^ d) := Nat.mul_le_mul_right _ hn
  obtain ⟨a, ha, hage, haor⟩ := scaleUp_spec d (53 + d) n 0 hfuel
  have hfuel2 : n * 2 ^ a < 2 ^ 53 * d * 2 ^ n := by
    rcases haor with h | h
    · have h1 : 1 ≤ 2 ^ n := Nat.one_le_two_pow
      calc n * 2 ^ a < 2 ^ 53 * d := h
        _ = 2 ^ 53 * d * 1 := by ring
        _ ≤ 2 ^ 53 * d * 2 ^ n := Nat.mul_le_mul_left _ h1
    · subst h
      have h1 : n < 2 ^ n := Nat.lt_two_pow n
      have h2 : 1 ≤ 2 ^ 53 * d := Nat.one_le_iff_ne_zero.mpr (by positivity)
      calc n * 2 ^ 0 = n := by simp
        _ < 2 ^ n := h1
        _ = 1 * 2 ^ n := by ring
        _ ≤ 2 ^ 53 * d * 2 ^ n := Nat.mul_le_mul_right _ h2
  obtain ⟨b, hb, hblt, hbor⟩ := scaleDown_spec (n * 2 ^ a) n d 0 hfuel2
  have hlow : 2 ^ 52 * (d * 2 ^ b) ≤ n * 2 ^ a := by
    rcases hbor with h | h
    · exact h
    · subst h
      simpa using hage
  have hne : ¬ (n = 0 ∨ d = 0) := by omega
  refine ⟨a, b, ?_, hlow, hblt⟩
  simp only [nearestDouble, hne, if_false, ha, hb, zero_add]

/-- The double nearest to a positive ratio is within the fraction `2 ^ -53`
of it, and its significand is positive. -/
theorem nearestDouble_error (n d : Nat) (hn : 0 < n) (hd : 0 < d) :
    |(nearestDouble n d).value - (n : ℚ) / (d : ℚ)| ≤ (n : ℚ) / (d : ℚ) / 2 ^ 53 ∧
    0 < (nearestDouble n d).significand := by
  obtain ⟨a, b, heq, hlow, hhigh⟩ := nearestDouble_spec n d hn hd
  have hDpos : 0 < d * 2 ^ b := by positivity
  obtain ⟨h1, h2⟩ := roundHalfEven_spec (n * 2 ^ a) (d * 2 ^ b) hDpos
  rw [heq]
  simp only [Double.value]
  generalize roundHalfEven (n * 2 ^ a) (d * 2 ^ b) = q at h1 h2
  have hnq : (0 : ℚ) < n := by exact_mod_cast hn
  have hdq : (0 : ℚ) < d := by exact_mod_cast hd
  have hA : (0 : ℚ) < 2 ^ a := by positivity
  have hB : (0 : ℚ) < 2 ^ b := by positivity
  have h1q : 2 * (q : ℚ) * (d * 2 ^ b) ≤ 2 * (n * 2 ^ a) + d * 2 ^ b := by exact_mod_cast h1
  have h2q : 2 * ((n : ℚ) * 2 ^ a) ≤ 2 * (q : ℚ) * (d * 2 ^ b) + d * 2 ^ b := by exact_mod_cast h2
  have hlowq : (2 : ℚ) ^ 52 * (d * 2 ^ b) ≤ n * 2 ^ a := by exact_mod_cast hlow
  constructor
  · have key : (q : ℚ) * 2 ^ b / 2 ^ a - (n : ℚ) / d =
        ((q : ℚ) * (d * 2 ^ b) - n * 2 ^ a) / (d * 2 ^ a) := by
      field_simp
      ring
    have hbound : (n : ℚ) / d / 2 ^ 53 = ((n : ℚ) * 2 ^ a / 2 ^ 53) / (d * 2 ^ a) := by
      field_simp
      ring
    rw [key, hbound, abs_div, abs_of_pos (by positivity : (0 : ℚ) < d * 2 ^ a)]
    apply div_le_div_of_nonneg_right _ (by positivity : (0 : ℚ) ≤ d * 2 ^ a)
    rw [abs_le]
    have hhalf : (d : ℚ) * 2 ^ b / 2 ≤ n * 2 ^ a / 2 ^ 53 := by
      have e : (d : ℚ) * 2 ^ b / 2 = 2 ^ 52 * (d * 2 ^ b) / 2 ^ 53 := by
        have e53 : (2 : ℚ) ^ 53 = 2 * 2 ^ 52 := by norm_num
        rw [e53]
        field_simp
        ring
      rw [e]
      exact div_le_div_of_nonneg_right hlowq (by positivity)
    constructor
    · linarith
    · linarith
  · by_contra hq0
    have hq : q = 0 := by omega
    subst hq
    simp only [Nat.cast_zero, mul_zero, zero_mul, zero_add] at h2q
    have : (2 : ℚ) ^ 52 * (d * 2 ^ b) ≤ d * 2 ^ b / 2 := by linarith
    have hpos : (0 : ℚ) < d * 2 ^ b := by positivity
    have e : (2 : ℚ) ^ 52 = 4503599627370496 := by norm_num
    rw [e] at this
    linarith

/-- The value of `(count / total) * 100` is within the fraction `2 ^ -51` of
`100 * count / total`. -/
theorem percentOf_error (count total : Nat) (ht : 0 < total) :
    |percentOf count total - 100 * (count : ℚ) / (total : ℚ)| ≤
      100 * (count : ℚ) / (total : ℚ) / 2 ^ 51 := by
  rcases Nat.eq_zero_or_pos count with h0 | hc
  · subst h0
    have hz : ∀ d, nearestDouble 0 d = { significand := 0, down := 0, up := 0 } := by
      intro d
      simp [nearestDouble]
    simp [percentOf, hz, Double.value]
  · obtain ⟨herr1, hsig⟩ := nearestDouble_error count total hc ht
    have hn2 : 0 < (nearestDouble count total).significand *
        2 ^ (nearestDouble count total).down * 100 := by positivity
    have hd2 : 0 < 2 ^ (nearestDouble count total).up := by positivity
    obtain ⟨herr2, _⟩ := nearestDouble_error _ _ hn2 hd2
    have hx : (((nearestDouble count total).significand *
        2 ^ (nearestDouble count total).down * 100 : Nat) : ℚ) /
        ((2 ^ (nearestDouble count total).up : Nat) : ℚ) =
        100 * (nearestDouble count total).value := by
      simp only [Double.value]
      push_cast
      ring
    rw [hx] at herr2
    unfold percentOf
    simp only
    generalize (nearestDouble ((nearestDouble count total).significand *
        2 ^ (nearestDouble count total).down * 100)
        (2 ^ (nearestDouble count total).up)).value = y at herr2 ⊢
    generalize (nearestDouble count total).value = x at herr1 herr2
    have hr : (0 : ℚ) < (count : ℚ) / total := by
      have hcq : (0 : ℚ) < count := by exact_mod_cast hc
      have htq : (0 : ℚ) < total := by exact_mod_cast ht
      positivity
    have e : 100 * (count : ℚ) / total = 100 * ((count : ℚ) / total) := by ring
    rw [e]
    generalize (count : ℚ) / (total : ℚ) = r at herr1 hr ⊢
    rw [abs_le] at herr1 herr2 ⊢
    have e53 : (2 : ℚ) ^ 53 = 9007199254740992 := by norm_num
    have e51 : (2 : ℚ) ^ 51 = 2251799813685248 := by norm_num
    rw [e53] at herr1 herr2
    rw [e51]
    obtain ⟨l1, u1⟩ := herr1
    obtain ⟨l2, u2⟩ := herr2
    constructor
    · linarith
    · linarith

/-- Three of four is the double 75. -/
theorem percentOf_three_of_four : percentOf 3 4 = 75 := by
  have h1 : nearestDouble 3 4 = ⟨6755399441055744, 0, 53⟩ := by decide
  have h2 : nearestDouble (6755399441055744 * 2 ^ 0 * 100) (2 ^ 53) =
      ⟨5277655813324800, 0, 46⟩ := by decide
  simp only [percentOf, h1, h2, Double.value]
  norm_num

/-- Eleven of twenty is the double next above 55. -/
theorem percentOf_eleven_of_twenty : percentOf 11 20 = 55 + 1 / 2 ^ 47 := by
  have h1 : nearestDouble 11 20 = ⟨4953959590107546, 0, 53⟩ := by decide
  have h2 : nearestDouble (4953959590107546 * 2 ^ 0 * 100) (2 ^ 53) =
      ⟨7740561859543041, 0, 47⟩ := by decide
  simp only [percentOf, h1, h2, Double.value]
  norm_num

/-- The guarded rate of a pair of counters follows the rule of the rates. -/
theorem attendanceRateOf_follows (present total : Nat) :
    rateFollows (attendanceRateOf present total) present total := by
  unfold rateFollows attendanceRateOf
  refine ⟨?_, ?_, ?_⟩
  · intro h0
    simp [h0]
  · intro hpos
    have hgt : total > 0 := hpos
    simp only [hgt, if_true]
    exact ⟨trivial, percentOf_error present total hpos⟩
  · intro h3 h4
    subst h3
    subst h4
    simp only [show (4 : Nat) > 0 by decide, if_true]
    exact percentOf_three_of_four

/-- A row passes the filter exactly when each of the two selections is
"All" or is the row's cell in that column. -/
theorem rowPasses_iff (ix : Indices) (selectedSchool selectedClass : String) (row : Row) :
    rowPasses ix selectedSchool selectedClass row = true ↔
      (selectedSchool = "All" ∨ cellAt row ix.schoolIndex = some selectedSchool) ∧
      (selectedClass = "All" ∨ cellAt row ix.classIndex = some selectedClass) := by
  simp [rowPasses]

/-- The rows that pass the filter, by the test on their cells. -/
theorem filter_rowPasses (ix : Indices) (selectedSchool selectedClass : String)
    (rows : List Row) :
    rows.filter (rowPasses ix selectedSchool selectedClass) =
      rows.filter (fun row => decide
        ((selectedSchool = "All" ∨ cellAt row ix.schoolIndex = some selectedSchool) ∧
          (selectedClass = "All" ∨ cellAt row ix.classIndex = some selectedClass))) := by
  apply List.filter_congr
  intro row _
  rw [Bool.eq_iff_iff, rowPasses_iff, decide_eq_true_eq]

/-- Every per-student aggregate of the result is the aggregate of a row. -/
theorem studentAttendanceData_mem (ix : Indices) (rows : List Row)
    (selectedSchool selectedClass selectedDate : String) (s : StudentAggregate)
    (hs : s ∈ studentAttendanceData ix rows selectedSchool selectedClass selectedDate) :
    ∃ row ∈ rows, s = studentAggregateOf ix selectedDate row := by
  unfold studentAttendanceData at hs
  split at hs
  · simp at hs
  · have h1 := List.mem_of_mem_take hs
    have h2 := (List.perm_insertionSort _ _).subset h1
    simp only [rankedStudents, List.mem_filter, List.mem_map] at h2
    obtain ⟨⟨row, ⟨hrow, _⟩, hs'⟩, _⟩ := h2
    exact ⟨row, hrow, hs'.symm⟩

/-- C16, amended: every per-student, per-school and per-date aggregate the
component derives reports rate 0 when its total is 0, and when its total is
positive the double that `(present / total) * 100` is: the quotient rounded
to a double, times 100, rounded again.  That double is within the fraction
`2 ^ -51` of `100 * present / total`, and it is 75 for 3 present out of 4. -/
theorem aggregates_rate (data : Grid) (selectedSchool selectedClass selectedDate : String) :
    (∀ s ∈ (attendanceAnalytics data selectedSchool selectedClass selectedDate).students,
      rateFollows s.attendanceRate s.present s.total) ∧
    (∀ s ∈ (attendanceAnalytics data selectedSchool selectedClass selectedDate).schools,
      rateFollows s.attendanceRate s.present s.total) ∧
    (∀ p ∈ (attendanceAnalytics data selectedSchool selectedClass selectedDate).trend,
      rateFollows p.attendanceRate p.present p.total) := by
  refine ⟨?_, ?_, ?_⟩
  · intro s hs
    obtain ⟨row, _, hrow⟩ := studentAttendanceData_mem _ _ _ _ _ s hs
    rw [hrow]
    exact attendanceRateOf_follows _ _
  · intro s hs
    simp only [attendanceAnalytics, schoolAttendanceData] at hs
    split at hs
    · simp at hs
    · simp only [List.mem_map] at hs
      obtain ⟨school, _, hschool⟩ := hs
      rw [← hschool]
      exact attendanceRateOf_follows _ _
  · intro p hp
    simp only [attendanceAnalytics, attendanceTrendData] at hp
    split at hp
    · simp at hp
    · have h2 := (List.perm_insertionSort _ _).subset hp
      simp only [List.mem_map] at h2
      obtain ⟨dateCol, _, hcol⟩ := h2
      rw [← hcol]
      exact attendanceRateOf_follows _ _

/-- C18: a row passes the filter exactly when the school selection is
"All" or the row's school cell and the class selection is "All" or the row's
class cell; the ranked students are the aggregates of the rows that pass,
in row order, those with `total > 0`.  The per-student result contains only
ranked students; it is sorted by non-decreasing rate; its length is the
smaller of 10 and the number of ranked students; and the ranked students
left out, which together with the result make up the ranked students, each
have a rate at least every rate in the result. -/
theorem studentAttendanceData_lowest_ten (data : Grid)
    (selectedSchool selectedClass selectedDate : String) :
    (∀ row, rowPasses (analyticsIndices (data.headD [])) selectedSchool selectedClass row = true ↔
      (selectedSchool = "All" ∨
        cellAt row (analyticsIndices (data.headD [])).schoolIndex = some selectedSchool) ∧
      (selectedClass = "All" ∨
        cellAt row (analyticsIndices (data.headD [])).classIndex = some selectedClass)) ∧
    rankedStudents (analyticsIndices (data.headD [])) (data.drop 1) selectedSchool selectedClass
        selectedDate =
      (((data.drop 1).filter (fun row => decide
        ((selectedSchool = "All" ∨
          cellAt row (analyticsIndices (data.headD [])).schoolIndex = some selectedSchool) ∧
        (selectedClass = "All" ∨
          cellAt row (analyticsIndices (data.headD [])).classIndex = some selectedClass)))).map
        (studentAggregateOf (analyticsIndices (data.headD [])) selectedDate)).filter
        (fun student => decide (student.total > 0)) ∧
    (∀ s, s ∈ rankedStudents (analyticsIndices (data.headD [])) (data.drop 1) selectedSchool
        selectedClass selectedDate ↔
      (0 < s.total ∧ ∃ row ∈ data.drop 1,
        ((selectedSchool = "All" ∨
          cellAt row (analyticsIndices (data.headD [])).schoolIndex = some selectedSchool) ∧
        (selectedClass = "All" ∨
          cellAt row (analyticsIndices (data.headD [])).classIndex = some selectedClass)) ∧
        s = studentAggregateOf (analyticsIndices (data.headD [])) selectedDate row)) ∧
    (∀ s ∈ (attendanceAnalytics data selectedSchool selectedClass selectedDate).students,
      s ∈ rankedStudents (analyticsIndices (data.headD [])) (data.drop 1) selectedSchool
        selectedClass selectedDate) ∧
    List.Sorted (fun a b : StudentAggregate => a.attendanceRate ≤ b.attendanceRate)
      (attendanceAnalytics data selectedSchool selectedClass selectedDate).students ∧
    (attendanceAnalytics data selectedSchool selectedClass selectedDate).students.length =
      min 10 (rankedStudents (analyticsIndices (data.headD [])) (data.drop 1) selectedSchool
        selectedClass selectedDate).length ∧
    ∃ leftOut : List StudentAggregate,
      List.Perm
        ((attendanceAnalytics data selectedSchool selectedClass selectedDate).students ++ leftOut)
        (rankedStudents (analyticsIndices (data.headD [])) (data.drop 1) selectedSchool
          selectedClass selectedDate) ∧
      ∀ x ∈ leftOut,
        ∀ y ∈ (attendanceAnalytics data selectedSchool selectedClass selectedDate).students,
          y.attendanceRate ≤ x.attendanceRate := by
  haveI : IsTotal StudentAggregate (fun a b => a.attendanceRate ≤ b.attendanceRate) :=
    ⟨fun a b => le_total a.attendanceRate b.attendanceRate⟩
  haveI : IsTrans StudentAggregate (fun a b => a.attendanceRate ≤ b.attendanceRate) :=
    ⟨fun _ _ _ hab hbc => le_trans hab hbc⟩
  have hres : (attendanceAnalytics data selectedSchool selectedClass selectedDate).students =
      ((rankedStudents (analyticsIndices (data.headD [])) (data.drop 1) selectedSchool
        selectedClass selectedDate).insertionSort
        (fun a b => a.attendanceRate ≤ b.attendanceRate)).take 10 :=
    studentAttendanceData_eq _ _ _ _ _
  have hsorted := List.sorted_insertionSort
    (fun a b : StudentAggregate => a.attendanceRate ≤ b.attendanceRate)
    (rankedStudents (analyticsIndices (data.headD [])) (data.drop 1) selectedSchool
      selectedClass selectedDate)
  have hperm := List.perm_insertionSort
    (fun a b : StudentAggregate => a.attendanceRate ≤ b.attendanceRate)
    (rankedStudents (analyticsIndices (data.headD [])) (data.drop 1) selectedSchool
      selectedClass selectedDate)
  rw [hres]
  refine ⟨fun row => rowPasses_iff _ _ _ row, ?_, ?_, ?_, ?_, ?_, ?_⟩
  · unfold rankedStudents
    rw [filter_rowPasses]
  · intro s
    simp only [rankedStudents, List.mem_filter, List.mem_map, decide_eq_true_eq, rowPasses_iff]
    constructor
    · rintro ⟨⟨row, ⟨hrow, hpass⟩, hs⟩, htotal⟩
      exact ⟨htotal, row, hrow, hpass, hs.symm⟩
    · rintro ⟨htotal, row, hrow, hpass, hs⟩
      exact ⟨⟨row, ⟨hrow, hpass⟩, hs.symm⟩, htotal⟩
  · intro s hs
    exact hperm.subset (List.mem_of_mem_take hs)
  · exact hsorted.sublist (List.take_sublist _ _)
  · rw [List.length_take, List.length_insertionSort]
  · refine ⟨(List.insertionSort (fun a b : StudentAggregate => a.attendanceRate ≤ b.attendanceRate)
      (rankedStudents (analyticsIndices (data.headD [])) (data.drop 1) selectedSchool
        selectedClass selectedDate)).drop 10, ?_, ?_⟩
    · rw [List.take_append_drop]
      exact hperm
    · intro x hx y hy
      have hpair := hsorted
      rw [← List.take_append_drop 10 (List.insertionSort _ _)] at hpair
      exact (List.pairwise_append.mp hpair).2.2 y hy x hx


/-! ## Attendance analytics: the trend series -/

theorem orderedInsert_congr {α : Type} (r r' : α → α → Prop) [DecidableRel r] [DecidableRel r']
    (a : α) (l : List α) (h : ∀ b ∈ l, (r a b ↔ r' a b)) :
    List.orderedInsert r a l = List.orderedInsert r' a l := by
  induction l with
  | nil => rfl
  | cons b l ih =>
    have hb := h b (List.mem_cons_self _ _)
    have hl := ih (fun c hc => h c (List.mem_cons_of_mem _ hc))
    simp only [List.orderedInsert]
    by_cases hr : r a b
    · rw [if_pos hr, if_pos (hb.mp hr)]
    · rw [if_neg hr, if_neg (fun h' => hr (hb.mpr h')), hl]

/-- Insertion sort depends on the order only between the elements of the list. -/
theorem insertionSort_congr {α : Type} (r r' : α → α → Prop) [DecidableRel r] [DecidableRel r']
    (l : List α) (h : ∀ a ∈ l, ∀ b ∈ l, (r a b ↔ r' a b)) :
    List.insertionSort r l = List.insertionSort r' l := by
  induction l with
  | nil => rfl
  | cons a l ih =>
    have hl := ih (fun x hx y hy => h x (List.mem_cons_of_mem _ hx) y (List.mem_cons_of_mem _ hy))
    simp only [List.insertionSort]
    rw [hl]
    apply orderedInsert_congr
    intro b hb
    exact h a (List.mem_cons_self _ _) b
      (List.mem_cons_of_mem _ ((List.perm_insertionSort r' l).subset hb))

/-- The counters of a trend point: the rows, among those given, with a status of each kind. -/
theorem trendPointOf_counts (filteredRows : List Row) (dateCol : DateColumn) :
    (trendPointOf filteredRows dateCol).date = dateCol.date ∧
    (trendPointOf filteredRows dateCol).total =
      (filteredRows.filter (fun row => statusEntered row[dateCol.index]?)).length ∧
    (trendPointOf filteredRows dateCol).present =
      (filteredRows.filter (fun row => statusPresent row[dateCol.index]?)).length ∧
    (trendPointOf filteredRows dateCol).absent =
      (filteredRows.filter (fun row => statusAbsent row[dateCol.index]?)).length := by
  unfold trendPointOf
  rw [foldl_countStatus (fun row => row[dateCol.index]?) filteredRows]
  simp

/-- The trend series is the sorted list of the points of the date columns, in every case. -/
theorem attendanceTrendData_eq (ix : Indices) (rows : List Row)
    (selectedSchool selectedClass : String) :
    attendanceTrendData ix rows selectedSchool selectedClass =
      (ix.dateColumns.map
        (trendPointOf (rows.filter (rowPasses ix selectedSchool selectedClass)))).insertionSort
        (fun a b => trendBefore a b = true) := by
  unfold attendanceTrendData
  split
  · rename_i h
    rw [List.length_eq_zero.mp h]
    rfl
  · rfl

/-- C19: a row passes the filter exactly when the school selection is
"All" or the row's school cell and the class selection is "All" or the row's
class cell.  On a grid whose date headers name days of the calendar, the
trend series has one point per date column (it is a rearrangement of the
points of the date columns), each point counting the status cells of its
column over the rows that pass the school and class filter and no others; it
is the same for every value of the date filter; and it is in calendar order,
earlier days first, whatever the order of the date columns in the header
row. -/
theorem attendanceTrendData_series (data : Grid) (selectedSchool selectedClass : String)
    (hvalid : ∀ dateCol ∈ (analyticsIndices (data.headD [])).dateColumns,
      ∃ t, parseDate dateCol.date = some t) :
    (∀ row, rowPasses (analyticsIndices (data.headD [])) selectedSchool selectedClass row = true ↔
      (selectedSchool = "All" ∨
        cellAt row (analyticsIndices (data.headD [])).schoolIndex = some selectedSchool) ∧
      (selectedClass = "All" ∨
        cellAt row (analyticsIndices (data.headD [])).classIndex = some selectedClass)) ∧
    (data.drop 1).filter (rowPasses (analyticsIndices (data.headD [])) selectedSchool
        selectedClass) =
      (data.drop 1).filter (fun row => decide
        ((selectedSchool = "All" ∨
          cellAt row (analyticsIndices (data.headD [])).schoolIndex = some selectedSchool) ∧
        (selectedClass = "All" ∨
          cellAt row (analyticsIndices (data.headD [])).classIndex = some selectedClass))) ∧
    (∀ selectedDate,
      (attendanceAnalytics data selectedSchool selectedClass selectedDate).trend.length =
        (analyticsIndices (data.headD [])).dateColumns.length ∧
      List.Perm (attendanceAnalytics data selectedSchool selectedClass selectedDate).trend
        ((analyticsIndices (data.headD [])).dateColumns.map
          (trendPointOf ((data.drop 1).filter
            (rowPasses (analyticsIndices (data.headD [])) selectedSchool selectedClass)))) ∧
      List.Pairwise
        (fun p q => ∃ a b, parseDate p.date = some a ∧ parseDate q.date = some b ∧
          calendarLe a b)
        (attendanceAnalytics data selectedSchool selectedClass selectedDate).trend) ∧
    (∀ dateCol,
      (trendPointOf ((data.drop 1).filter
          (rowPasses (analyticsIndices (data.headD [])) selectedSchool selectedClass))
          dateCol).date = dateCol.date ∧
      (trendPointOf ((data.drop 1).filter
          (rowPasses (analyticsIndices (data.headD [])) selectedSchool selectedClass))
          dateCol).total =
        (((data.drop 1).filter
          (rowPasses (analyticsIndices (data.headD [])) selectedSchool selectedClass)).filter
          (fun row => statusEntered row[dateCol.index]?)).length ∧
      (trendPointOf ((data.drop 1).filter
          (rowPasses (analyticsIndices (data.headD [])) selectedSchool selectedClass))
          dateCol).present =
        (((data.drop 1).filter
          (rowPasses (analyticsIndices (data.headD [])) selectedSchool selectedClass)).filter
          (fun row => statusPresent row[dateCol.index]?)).length ∧
      (trendPointOf ((data.drop 1).filter
          (rowPasses (analyticsIndices (data.headD [])) selectedSchool selectedClass))
          dateCol).absent =
        (((data.drop 1).filter
          (rowPasses (analyticsIndices (data.headD [])) selectedSchool selectedClass)).filter
          (fun row => statusAbsent row[dateCol.index]?)).length) ∧
    (∀ date1 date2,
      (attendanceAnalytics data selectedSchool selectedClass date1).trend =
        (attendanceAnalytics data selectedSchool selectedClass date2).trend) := by
  haveI : IsTotal TrendPoint
      (fun a b => (dateValue a.date).getD 0 ≤ (dateValue b.date).getD 0) :=
    ⟨fun a b => le_total _ _⟩
  haveI : IsTrans TrendPoint
      (fun a b => (dateValue a.date).getD 0 ≤ (dateValue b.date).getD 0) :=
    ⟨fun _ _ _ hab hbc => le_trans hab hbc⟩
  refine ⟨fun row => rowPasses_iff _ _ _ row, filter_rowPasses _ _ _ _, ?_,
    fun dateCol => trendPointOf_counts _ dateCol, fun _ _ => rfl⟩
  intro selectedDate
  have hres : (attendanceAnalytics data selectedSchool selectedClass selectedDate).trend =
      ((analyticsIndices (data.headD [])).dateColumns.map
        (trendPointOf ((data.drop 1).filter
          (rowPasses (analyticsIndices (data.headD [])) selectedSchool
            selectedClass)))).insertionSort (fun a b => trendBefore a b = true) :=
    attendanceTrendData_eq _ _ _ _
  -- every point carries a header that names a day
  have hpoints : ∀ p ∈ (analyticsIndices (data.headD [])).dateColumns.map
      (trendPointOf ((data.drop 1).filter
        (rowPasses (analyticsIndices (data.headD [])) selectedSchool selectedClass))),
      ∃ t, parseDate p.date = some t := by
    intro p hp
    simp only [List.mem_map] at hp
    obtain ⟨dateCol, hcol, hpc⟩ := hp
    rw [← hpc, (trendPointOf_counts _ dateCol).1]
    exact hvalid dateCol hcol
  -- between such points the comparator is the order of the time values
  have hcongr : ∀ a ∈ (analyticsIndices (data.headD [])).dateColumns.map
      (trendPointOf ((data.drop 1).filter
        (rowPasses (analyticsIndices (data.headD [])) selectedSchool selectedClass))),
      ∀ b ∈ (analyticsIndices (data.headD [])).dateColumns.map
        (trendPointOf ((data.drop 1).filter
          (rowPasses (analyticsIndices (data.headD [])) selectedSchool selectedClass))),
      (trendBefore a b = true ↔ (dateValue a.date).getD 0 ≤ (dateValue b.date).getD 0) := by
    intro a ha b hb
    obtain ⟨ta, hta⟩ := hpoints a ha
    obtain ⟨tb, htb⟩ := hpoints b hb
    simp [trendBefore, dateValue, hta, htb]
  rw [hres, insertionSort_congr _ _ _ hcongr]
  have hperm := List.perm_insertionSort
    (fun a b : TrendPoint => (dateValue a.date).getD 0 ≤ (dateValue b.date).getD 0)
    ((analyticsIndices (data.headD [])).dateColumns.map
      (trendPointOf ((data.drop 1).filter
        (rowPasses (analyticsIndices (data.headD [])) selectedSchool selectedClass))))
  have hsorted := List.sorted_insertionSort
    (fun a b : TrendPoint => (dateValue a.date).getD 0 ≤ (dateValue b.date).getD 0)
    ((analyticsIndices (data.headD [])).dateColumns.map
      (trendPointOf ((data.drop 1).filter
        (rowPasses (analyticsIndices (data.headD [])) selectedSchool selectedClass))))
  refine ⟨?_, hperm, ?_⟩
  · rw [List.length_insertionSort, List.length_map]
  · have hmem : ∀ p ∈ List.insertionSort
        (fun a b : TrendPoint => (dateValue a.date).getD 0 ≤ (dateValue b.date).getD 0)
        ((analyticsIndices (data.headD [])).dateColumns.map
          (trendPointOf ((data.drop 1).filter
            (rowPasses (analyticsIndices (data.headD [])) selectedSchool selectedClass)))),
        ∃ t, parseDate p.date = some t := fun p hp => hpoints p (hperm.subset hp)
    refine List.Pairwise.imp_of_mem ?_ hsorted
    intro p q hp hq hle
    obtain ⟨a, ha⟩ := hmem p hp
    obtain ⟨b, hb⟩ := hmem q hq
    refine ⟨a, b, ha, hb, ?_⟩
    apply calendarLe_of_epochMs_le a b (validDay_of_parseDate _ a ha)
      (validDay_of_parseDate _ b hb)
    simpa [dateValue, ha, hb] using hle


/-- With at most ten ranked students, each of them is in the per-student result. -/
theorem studentAttendanceData_of_few (ix : Indices) (rows : List Row)
    (selectedSchool selectedClass selectedDate : String) (hfew : rows.length ≤ 10)
    (s : StudentAggregate)
    (hs : s ∈ rankedStudents ix rows selectedSchool selectedClass selectedDate) :
    s ∈ studentAttendanceData ix rows selectedSchool selectedClass selectedDate := by
  rw [studentAttendanceData_eq]
  have hlen : (rankedStudents ix rows selectedSchool selectedClass selectedDate).length ≤ 10 := by
    unfold rankedStudents
    calc (List.filter _ (List.map _ (List.filter _ rows))).length
        ≤ (List.map (studentAggregateOf ix selectedDate)
            (List.filter (rowPasses ix selectedSchool selectedClass) rows)).length :=
          List.length_filter_le _ _
      _ = (List.filter (rowPasses ix selectedSchool selectedClass) rows).length :=
          List.length_map _ _
      _ ≤ rows.length := List.length_filter_le _ _
      _ ≤ 10 := hfew
  rw [List.take_of_length_le (by rw [List.length_insertionSort]; exact hlen)]
  exact (List.perm_insertionSort _ _).symm.subset hs

/-- C16, refuted as stated: on a sheet with one date column, 11 students
present and 9 absent, the rate of the date is the double next above 55
(written 55.00000000000001), not `100 * 11 / 20`. -/
theorem attendance_rate_is_rounded :
    (attendanceAnalytics
        (["2024-01-07"] :: (List.replicate 11 ["Present"] ++ List.replicate 9 ["Absent"]))
        "All" "All" "All").trend =
      [{ date := "2024-01-07", attendanceRate := 55 + 1 / 2 ^ 47, present := 11, absent := 9,
         total := 20 }] ∧
    (55 + 1 / 2 ^ 47 : ℚ) ≠ 100 * 11 / 20 := by
  constructor
  · have h0 := attendanceTrendData_eq (analyticsIndices ["2024-01-07"])
      (List.replicate 11 ["Present"] ++ List.replicate 9 ["Absent"]) "All" "All"
    have hix : (analyticsIndices ["2024-01-07"]).dateColumns =
        [{ index := 0, date := "2024-01-07" }] := by decide
    have hrows : (List.replicate 11 ["Present"] ++ List.replicate 9 ["Absent"] : List Row).filter
        (rowPasses (analyticsIndices ["2024-01-07"]) "All" "All") =
        List.replicate 11 ["Present"] ++ List.replicate 9 ["Absent"] := by decide
    have hcount : (List.replicate 11 ["Present"] ++ List.replicate 9 ["Absent"] : List Row).foldl
        (fun acc row => countStatus acc row[0]?) { present := 0, absent := 0, total := 0 } =
        { present := 11, absent := 9, total := 20 } := by decide
    have hrate : attendanceRateOf 11 20 = 55 + 1 / 2 ^ 47 := by
      unfold attendanceRateOf
      rw [if_pos (by decide), percentOf_eleven_of_twenty]
    show attendanceTrendData (analyticsIndices ["2024-01-07"])
      (List.replicate 11 ["Present"] ++ List.replicate 9 ["Absent"]) "All" "All" = _
    rw [h0, hix, hrows]
    simp only [List.map_cons, List.map_nil, List.insertionSort, List.orderedInsert,
      trendPointOf, hcount, hrate]
  · norm_num

/-- C16 amended, at work: Asha, present on three of the four dates, has rate 75. -/
theorem aggregates_rate_witness :
    (studentAggregateOf
        (analyticsIndices ["ID", "Name", "2024-01-07", "2024-01-14", "2024-01-21", "2024-01-28"])
        "All" ["7", "Asha", "Present", "Present", "Absent", "Present"]).attendanceRate = 75 :=
  ((aggregates_rate
    [["ID", "Name", "2024-01-07", "2024-01-14", "2024-01-21", "2024-01-28"],
     ["7", "Asha", "Present", "Present", "Absent", "Present"]] "All" "All" "All").1 _
    (studentAttendanceData_of_few
      (analyticsIndices ["ID", "Name", "2024-01-07", "2024-01-14", "2024-01-21", "2024-01-28"])
      [["7", "Asha", "Present", "Present", "Absent", "Present"]] "All" "All" "All" (by decide)
      (studentAggregateOf
        (analyticsIndices ["ID", "Name", "2024-01-07", "2024-01-14", "2024-01-21", "2024-01-28"])
        "All" ["7", "Asha", "Present", "Present", "Absent", "Present"]) (by
      simp only [rankedStudents, List.mem_filter, List.mem_map, decide_eq_true_eq]
      exact ⟨⟨["7", "Asha", "Present", "Present", "Absent", "Present"],
        ⟨by decide, by decide⟩, rfl⟩, by decide⟩))).2.2 (by decide) (by decide)

/-- C18 at work: with the school filter on Hill, Ravi of Hill is among the
ranked students, while the aggregate of Mina of Dale is not in the result. -/
theorem studentAttendanceData_lowest_ten_witness :
    (0 < (studentAggregateOf
          (analyticsIndices ["ID", "Name", "School", "2024-01-07", "2024-01-14"]) "All"
          ["8", "Ravi", "Hill", "Absent", "Present"]).total ∧
      ∃ row ∈ ([["ID", "Name", "School", "2024-01-07", "2024-01-14"],
          ["7", "Asha", "Hill", "Present", "Present"], ["8", "Ravi", "Hill", "Absent", "Present"],
          ["9", "Mina", "Dale", "Absent", "Absent"], ["10", "Bala", "Hill"]] : Grid).drop 1,
        (("Hill" = "All" ∨
          cellAt row (analyticsIndices (([["ID", "Name", "School", "2024-01-07", "2024-01-14"],
            ["7", "Asha", "Hill", "Present", "Present"],
            ["8", "Ravi", "Hill", "Absent", "Present"],
            ["9", "Mina", "Dale", "Absent", "Absent"],
            ["10", "Bala", "Hill"]] : Grid).headD [])).schoolIndex = some "Hill") ∧
        ("All" = "All" ∨
          cellAt row (analyticsIndices (([["ID", "Name", "School", "2024-01-07", "2024-01-14"],
            ["7", "Asha", "Hill", "Present", "Present"],
            ["8", "Ravi", "Hill", "Absent", "Present"],
            ["9", "Mina", "Dale", "Absent", "Absent"],
            ["10", "Bala", "Hill"]] : Grid).headD [])).classIndex = some "All")) ∧
        studentAggregateOf
            (analyticsIndices ["ID", "Name", "School", "2024-01-07", "2024-01-14"]) "All"
            ["8", "Ravi", "Hill", "Absent", "Present"] =
          studentAggregateOf
            (analyticsIndices (([["ID", "Name", "School", "2024-01-07", "2024-01-14"],
              ["7", "Asha", "Hill", "Present", "Present"],
              ["8", "Ravi", "Hill", "Absent", "Present"],
              ["9", "Mina", "Dale", "Absent", "Absent"],
              ["10", "Bala", "Hill"]] : Grid).headD [])) "All" row) ∧
    studentAggregateOf (analyticsIndices ["ID", "Name", "School", "2024-01-07", "2024-01-14"])
        "All" ["9", "Mina", "Dale", "Absent", "Absent"] ∉
      (attendanceAnalytics
        [["ID", "Name", "School", "2024-01-07", "2024-01-14"],
         ["7", "Asha", "Hill", "Present", "Present"], ["8", "Ravi", "Hill", "Absent", "Present"],
         ["9", "Mina", "Dale", "Absent", "Absent"], ["10", "Bala", "Hill"]]
        "Hill" "All" "All").students := by
  have hthm := studentAttendanceData_lowest_ten
    [["ID", "Name", "School", "2024-01-07", "2024-01-14"],
     ["7", "Asha", "Hill", "Present", "Present"], ["8", "Ravi", "Hill", "Absent", "Present"],
     ["9", "Mina", "Dale", "Absent", "Absent"], ["10", "Bala", "Hill"]] "Hill" "All" "All"
  constructor
  · refine (hthm.2.2.1 _).mp ?_
    simp only [rankedStudents, List.mem_filter, List.mem_map, decide_eq_true_eq]
    exact ⟨⟨["8", "Ravi", "Hill", "Absent", "Present"], ⟨by decide, by decide⟩, rfl⟩, by decide⟩
  · intro hmem
    obtain ⟨_, row, hrow, hpass, hs⟩ := (hthm.2.2.1 _).mp (hthm.2.2.2.1 _ hmem)
    have hid := congrArg StudentAggregate.id hs
    have hschool := congrArg StudentAggregate.school hs
    simp only [List.drop_succ_cons, List.drop_zero, List.mem_cons, List.mem_singleton,
      List.mem_nil_iff, or_false] at hrow
    rcases hrow with rfl | rfl | rfl | rfl
    · exact absurd hid (by decide)
    · exact absurd hid (by decide)
    · exact absurd hpass (by decide)
    · exact absurd hid (by decide)

/-- C19 at work: the date columns stand in the header row as 14 January, 7
January, and the school filter is on Hill; the series has two points, in
calendar order, and the point of 14 January counts the two rows of Hill, not
the row of Dale. -/
theorem attendanceTrendData_series_witness :
    (attendanceAnalytics
        [["ID", "School", "2024-01-14", "2024-01-07"], ["7", "Hill", "Present", "Absent"],
         ["8", "Dale", "Absent", "Absent"], ["9", "Hill", "late", "Present"]]
        "Hill" "All" "All").trend.length =
      (analyticsIndices (([["ID", "School", "2024-01-14", "2024-01-07"],
        ["7", "Hill", "Present", "Absent"], ["8", "Dale", "Absent", "Absent"],
        ["9", "Hill", "late", "Present"]] : Grid).headD [])).dateColumns.length ∧
    List.Pairwise
      (fun p q => ∃ a b, parseDate p.date = some a ∧ parseDate q.date = some b ∧ calendarLe a b)
      (attendanceAnalytics
        [["ID", "School", "2024-01-14", "2024-01-07"], ["7", "Hill", "Present", "Absent"],
         ["8", "Dale", "Absent", "Absent"], ["9", "Hill", "late", "Present"]]
        "Hill" "All" "All").trend ∧
    (trendPointOf
        ((([["ID", "School", "2024-01-14", "2024-01-07"], ["7", "Hill", "Present", "Absent"],
          ["8", "Dale", "Absent", "Absent"], ["9", "Hill", "late", "Present"]] : Grid).drop
          1).filter
          (rowPasses (analyticsIndices (([["ID", "School", "2024-01-14", "2024-01-07"],
            ["7", "Hill", "Present", "Absent"], ["8", "Dale", "Absent", "Absent"],
            ["9", "Hill", "late", "Present"]] : Grid).headD [])) "Hill" "All"))
        { index := 2, date := "2024-01-14" }).total = 2 ∧
    (trendPointOf
        ((([["ID", "School", "2024-01-14", "2024-01-07"], ["7", "Hill", "Present", "Absent"],
          ["8", "Dale", "Absent", "Absent"], ["9", "Hill", "late", "Present"]] : Grid).drop
          1).filter
          (rowPasses (analyticsIndices (([["ID", "School", "2024-01-14", "2024-01-07"],
            ["7", "Hill", "Present", "Absent"], ["8", "Dale", "Absent", "Absent"],
            ["9", "Hill", "late", "Present"]] : Grid).headD [])) "Hill" "All"))
        { index := 2, date := "2024-01-14" }).absent = 0 :=
  have h := attendanceTrendData_series
    [["ID", "School", "2024-01-14", "2024-01-07"], ["7", "Hill", "Present", "Absent"],
     ["8", "Dale", "Absent", "Absent"], ["9", "Hill", "late", "Present"]]
    "Hill" "All" (by
      have hix : (analyticsIndices (([["ID", "School", "2024-01-14", "2024-01-07"],
          ["7", "Hill", "Present", "Absent"], ["8", "Dale", "Absent", "Absent"],
          ["9", "Hill", "late", "Present"]] : Grid).headD [])).dateColumns =
          [{ index := 2, date := "2024-01-14" }, { index := 3, date := "2024-01-07" }] := by
        decide
      rw [hix]
      intro dateCol hcol
      simp only [List.mem_cons, List.mem_singleton, List.mem_nil_iff, or_false] at hcol
      rcases hcol with rfl | rfl
      · exact ⟨(2024, 1, 14), by decide⟩
      · exact ⟨(2024, 1, 7), by decide⟩)
  ⟨(h.2.2.1 "All").1, (h.2.2.1 "All").2.2,
    ((h.2.2.2.1 { index := 2, date := "2024-01-14" }).2.1).trans (by
      rw [h.2.1]
      decide),
    ((h.2.2.2.1 { index := 2, date := "2024-01-14" }).2.2.2).trans (by
      rw [h.2.1]
      decide)⟩


/-! ## The remote read: retries and waits -/

/-- A run of `getSheetData` from `retryCount`: it retries `n` times, each
time after a 429 answer, waits `2 ^ retryCount * 1000` ms and the doubles of
it, and ends on the first answer that is not retried. -/
theorem getSheetData_run_from (useSampleDataOnError : Bool)
    (remote : Nat → Except JsError (Option Grid)) (sheetName : String) :
    ∀ (d retryCount : Nat), retryCount + d = 3 →
      ∃ n, n ≤ d ∧
        (getSheetData useSampleDataOnError remote sheetName retryCount).waits =
          (List.range n).map (fun i => 2 ^ (retryCount + i) * 1000) ∧
        (getSheetData useSampleDataOnError remote sheetName retryCount).requests = n + 1 ∧
        (∀ j, j < n → ∃ e, remote (retryCount + j) = .error e ∧ e.status = some 429) ∧
        ((∃ values, remote (retryCount + n) = .ok values ∧
            (getSheetData useSampleDataOnError remote sheetName retryCount).result =
              .ok (values.getD [])) ∨
          (∃ e, remote (retryCount + n) = .error e ∧
            (e.status ≠ some 429 ∨ retryCount + n = 3) ∧
            (getSheetData useSampleDataOnError remote sheetName retryCount).result =
              if useSampleDataOnError then .ok (getSampleData sheetName) else .error e)) := by
  intro d
  induction d with
  | zero =>
    intro retryCount hr
    refine ⟨0, le_refl _, ?_⟩
    cases hrem : remote retryCount with
    | ok values =>
      rw [getSheetData_ok _ _ _ _ values hrem]
      exact ⟨rfl, rfl, fun j hj => absurd hj (Nat.not_lt_zero j), Or.inl ⟨values, hrem, rfl⟩⟩
    | error e =>
      rw [getSheetData_giveup _ _ _ _ e hrem (Or.inr (by omega))]
      refine ⟨?_, ?_, fun j hj => absurd hj (Nat.not_lt_zero j),
        Or.inr ⟨e, hrem, Or.inr (by omega), ?_⟩⟩ <;> cases useSampleDataOnError <;> rfl
  | succ d ih =>
    intro retryCount hr
    cases hrem : remote retryCount with
    | ok values =>
      refine ⟨0, Nat.zero_le _, ?_⟩
      rw [getSheetData_ok _ _ _ _ values hrem]
      exact ⟨rfl, rfl, fun j hj => absurd hj (Nat.not_lt_zero j), Or.inl ⟨values, hrem, rfl⟩⟩
    | error e =>
      by_cases h429 : e.status = some 429
      · obtain ⟨n, hn, hwaits, hreq, hretried, hfinal⟩ := ih (retryCount + 1) (by omega)
        rw [getSheetData_retry _ _ _ _ e hrem h429 (by omega)]
        refine ⟨n + 1, by omega, ?_, ?_, ?_, ?_⟩
        · have hshift : ∀ i, 2 ^ (retryCount + 1 + i) * 1000 = 2 ^ (retryCount + (i + 1)) * 1000 := by
            intro i
            rw [Nat.add_assoc, Nat.add_comm 1 i]
          simp only [hwaits, hshift, List.range_succ_eq_map, List.map_cons, List.map_map,
            Nat.add_zero, Function.comp_def, Nat.succ_eq_add_one]
        · simp only [hreq]
        · intro j hj
          cases j with
          | zero => exact ⟨e, hrem, h429⟩
          | succ j =>
            obtain ⟨e', he', hs'⟩ := hretried j (by omega)
            refine ⟨e', ?_, hs'⟩
            rw [← he']
            congr 1
            omega
        · have hidx : retryCount + (n + 1) = retryCount + 1 + n := by omega
          rw [hidx]
          exact hfinal
      · refine ⟨0, Nat.zero_le _, ?_⟩
        rw [getSheetData_giveup _ _ _ _ e hrem (Or.inl h429)]
        refine ⟨?_, ?_, fun j hj => absurd hj (Nat.not_lt_zero j),
          Or.inr ⟨e, hrem, Or.inl h429, ?_⟩⟩ <;> cases useSampleDataOnError <;> rfl

/-- C21: for every behaviour of the remote, `getSheetData` (a total function)
makes at most 4 requests, one after the other: the number of requests is the
number of waits plus one, the waits are the first ones of 1000, 2000, 4000
ms, each request that was retried had answered HTTP 429, and the run ends on
the first answer that is a success, an error other than 429, or the 429 of
the fourth request; on such an error it returns the sample grid when the flag
is set and throws the error again when it is not. -/
theorem getSheetData_retries (useSampleDataOnError : Bool)
    (remote : Nat → Except JsError (Option Grid)) (sheetName : String) :
    (getSheetData useSampleDataOnError remote sheetName 0).requests ≤ 4 ∧
    (getSheetData useSampleDataOnError remote sheetName 0).requests =
      (getSheetData useSampleDataOnError remote sheetName 0).waits.length + 1 ∧
    (getSheetData useSampleDataOnError remote sheetName 0).waits =
      [1000, 2000, 4000].take (getSheetData useSampleDataOnError remote sheetName 0).waits.length ∧
    (∀ j, j < (getSheetData useSampleDataOnError remote sheetName 0).waits.length →
      ∃ e, remote j = .error e ∧ e.status = some 429) ∧
    ((∃ values,
        remote (getSheetData useSampleDataOnError remote sheetName 0).waits.length = .ok values ∧
        (getSheetData useSampleDataOnError remote sheetName 0).result = .ok (values.getD [])) ∨
      (∃ e,
        remote (getSheetData useSampleDataOnError remote sheetName 0).waits.length = .error e ∧
        (e.status ≠ some 429 ∨
          (getSheetData useSampleDataOnError remote sheetName 0).waits.length = 3) ∧
        (getSheetData useSampleDataOnError remote sheetName 0).result =
          if useSampleDataOnError then .ok (getSampleData sheetName) else .error e)) := by
  obtain ⟨n, hn, hwaits, hreq, hretried, hfinal⟩ :=
    getSheetData_run_from useSampleDataOnError remote sheetName 3 0 rfl
  have hlen : (getSheetData useSampleDataOnError remote sheetName 0).waits.length = n := by
    rw [hwaits, List.length_map, List.length_range]
  rw [hlen, hreq]
  refine ⟨by omega, rfl, ?_, ?_, ?_⟩
  · rw [hwaits]
    have hcases : n = 0 ∨ n = 1 ∨ n = 2 ∨ n = 3 := by omega
    rcases hcases with h | h | h | h <;> subst h <;> decide
  · intro j hj
    simpa using hretried j hj
  · simpa using hfinal

/-- C21 at work: the remote answers 429 twice and then an empty range; three
requests, waits of 1000 and 2000 ms, and the empty grid. -/
theorem getSheetData_retries_witness :
    (getSheetData true
        (fun k => if k < 2 then .error ⟨"Too Many Requests", some 429⟩ else .ok none)
        "Students" 0).requests ≤ 4 ∧
    (getSheetData true
        (fun k => if k < 2 then .error ⟨"Too Many Requests", some 429⟩ else .ok none)
        "Students" 0).requests =
      (getSheetData true
        (fun k => if k < 2 then .error ⟨"Too Many Requests", some 429⟩ else .ok none)
        "Students" 0).waits.length + 1 :=
  ⟨(getSheetData_retries true
      (fun k => if k < 2 then .error ⟨"Too Many Requests", some 429⟩ else .ok none)
      "Students").1,
   (getSheetData_retries true
      (fun k => if k < 2 then .error ⟨"Too Many Requests", some 429⟩ else .ok none)
      "Students").2.1⟩


/-! ## Error classification of the writes -/

/-- The classification of the outer `catch`, for each of the four sign-in messages. -/
theorem classifyWriteError_handled (authMessage : String) (raised : JsError)
    (hmsg : ∃ rest, authMessage = "Authentication error" ++ rest) :
    handledAs raised (classifyWriteError authMessage raised) := by
  unfold handledAs classifyWriteError
  refine ⟨?_, ?_, ?_⟩
  · intro h
    rw [if_pos h]
    exact hmsg
  · intro h
    have h401 : raised.status ≠ some 401 := by rw [h]; decide
    rw [if_neg h401, if_pos h]
    exact ⟨": Make sure your Google Sheet is shared with edit permissions.", by decide⟩
  · intro h401 h403
    rw [if_neg h401, if_neg h403]

theorem signIn_messages :
    (∃ rest, signInToWrite = "Authentication error" ++ rest) ∧
    (∃ rest, signInToUpdate = "Authentication error" ++ rest) ∧
    (∃ rest, signInToDelete = "Authentication error" ++ rest) ∧
    (∃ rest, signInToAdd = "Authentication error" ++ rest) :=
  ⟨⟨": You need to sign in with your Google account to write to Google Sheets.", by decide⟩,
   ⟨": You need to sign in with your Google account to update students.", by decide⟩,
   ⟨": You need to sign in with your Google account to delete students.", by decide⟩,
   ⟨": You need to sign in with your Google account to add students.", by decide⟩⟩

/-- C22: an error that reaches the outer handler of a write operation (the
error of the read in `addDateColumn`, `updateAttendanceByStudentId`,
`updateStudentById` and `deleteStudentById`, the error of the authenticated
call in the latter two, the error of the API-key post in `appendRow`) makes
the operation throw an error whose message starts with "Authentication error"
when it carries status 401, one whose message starts with "Permission denied"
when it carries status 403, and the error itself in every other case. -/
theorem write_errors_classified (s : Session) (raised : JsError)
    (sheetName dateStr studentId dateColumnLetter status : String) (rowData : List String)
    (grid : Grid) :
    (∃ thrown, (addDateColumn s (.error raised) sheetName dateStr).result = .error thrown ∧
      handledAs raised thrown) ∧
    (∃ thrown, (updateAttendanceByStudentId s (.error raised) sheetName studentId
        dateColumnLetter status).result = .error thrown ∧ handledAs raised thrown) ∧
    (∃ thrown, (updateStudentById s (.error raised) studentId rowData).result = .error thrown ∧
      handledAs raised thrown) ∧
    (∃ thrown, (deleteStudentById s (.error raised) studentId).result = .error thrown ∧
      handledAs raised thrown) ∧
    ((∃ i, dataRowHasId grid (lookupIdColumn (grid.headD [])) studentId i) →
      s.useOAuth = true → s.isUserSignedIn = true → s.sheetsLoaded = true →
      s.callOutcome = .error raised →
      (∃ thrown, (updateStudentById s (.ok grid) studentId rowData).result = .error thrown ∧
        handledAs raised thrown) ∧
      (∃ thrown, (deleteStudentById s (.ok grid) studentId).result = .error thrown ∧
        handledAs raised thrown)) ∧
    ((s.isUserSignedIn = false ∨ s.sheetsLoaded = false ∨ ∃ e, s.callOutcome = .error e) →
      ∃ thrown, appendRow s (.error raised) = .error thrown ∧ handledAs raised thrown) := by
  obtain ⟨hw, hu, hd, ha⟩ := signIn_messages
  refine ⟨⟨_, rfl, classifyWriteError_handled _ _ hw⟩, ⟨_, rfl, classifyWriteError_handled _ _ hw⟩,
    ⟨_, rfl, classifyWriteError_handled _ _ hu⟩, ⟨_, rfl, classifyWriteError_handled _ _ hd⟩,
    ?_, ?_⟩
  · intro hpresent h1 h2 h3 h4
    obtain ⟨i, hi⟩ := hpresent
    have hfound := findStudentRowByID_found grid studentId
      (scan_ne_neg_one_of_dataRow grid _ studentId i hi)
    refine ⟨⟨classifyWriteError signInToUpdate raised, ?_, classifyWriteError_handled _ _ hu⟩,
      ⟨classifyWriteError signInToDelete raised, ?_, classifyWriteError_handled _ _ hd⟩⟩
    · simp [updateStudentById, hfound, h1, h2, h3, h4]
    · simp [deleteStudentById, hfound, h1, h2, h3, h4]
  · intro hs
    refine ⟨classifyWriteError signInToAdd raised, ?_, classifyWriteError_handled _ _ ha⟩
    unfold appendRow
    rcases hs with hs | hs | ⟨e, he⟩
    · simp [hs]
    · by_cases hauth : (s.useOAuth && s.isUserSignedIn) = true
      · simp [hauth, hs]
      · simp [hauth]
    · by_cases hauth : (s.useOAuth && s.isUserSignedIn) = true
      · by_cases hload : s.sheetsLoaded = true
        · simp [hauth, hload, he]
        · simp [hauth, hload]
      · simp [hauth]

/-- C22 at work: signed out, the API-key post of `appendRow` answers 403. -/
theorem write_errors_classified_witness :
    ∃ thrown, appendRow ⟨true, false, true, .ok ⟨""⟩⟩
        (.error ⟨"Request failed with status code 403", some 403⟩) = .error thrown ∧
      handledAs ⟨"Request failed with status code 403", some 403⟩ thrown :=
  (write_errors_classified ⟨true, false, true, .ok ⟨""⟩⟩
    ⟨"Request failed with status code 403", some 403⟩ "Students" "2024-01-07" "7" "C" "Present"
    ["7", "Asha"] [["ID"], ["7"]]).2.2.2.2.2 (Or.inl rfl)


/-! ## Attendance analytics: what the counters count -/

/-- Counting a list of status cells: how many of each kind there are. -/
theorem foldl_countStatus_cells (cells : List (Option String)) :
    ∀ c : Counts,
      cells.foldl countStatus c =
        { present := c.present + (cells.filter statusPresent).length
          absent := c.absent + (cells.filter statusAbsent).length
          total := c.total + (cells.filter statusEntered).length } := by
  induction cells with
  | nil => intro c; rfl
  | cons cell rest ih =>
    intro c
    rw [List.foldl_cons, ih, countStatus_eq]
    simp only [List.filter_cons]
    by_cases hp : statusPresent cell = true <;>
    by_cases ha : statusAbsent cell = true <;>
    by_cases he : statusEntered cell = true <;>
    simp [hp, ha, he] <;> omega

/-- Counting one row is counting its cells in the scoped date columns. -/
theorem countRow_eq_cells (ix : Indices) (selectedDate : String) (c : Counts) (row : Row) :
    countRow ix selectedDate c row =
      ((scopedColumns ix selectedDate).map (fun dateCol => row[dateCol.index]?)).foldl
        countStatus c := by
  unfold countRow scopedColumns
  by_cases hall : selectedDate = "All"
  · simp only [hall, if_true, List.foldl_map]
  · simp only [hall, if_false]
    cases ix.dateColumns.find? (fun col => col.date == selectedDate) <;> rfl

/-- Counting a list of rows is counting the scoped cells. -/
theorem foldl_countRow (ix : Indices) (selectedDate : String) (rows : List Row) :
    ∀ c : Counts,
      rows.foldl (countRow ix selectedDate) c =
        (scopedCells ix selectedDate rows).foldl countStatus c := by
  induction rows with
  | nil => intro c; rfl
  | cons row rest ih =>
    intro c
    rw [List.foldl_cons, ih, countRow_eq_cells]
    simp only [scopedCells, List.map_cons, List.flatten_cons, List.foldl_append]

/-- The three counters of a list of rows under a date filter. -/
theorem foldl_countRow_counts (ix : Indices) (selectedDate : String) (rows : List Row) :
    rows.foldl (countRow ix selectedDate) { present := 0, absent := 0, total := 0 } =
      { present := ((scopedCells ix selectedDate rows).filter statusPresent).length
        absent := ((scopedCells ix selectedDate rows).filter statusAbsent).length
        total := ((scopedCells ix selectedDate rows).filter statusEntered).length } := by
  rw [foldl_countRow, foldl_countStatus_cells]
  simp

/-- The overall aggregate shows the counters of `overallCounts`. -/
theorem overallAttendanceData_eq (ix : Indices) (rows : List Row)
    (selectedSchool selectedClass selectedDate : String) (h : ix.dateColumns.length ≠ 0) :
    overallAttendanceData ix rows selectedSchool selectedClass selectedDate =
      [{ name := "Present"
         value := (overallCounts ix rows selectedSchool selectedClass selectedDate).present
         percentage := percentageOf
           (overallCounts ix rows selectedSchool selectedClass selectedDate).present
           (overallCounts ix rows selectedSchool selectedClass selectedDate).total },
       { name := "Absent"
         value := (overallCounts ix rows selectedSchool selectedClass selectedDate).absent
         percentage := percentageOf
           (overallCounts ix rows selectedSchool selectedClass selectedDate).absent
           (overallCounts ix rows selectedSchool selectedClass selectedDate).total }] := by
  unfold overallAttendanceData overallCounts
  rw [if_neg h]

/-- Every per-school aggregate carries the counters of the rows of its school. -/
theorem schoolAttendanceData_counts (ix : Indices) (rows : List Row) (selectedDate : String)
    (s : SchoolAggregate) (hs : s ∈ schoolAttendanceData ix rows selectedDate) :
    s.present = ((scopedCells ix selectedDate
        (rows.filter (fun row => cellAt row ix.schoolIndex == some s.name))).filter
        statusPresent).length ∧
    s.absent = ((scopedCells ix selectedDate
        (rows.filter (fun row => cellAt row ix.schoolIndex == some s.name))).filter
        statusAbsent).length ∧
    s.total = ((scopedCells ix selectedDate
        (rows.filter (fun row => cellAt row ix.schoolIndex == some s.name))).filter
        statusEntered).length := by
  unfold schoolAttendanceData at hs
  split at hs
  · simp at hs
  · simp only [List.mem_map] at hs
    obtain ⟨school, _, hschool⟩ := hs
    rw [← hschool]
    simp only [foldl_countRow_counts]
    exact ⟨trivial, trivial, trivial⟩

/-- A selected date that heads no date column has no cell in scope. -/
theorem scopedCells_unknown_date (ix : Indices) (selectedDate : String) (rows : List Row)
    (hnotAll : selectedDate ≠ "All")
    (hunknown : ∀ dateCol ∈ ix.dateColumns, dateCol.date ≠ selectedDate) :
    scopedCells ix selectedDate rows = [] := by
  have hfind : ix.dateColumns.find? (fun col => col.date == selectedDate) = none := by
    rw [List.find?_eq_none]
    intro dateCol hmem
    simpa using hunknown dateCol hmem
  have hcols : scopedColumns ix selectedDate = [] := by
    unfold scopedColumns
    rw [if_neg hnotAll, hfind]
    rfl
  unfold scopedCells
  rw [hcols]
  induction rows with
  | nil => rfl
  | cons row rest ih => simp

/-- C23: a row passes the filter exactly when the school selection is
"All" or the row's school cell and the class selection is "All" or the row's
class cell.  The overall aggregate shows the counters of the status cells of
the rows that pass, in the scoped date columns (the selected date column,
all date columns for "All"): its percentages divide by `total`, the number
of those cells that are not empty, whatever they say ("late" counts).  Every
per-school aggregate has as `total` that number over the rows of its school.
A selected date that heads no date column gives total 0 in both. -/
theorem total_counts_entered_cells (data : Grid)
    (selectedSchool selectedClass selectedDate : String) :
    (∀ row, rowPasses (analyticsIndices (data.headD [])) selectedSchool selectedClass row = true ↔
      (selectedSchool = "All" ∨
        cellAt row (analyticsIndices (data.headD [])).schoolIndex = some selectedSchool) ∧
      (selectedClass = "All" ∨
        cellAt row (analyticsIndices (data.headD [])).classIndex = some selectedClass)) ∧
    (attendanceAnalytics data selectedSchool selectedClass selectedDate).overall =
      (if (analyticsIndices (data.headD [])).dateColumns.length = 0 then []
      else
        [{ name := "Present"
           value := ((scopedCells (analyticsIndices (data.headD [])) selectedDate
             ((data.drop 1).filter (fun row => decide
               ((selectedSchool = "All" ∨
                 cellAt row (analyticsIndices (data.headD [])).schoolIndex =
                   some selectedSchool) ∧
               (selectedClass = "All" ∨
                 cellAt row (analyticsIndices (data.headD [])).classIndex =
                   some selectedClass))))).filter statusPresent).length
           percentage := percentageOf
             ((scopedCells (analyticsIndices (data.headD [])) selectedDate
               ((data.drop 1).filter (fun row => decide
                 ((selectedSchool = "All" ∨
                   cellAt row (analyticsIndices (data.headD [])).schoolIndex =
                     some selectedSchool) ∧
                 (selectedClass = "All" ∨
                   cellAt row (analyticsIndices (data.headD [])).classIndex =
                     some selectedClass))))).filter statusPresent).length
             ((scopedCells (analyticsIndices (data.headD [])) selectedDate
               ((data.drop 1).filter (fun row => decide
                 ((selectedSchool = "All" ∨
                   cellAt row (analyticsIndices (data.headD [])).schoolIndex =
                     some selectedSchool) ∧
                 (selectedClass = "All" ∨
                   cellAt row (analyticsIndices (data.headD [])).classIndex =
                     some selectedClass))))).filter statusEntered).length },
         { name := "Absent"
           value := ((scopedCells (analyticsIndices (data.headD [])) selectedDate
             ((data.drop 1).filter (fun row => decide
               ((selectedSchool = "All" ∨
                 cellAt row (analyticsIndices (data.headD [])).schoolIndex =
                   some selectedSchool) ∧
               (selectedClass = "All" ∨
                 cellAt row (analyticsIndices (data.headD [])).classIndex =
                   some selectedClass))))).filter statusAbsent).length
           percentage := percentageOf
             ((scopedCells (analyticsIndices (data.headD [])) selectedDate
               ((data.drop 1).filter (fun row => decide
                 ((selectedSchool = "All" ∨
                   cellAt row (analyticsIndices (data.headD [])).schoolIndex =
                     some selectedSchool) ∧
                 (selectedClass = "All" ∨
                   cellAt row (analyticsIndices (data.headD [])).classIndex =
                     some selectedClass))))).filter statusAbsent).length
             ((scopedCells (analyticsIndices (data.headD [])) selectedDate
               ((data.drop 1).filter (fun row => decide
                 ((selectedSchool = "All" ∨
                   cellAt row (analyticsIndices (data.headD [])).schoolIndex =
                     some selectedSchool) ∧
                 (selectedClass = "All" ∨
                   cellAt row (analyticsIndices (data.headD [])).classIndex =
                     some selectedClass))))).filter statusEntered).length }]) ∧
    (∀ s ∈ (attendanceAnalytics data selectedSchool selectedClass selectedDate).schools,
      s.total =
        ((scopedCells (analyticsIndices (data.headD [])) selectedDate
          ((data.drop 1).filter (fun row =>
            cellAt row (analyticsIndices (data.headD [])).schoolIndex == some s.name))).filter
          statusEntered).length) ∧
    (statusEntered (some "late") = true ∧ statusEntered (some "") = false ∧
      statusEntered none = false) ∧
    (selectedDate ≠ "All" →
      (∀ dateCol ∈ (analyticsIndices (data.headD [])).dateColumns,
        dateCol.date ≠ selectedDate) →
      (attendanceAnalytics data selectedSchool selectedClass selectedDate).overall =
        (if (analyticsIndices (data.headD [])).dateColumns.length = 0 then []
        else
          [{ name := "Present", value := 0, percentage := percentageOf 0 0 },
           { name := "Absent", value := 0, percentage := percentageOf 0 0 }]) ∧
      ∀ s ∈ (attendanceAnalytics data selectedSchool selectedClass selectedDate).schools,
        s.total = 0) := by
  have hoverall : (attendanceAnalytics data selectedSchool selectedClass selectedDate).overall =
      (if (analyticsIndices (data.headD [])).dateColumns.length = 0 then []
      else
        [{ name := "Present"
           value := ((scopedCells (analyticsIndices (data.headD [])) selectedDate
             ((data.drop 1).filter (rowPasses (analyticsIndices (data.headD [])) selectedSchool
               selectedClass))).filter statusPresent).length
           percentage := percentageOf
             ((scopedCells (analyticsIndices (data.headD [])) selectedDate
               ((data.drop 1).filter (rowPasses (analyticsIndices (data.headD []))
                 selectedSchool selectedClass))).filter statusPresent).length
             ((scopedCells (analyticsIndices (data.headD [])) selectedDate
               ((data.drop 1).filter (rowPasses (analyticsIndices (data.headD []))
                 selectedSchool selectedClass))).filter statusEntered).length },
         { name := "Absent"
           value := ((scopedCells (analyticsIndices (data.headD [])) selectedDate
             ((data.drop 1).filter (rowPasses (analyticsIndices (data.headD [])) selectedSchool
               selectedClass))).filter statusAbsent).length
           percentage := percentageOf
             ((scopedCells (analyticsIndices (data.headD [])) selectedDate
               ((data.drop 1).filter (rowPasses (analyticsIndices (data.headD []))
                 selectedSchool selectedClass))).filter statusAbsent).length
             ((scopedCells (analyticsIndices (data.headD [])) selectedDate
               ((data.drop 1).filter (rowPasses (analyticsIndices (data.headD []))
                 selectedSchool selectedClass))).filter statusEntered).length }]) := by
    show overallAttendanceData (analyticsIndices (data.headD [])) (data.drop 1) selectedSchool
      selectedClass selectedDate = _
    unfold overallAttendanceData
    simp only [foldl_countRow_counts]
  have hschools : ∀ s ∈ (attendanceAnalytics data selectedSchool selectedClass
      selectedDate).schools,
      s.total =
        ((scopedCells (analyticsIndices (data.headD [])) selectedDate
          ((data.drop 1).filter (fun row =>
            cellAt row (analyticsIndices (data.headD [])).schoolIndex == some s.name))).filter
          statusEntered).length :=
    fun s hs => (schoolAttendanceData_counts _ _ _ s hs).2.2
  refine ⟨fun row => rowPasses_iff _ _ _ row, ?_, hschools, ⟨by decide, by decide, by decide⟩,
    ?_⟩
  · rw [hoverall, filter_rowPasses]
  · intro hnotAll hunknown
    constructor
    · rw [hoverall, scopedCells_unknown_date _ _ _ hnotAll hunknown]
      rfl
    · intro s hs
      rw [hschools s hs, scopedCells_unknown_date _ _ _ hnotAll hunknown]
      rfl

/-- C23 at work: with the school filter on Hill the overall aggregate counts
the "Present" and the "late" cell of Hill, total 2, and not the cell of
Dale; the date filter 2024-02-02 heads no column and gives total 0. -/
theorem total_counts_entered_cells_witness :
    (attendanceAnalytics
        [["ID", "School", "2024-01-07"], ["7", "Hill", "Present"], ["8", "Dale", "Absent"],
         ["9", "Hill", "late"]] "Hill" "All" "All").overall =
      [{ name := "Present", value := 1, percentage := percentageOf 1 2 },
       { name := "Absent", value := 0, percentage := percentageOf 0 2 }] ∧
    (attendanceAnalytics
        [["ID", "School", "2024-01-07"], ["7", "Hill", "Present"], ["8", "Dale", "Absent"],
         ["9", "Hill", "late"]] "Hill" "All" "2024-02-02").overall =
      [{ name := "Present", value := 0, percentage := percentageOf 0 0 },
       { name := "Absent", value := 0, percentage := percentageOf 0 0 }] :=
  ⟨(total_counts_entered_cells
      [["ID", "School", "2024-01-07"], ["7", "Hill", "Present"], ["8", "Dale", "Absent"],
       ["9", "Hill", "late"]] "Hill" "All" "All").2.1.trans (by
      have hp : scopedCells
          (analyticsIndices (([["ID", "School", "2024-01-07"], ["7", "Hill", "Present"],
            ["8", "Dale", "Absent"], ["9", "Hill", "late"]] : Grid).headD [])) "All"
          ((([["ID", "School", "2024-01-07"], ["7", "Hill", "Present"],
            ["8", "Dale", "Absent"], ["9", "Hill", "late"]] : Grid).drop 1).filter
            (fun row => decide
              (("Hill" = "All" ∨
                cellAt row (analyticsIndices (([["ID", "School", "2024-01-07"],
                  ["7", "Hill", "Present"], ["8", "Dale", "Absent"],
                  ["9", "Hill", "late"]] : Grid).headD [])).schoolIndex = some "Hill") ∧
              ("All" = "All" ∨
                cellAt row (analyticsIndices (([["ID", "School", "2024-01-07"],
                  ["7", "Hill", "Present"], ["8", "Dale", "Absent"],
                  ["9", "Hill", "late"]] : Grid).headD [])).classIndex = some "All")))) =
          [some "Present", some "late"] := by decide
      have hc1 : (List.filter statusPresent [some "Present", some "late"]).length = 1 := by
        decide
      have hc2 : (List.filter statusAbsent [some "Present", some "late"]).length = 0 := by
        decide
      have hc3 : (List.filter statusEntered [some "Present", some "late"]).length = 2 := by
        decide
      have hd : (analyticsIndices (([["ID", "School", "2024-01-07"], ["7", "Hill", "Present"],
          ["8", "Dale", "Absent"], ["9", "Hill", "late"]] : Grid).headD [])).dateColumns.length ≠
          0 := by decide
      rw [hp, hc1, hc2, hc3, if_neg hd]),
   ((total_counts_entered_cells
      [["ID", "School", "2024-01-07"], ["7", "Hill", "Present"], ["8", "Dale", "Absent"],
       ["9", "Hill", "late"]] "Hill" "All" "2024-02-02").2.2.2.2 (by decide) (by decide)).1.trans
      (by decide)⟩

/-- One status cell: present and absent exclude each other, both are counted
entries, and a counted entry is one of them exactly when it contains one of
the two words. -/
theorem status_kinds (cell : Option String) :
    (statusPresent cell = true → statusEntered cell = true) ∧
    (statusAbsent cell = true → statusEntered cell = true) ∧
    (statusPresent cell = true → statusAbsent cell = false) ∧
    (statusEntered cell = true →
      (statusRecognised cell = true ↔ statusPresent cell = true ∨ statusAbsent cell = true)) := by
  cases cell with
  | none => simp [statusPresent, statusAbsent, statusEntered]
  | some s =>
    simp only [statusPresent, statusAbsent, statusEntered, statusRecognised]
    by_cases he : s = "" <;>
    by_cases hp : includes (toLowerCase s) "present" = true <;>
    by_cases ha : includes (toLowerCase s) "absent" = true <;>
    simp [he, hp, ha]

/-- The counters of a list of cells satisfy the invariant. -/
theorem countsWithin_cells (cells : List (Option String)) :
    countsWithin (cells.filter statusPresent).length (cells.filter statusAbsent).length
      (cells.filter statusEntered).length cells := by
  unfold countsWithin
  induction cells with
  | nil => simp
  | cons cell rest ih =>
    obtain ⟨hle, hiff⟩ := ih
    have key := status_kinds cell
    have hall : (∀ x ∈ cell :: rest, statusEntered x = true → statusRecognised x = true) ↔
        ((statusEntered cell = true → statusRecognised cell = true) ∧
          ∀ x ∈ rest, statusEntered x = true → statusRecognised x = true) := by
      simp only [List.mem_cons, forall_eq_or_imp]
    rw [hall, ← hiff]
    cases hE : statusEntered cell <;> cases hP : statusPresent cell <;>
      cases hA : statusAbsent cell <;> cases hR : statusRecognised cell <;>
      simp only [hE, hP, hA, hR] at key <;>
      simp only [List.filter_cons, hE, hP, hA, hR, if_true, if_false, List.length_cons,
        Bool.false_eq_true] <;>
      first
        | (exfalso; simp at key; done)
        | (constructor
           · omega
           · constructor
             · intro h
               exact ⟨by simp, by omega⟩
             · intro h
               have := h.2
               omega)
        | (constructor
           · omega
           · constructor
             · intro h
               omega
             · intro h
               simp at h)

/-- The cells of a list of rows in one column are the scoped cells of that column. -/
theorem filter_rows_eq_cells (kind : Option String → Bool) (rows : List Row) (index : Nat) :
    (rows.filter (fun row => kind row[index]?)).length =
      ((rows.map (fun row => row[index]?)).filter kind).length := by
  induction rows with
  | nil => rfl
  | cons row rest ih =>
    simp only [List.filter_cons, List.map_cons]
    cases h : kind row[index]? <;> simp [ih]

/-- C24: every aggregate of the analytics satisfies present + absent ≤
total, with equality exactly when every non-empty counted status contains
"present" or "absent" in any letter case: the overall counters, every
per-school aggregate, every per-student aggregate (each is the aggregate of a
row passing the filter) and every point of the trend (each is the point of a
date column); one status cell adds at most one to present and absent
together, and a status with both words counts as present only. -/
theorem present_plus_absent_le_total (ix : Indices) (rows : List Row)
    (selectedSchool selectedClass selectedDate : String) :
    countsWithin (overallCounts ix rows selectedSchool selectedClass selectedDate).present
      (overallCounts ix rows selectedSchool selectedClass selectedDate).absent
      (overallCounts ix rows selectedSchool selectedClass selectedDate).total
      (scopedCells ix selectedDate (rows.filter (rowPasses ix selectedSchool selectedClass))) ∧
    (∀ s ∈ schoolAttendanceData ix rows selectedDate,
      countsWithin s.present s.absent s.total
        (scopedCells ix selectedDate
          (rows.filter (fun row => cellAt row ix.schoolIndex == some s.name)))) ∧
    (∀ s ∈ studentAttendanceData ix rows selectedSchool selectedClass selectedDate,
      ∃ row ∈ rows.filter (rowPasses ix selectedSchool selectedClass),
        s = studentAggregateOf ix selectedDate row ∧
        countsWithin s.present s.absent s.total (scopedCells ix selectedDate [row])) ∧
    (∀ p ∈ attendanceTrendData ix rows selectedSchool selectedClass,
      ∃ dateCol ∈ ix.dateColumns,
        p = trendPointOf (rows.filter (rowPasses ix selectedSchool selectedClass)) dateCol ∧
        countsWithin p.present p.absent p.total
          ((rows.filter (rowPasses ix selectedSchool selectedClass)).map
            (fun row => row[dateCol.index]?))) ∧
    (∀ (c : Counts) (status : Option String),
      (countStatus c status).present + (countStatus c status).absent ≤
        c.present + c.absent + 1) ∧
    (∀ c : Counts, countStatus c (some "Present, not absent") =
      { present := c.present + 1, absent := c.absent, total := c.total + 1 }) := by
  refine ⟨?_, ?_, ?_, ?_, ?_, ?_⟩
  · unfold overallCounts
    rw [foldl_countRow_counts]
    exact countsWithin_cells _
  · intro s hs
    obtain ⟨hp, ha, ht⟩ := schoolAttendanceData_counts ix rows selectedDate s hs
    rw [hp, ha, ht]
    exact countsWithin_cells _
  · intro s hs
    rw [studentAttendanceData_eq] at hs
    have hranked : s ∈ rankedStudents ix rows selectedSchool selectedClass selectedDate :=
      (List.perm_insertionSort _ _).subset (List.mem_of_mem_take hs)
    unfold rankedStudents at hranked
    obtain ⟨hmap, _⟩ := List.mem_filter.mp hranked
    obtain ⟨row, hrow, hs'⟩ := List.mem_map.mp hmap
    refine ⟨row, hrow, hs'.symm, ?_⟩
    rw [← hs']
    have hcount : countRow ix selectedDate { present := 0, absent := 0, total := 0 } row =
        { present := ((scopedCells ix selectedDate [row]).filter statusPresent).length
          absent := ((scopedCells ix selectedDate [row]).filter statusAbsent).length
          total := ((scopedCells ix selectedDate [row]).filter statusEntered).length } :=
      foldl_countRow_counts ix selectedDate [row]
    simp only [studentAggregateOf, hcount]
    exact countsWithin_cells _
  · intro p hp
    rw [attendanceTrendData_eq] at hp
    have hmap := (List.perm_insertionSort _ _).subset hp
    obtain ⟨dateCol, hcol, hp'⟩ := List.mem_map.mp hmap
    refine ⟨dateCol, hcol, hp'.symm, ?_⟩
    rw [← hp']
    obtain ⟨_, ht, hpr, hab⟩ :=
      trendPointOf_counts (rows.filter (rowPasses ix selectedSchool selectedClass)) dateCol
    rw [hpr, hab, ht, filter_rows_eq_cells, filter_rows_eq_cells, filter_rows_eq_cells]
    exact countsWithin_cells _
  · intro c status
    rw [countStatus_eq]
    have hpa := (status_kinds status).2.2.1
    cases hp : statusPresent status <;> cases ha : statusAbsent status <;>
      simp [hp, ha] at hpa ⊢ <;> omega
  · intro c
    rw [countStatus_eq]
    have hp : statusPresent (some "Present, not absent") = true := by decide
    have ha : statusAbsent (some "Present, not absent") = false := by decide
    have he : statusEntered (some "Present, not absent") = true := by decide
    simp [hp, ha, he]


/-- The point of every date column is in the trend series. -/
theorem trendPointOf_mem (ix : Indices) (rows : List Row) (selectedSchool selectedClass : String)
    (dateCol : DateColumn) (hcol : dateCol ∈ ix.dateColumns) :
    trendPointOf (rows.filter (rowPasses ix selectedSchool selectedClass)) dateCol ∈
      attendanceTrendData ix rows selectedSchool selectedClass := by
  rw [attendanceTrendData_eq]
  exact (List.perm_insertionSort _ _).symm.subset (List.mem_map_of_mem _ hcol)

/-- C24 at work: the point of the one date column of a sheet with a "late" cell. -/
theorem present_plus_absent_le_total_witness :
    ∃ dateCol ∈ (analyticsIndices ["ID", "Name", "2024-01-07"]).dateColumns,
      trendPointOf
          (([["7", "Asha", "Present"], ["8", "Ravi", "late"]] : List Row).filter
            (rowPasses (analyticsIndices ["ID", "Name", "2024-01-07"]) "All" "All"))
          { index := 2, date := "2024-01-07" } =
        trendPointOf
          (([["7", "Asha", "Present"], ["8", "Ravi", "late"]] : List Row).filter
            (rowPasses (analyticsIndices ["ID", "Name", "2024-01-07"]) "All" "All")) dateCol ∧
      countsWithin
        (trendPointOf
          (([["7", "Asha", "Present"], ["8", "Ravi", "late"]] : List Row).filter
            (rowPasses (analyticsIndices ["ID", "Name", "2024-01-07"]) "All" "All"))
          { index := 2, date := "2024-01-07" }).present
        (trendPointOf
          (([["7", "Asha", "Present"], ["8", "Ravi", "late"]] : List Row).filter
            (rowPasses (analyticsIndices ["ID", "Name", "2024-01-07"]) "All" "All"))
          { index := 2, date := "2024-01-07" }).absent
        (trendPointOf
          (([["7", "Asha", "Present"], ["8", "Ravi", "late"]] : List Row).filter
            (rowPasses (analyticsIndices ["ID", "Name", "2024-01-07"]) "All" "All"))
          { index := 2, date := "2024-01-07" }).total
        ((([["7", "Asha", "Present"], ["8", "Ravi", "late"]] : List Row).filter
          (rowPasses (analyticsIndices ["ID", "Name", "2024-01-07"]) "All" "All")).map
          (fun row => row[dateCol.index]?)) :=
  (present_plus_absent_le_total (analyticsIndices ["ID", "Name", "2024-01-07"])
    [["7", "Asha", "Present"], ["8", "Ravi", "late"]] "All" "All" "All").2.2.2.1 _
    (trendPointOf_mem (analyticsIndices ["ID", "Name", "2024-01-07"])
      [["7", "Asha", "Present"], ["8", "Ravi", "late"]] "All" "All"
      { index := 2, date := "2024-01-07" } (by decide))


/-! ## Reported ids and the attendance lookup -/

/-- C25, refuted as stated: for the data row with an empty id cell
`getStudentData` reports the placeholder id S001, which no cell of the grid
carries, so `updateAttendanceByStudentId` throws "not found" for it. -/
theorem placeholder_id_not_found :
    getStudentData true "Students" (.ok [["ID", "Name"], ["", "Asha"]]) =
      .ok [{ id := "S001", name := "Asha", classValue := "N/A", school := "N/A" }] ∧
    (updateAttendanceByStudentId ⟨true, true, true, .ok ⟨""⟩⟩
        (.ok [["ID", "Name"], ["", "Asha"]]) "Students" "S001" "C" "Present").result =
      .error ⟨"Student with ID S001 not found", none⟩ := by
  constructor <;> decide

/-- C25, amended: on a grid whose header row gives `getStudentData` and
`updateAttendanceByStudentId` the same id column, an id that `getStudentData`
reads from a non-empty id cell (the record of the data row at position `k`,
counted from 0) is found by `updateAttendanceByStudentId`: the lookup returns
a result, and when no earlier record carries that id the row located is sheet
row `k + 2`, the row of that student. -/
theorem reported_id_is_found (useSampleDataOnError : Bool) (s : Session) (grid : Grid)
    (sheetName dateColumnLetter status : String) (k : Nat) (row : Row) (id : String)
    (hcols : attendanceIdColumn (grid.headD []) = (resolveColumns (grid.headD [])).idColIndex)
    (hrow : grid[k + 1]? = some row)
    (hcell : cellAt row (resolveColumns (grid.headD [])).idColIndex = some id)
    (hid : id ≠ "") :
    ∃ students answer,
      getStudentData useSampleDataOnError sheetName (.ok grid) = .ok students ∧
      students[k]?.map (fun st => st.id) = some id ∧
      (updateAttendanceByStudentId s (.ok grid) sheetName id dateColumnLetter status).result =
        .ok answer ∧
      ((∀ j, j < k → students[j]?.map (fun st => st.id) ≠ some id) →
        answer.studentRowIndex = (k : Int) + 2) := by
  have hne : grid ≠ [] := by
    intro h
    rw [h] at hrow
    simp at hrow
  have hrecord : ∀ (j : Nat) (r : Row), grid[j + 1]? = some r →
      ((grid.drop 1).mapIdx (studentOfRow (resolveColumns (grid.headD []))))[j]? =
        some (studentOfRow (resolveColumns (grid.headD [])) j r) := by
    intro j r hr
    rw [List.getElem?_mapIdx, List.getElem?_drop, Nat.add_comm 1 j, hr]
    rfl
  have hidOf : ∀ (j : Nat) (r : Row),
      cellAt r (resolveColumns (grid.headD [])).idColIndex = some id →
      (studentOfRow (resolveColumns (grid.headD [])) j r).id = id := by
    intro j r hr
    rw [(studentOfRow_fields _ j r).1, hr, orElse_of_present id _ hid]
  have hhas : dataRowHasId grid (attendanceIdColumn (grid.headD [])) id (k + 1) := by
    refine ⟨by omega, ?_⟩
    rw [hrow, hcols]
    exact hcell
  have hscan := scan_ne_neg_one_of_dataRow grid _ id (k + 1) hhas
  refine ⟨_, _, getStudentData_ok useSampleDataOnError sheetName grid hne, ?_,
    updateAttendanceByStudentId_result s grid sheetName id dateColumnLetter status hscan, ?_⟩
  · rw [hrecord k row hrow, Option.map_some', hidOf k row hcell]
  · intro hdistinct
    show scanStudentRows (attendanceIdColumn (grid.headD [])) id (grid.drop 1) 1 = (k : Int) + 2
    rw [scan_grid_least grid _ id (k + 1) hhas]
    · push_cast; ring
    · intro j hj hj'
      obtain ⟨h1, hcellj⟩ := hj'
      obtain ⟨i, rfl⟩ : ∃ i, j = i + 1 := ⟨j - 1, by omega⟩
      cases hg : grid[i + 1]? with
      | none => simp [hg] at hcellj
      | some r =>
        rw [hg, hcols] at hcellj
        have hr : cellAt r (resolveColumns (grid.headD [])).idColIndex = some id := hcellj
        apply hdistinct i (by omega)
        rw [hrecord i r hg, Option.map_some', hidOf i r hr]

/-- C25 at work: the second student of a sheet is found at sheet row 3. -/
theorem reported_id_is_found_witness :
    ∃ students answer,
      getStudentData true "Students" (.ok [["ID", "Name"], ["7", "Asha"], ["9", "Ravi"]]) =
        .ok students ∧
      students[1]?.map (fun st => st.id) = some "9" ∧
      (updateAttendanceByStudentId ⟨true, true, true, .ok ⟨""⟩⟩
        (.ok [["ID", "Name"], ["7", "Asha"], ["9", "Ravi"]]) "Students" "9" "C" "Present").result =
        .ok answer ∧
      ((∀ j, j < 1 → students[j]?.map (fun st => st.id) ≠ some "9") →
        answer.studentRowIndex = ((1 : Nat) : Int) + 2) :=
  reported_id_is_found true ⟨true, true, true, .ok ⟨""⟩⟩
    [["ID", "Name"], ["7", "Asha"], ["9", "Ravi"]] "Students" "C" "Present" 1 ["9", "Ravi"] "9"
    (by decide) (by decide) (by decide) (by decide)


/-! ## The generated id is fresh -/

/-- A decimal digit is no white space and no sign. -/
theorem isDigit_plain (c : Char) (h : c.isDigit = true) :
    isWhiteSpace c = false ∧ c ≠ '-' ∧ c ≠ '+' := by
  have hrange : 48 ≤ c.toNat ∧ c.toNat ≤ 57 := by
    simp only [Char.isDigit, Bool.and_eq_true, decide_eq_true_eq] at h
    have h1 : (48 : UInt32).toNat ≤ c.val.toNat := h.1
    have h2 : c.val.toNat ≤ (57 : UInt32).toNat := h.2
    exact ⟨h1, h2⟩
  refine ⟨?_, ?_, ?_⟩
  · unfold isWhiteSpace
    simp only [Bool.or_eq_false_iff, Bool.and_eq_false_iff, decide_eq_false_iff_not]
    omega
  · intro hc
    rw [hc] at hrange
    revert hrange
    decide
  · intro hc
    rw [hc] at hrange
    revert hrange
    decide

/-- The numeral of a natural number is a non-empty run of decimal digits with that value. -/
theorem toString_digits (n : Nat) :
    ∃ ds : List Char, toString n = String.mk ds ∧ ds ≠ [] ∧ (∀ c ∈ ds, c.isDigit = true) ∧
      digitsValue ds = n := by
  induction n using Nat.strong_induction_on with
  | _ n ih =>
    by_cases h : n < 10
    · refine ⟨[Nat.digitChar n], toString_digit n h, by simp, ?_, ?_⟩
      · intro c hc
        rw [List.mem_singleton] at hc
        subst hc
        interval_cases n <;> decide
      · interval_cases n <;> decide
    · obtain ⟨ds, hds, hne, hall, hval⟩ := ih (n / 10) (by omega)
      refine ⟨ds ++ [Nat.digitChar (n % 10)], ?_, by simp, ?_, ?_⟩
      · rw [toString_step n (by omega), hds]
        rfl
      · intro c hc
        rcases List.mem_append.mp hc with hc | hc
        · exact hall c hc
        · rw [List.mem_singleton] at hc
          subst hc
          have hlt : n % 10 < 10 := Nat.mod_lt _ (by decide)
          interval_cases (n % 10) <;> decide
      · have hd : (Nat.digitChar (n % 10)).toNat - 48 = n % 10 := by
          have hlt : n % 10 < 10 := Nat.mod_lt _ (by decide)
          interval_cases (n % 10) <;> decide
        unfold digitsValue at hval ⊢
        rw [List.foldl_append, hval]
        simp only [List.foldl_cons, List.foldl_nil, hd]
        omega

/-- The function `parseInt` reads a run of decimal digits as its value. -/
theorem parseInt_digits (ds : List Char) (hne : ds ≠ [])
    (hall : ∀ c ∈ ds, c.isDigit = true) :
    parseInt (String.mk ds) = some (digitsValue ds : Int) := by
  cases ds with
  | nil => exact absurd rfl hne
  | cons c rest =>
    obtain ⟨hws, hminus, hplus⟩ := isDigit_plain c (hall c (List.mem_cons_self _ _))
    have htake : (c :: rest).takeWhile Char.isDigit = c :: rest := by
      rw [List.takeWhile_eq_self_iff]
      exact hall
    have hdrop : (c :: rest).dropWhile isWhiteSpace = c :: rest := by
      simp [List.dropWhile, hws]
    have hsigned : (match c :: rest with
        | '-' :: rest => (true, rest)
        | '+' :: rest => (false, rest)
        | rest => (false, rest)) = (false, c :: rest) := by
      split
      · rename_i r heq
        exact absurd (List.cons.inj heq).1 hminus
      · rename_i r heq
        exact absurd (List.cons.inj heq).1 hplus
      · rfl
    unfold parseInt
    simp only [hdrop, hsigned, htake]
    simp

/-- The function `parseInt` reads the numeral of a natural number back. -/
theorem parseInt_toString (n : Nat) : parseInt (toString n) = some (n : Int) := by
  obtain ⟨ds, hds, hne, hall, hval⟩ := toString_digits n
  rw [hds, parseInt_digits ds hne hall, hval]

/-- C26, refuted as stated: the sum of doubles `2 ^ 53 + 1` is `2 ^ 53`, so
with the single id cell 9007199254740992 the id generated is that same id. -/
theorem generateStudentId_repeats_large_id :
    generateStudentId (.ok [["ID"], ["9007199254740992"]]) 0 = "9007199254740992" := by
  decide

/-- C26, amended: for a fetched grid whose id cells parse to numbers below
`2 ^ 53`, the id generated differs from every string in column 0 of the data
rows. -/
theorem generateStudentId_fresh (data : Grid) (nowMs : Nat)
    (hsafe : ∀ row ∈ data.drop 1, ∀ cell v, row[0]? = some cell → parseInt cell = some v →
      v < 2 ^ 53) :
    ∀ row ∈ data.drop 1, row[0]? ≠ some (generateStudentId (.ok data) nowMs) := by
  obtain ⟨hge, hall, hfrom⟩ := foldl_highestIdStep (data.drop 1) 0
  have hbound : (data.drop 1).foldl highestIdStep 0 < 2 ^ 53 := by
    rcases hfrom with h0 | ⟨row, hrow, cell, hcell, hv⟩
    · rw [h0]; decide
    · exact hsafe row hrow cell _ hcell hv
  have hexact : roundToDouble ((data.drop 1).foldl highestIdStep 0 + 1) =
      (data.drop 1).foldl highestIdStep 0 + 1 :=
    roundToDouble_exact _ (by omega)
  obtain ⟨m, hm⟩ : ∃ m : Nat, (data.drop 1).foldl highestIdStep 0 = (m : Int) :=
    ⟨((data.drop 1).foldl highestIdStep 0).toNat, (Int.toNat_of_nonneg hge).symm⟩
  have hid : generateStudentId (.ok data) nowMs = toString (m + 1) := by
    have hcast : (data.drop 1).foldl highestIdStep 0 + 1 = ((m + 1 : Nat) : Int) := by
      rw [hm]; rfl
    have hstr : toString (((m + 1 : Nat) : Int)) = toString (m + 1) := rfl
    rw [← hstr, ← hcast, ← hexact]
    unfold generateStudentId
    by_cases hlen : data.length > 1
    · simp only [hlen, if_true]
    · have hnil : data.drop 1 = [] := List.drop_eq_nil_of_le (by omega)
      simp only [hlen, if_false, hnil, List.foldl_nil]
  intro row hrow hcell
  have hle := hall row hrow _ _ hcell (by rw [hid]; exact parseInt_toString (m + 1))
  rw [hm] at hle
  omega

/-- C26 amended, at work: the ids 1, 2, 5 give an id that is none of them. -/
theorem generateStudentId_fresh_witness :
    (["5"] : Row)[0]? ≠ some (generateStudentId (.ok [["ID"], ["1"], ["2"], ["5"]]) 0) :=
  generateStudentId_fresh [["ID"], ["1"], ["2"], ["5"]] 0 (by
    intro row hrow cell v hcell hv
    have h1 : parseInt "1" = some 1 := by decide
    have h2 : parseInt "2" = some 2 := by decide
    have h5 : parseInt "5" = some 5 := by decide
    simp only [List.drop_succ_cons, List.drop_zero, List.mem_cons, List.mem_singleton,
      List.mem_nil_iff, or_false] at hrow
    rcases hrow with rfl | rfl | rfl
    · obtain rfl : "1" = cell := by simpa using hcell
      rw [h1] at hv
      rw [← Option.some.inj hv]; decide
    · obtain rfl : "2" = cell := by simpa using hcell
      rw [h2] at hv
      rw [← Option.some.inj hv]; decide
    · obtain rfl : "5" = cell := by simpa using hcell
      rw [h5] at hv
      rw [← Option.some.inj hv]; decide) ["5"] (by decide)


/-! ## Column letters: shape and injectivity -/

/-- The letters of a column index: at least one, each of them from A to Z. -/
theorem columnIndexToLetter_letters (n : Nat) :
    (columnIndexToLetter (n : Int)).data ≠ [] ∧
    ∀ c ∈ (columnIndexToLetter (n : Int)).data, c.isUpper = true := by
  induction n using Nat.strong_induction_on with
  | _ n ih =>
    by_cases h : n < 26
    · rw [columnIndexToLetter_lt (n : Int) (by omega) (by omega)]
      simp only [Int.toNat_ofNat, String.singleton, String.push, List.nil_append]
      refine ⟨by simp, ?_⟩
      intro c hc
      rw [List.mem_singleton] at hc
      subst hc
      interval_cases n <;> rfl
    · rw [columnIndexToLetter_ge (n : Int) (by omega)]
      have hq : (n : Int) / 26 - 1 = ((n / 26 - 1 : Nat) : Int) := by omega
      have hr : ((n : Int) % 26).toNat = n % 26 := by omega
      rw [hq, hr, String.data_append]
      obtain ⟨_, hall⟩ := ih (n / 26 - 1) (by omega)
      simp only [String.singleton, String.push, List.nil_append]
      refine ⟨by simp, ?_⟩
      intro c hc
      rcases List.mem_append.mp hc with hc | hc
      · exact hall c hc
      · rw [List.mem_singleton] at hc
        subst hc
        have hlt : n % 26 < 26 := Nat.mod_lt n (by decide)
        generalize n % 26 = m at hlt
        interval_cases m <;> rfl

/-- C27: `columnIndexToLetter` returns for every non-negative integer index
(the loop ends: the function is total); the string returned is not empty and
made of the letters A to Z only; and two different indices give different
column letters. -/
theorem columnIndexToLetter_injective (m n : Nat) :
    (columnIndexToLetter (n : Int)).data ≠ [] ∧
    (∀ c ∈ (columnIndexToLetter (n : Int)).data, c.isUpper = true) ∧
    (m ≠ n → columnIndexToLetter (m : Int) ≠ columnIndexToLetter (n : Int)) := by
  refine ⟨(columnIndexToLetter_letters n).1, (columnIndexToLetter_letters n).2, ?_⟩
  intro hne heq
  apply hne
  rw [← letterToColumnIndex_columnIndexToLetter m, ← letterToColumnIndex_columnIndexToLetter n,
    heq]

/-- C27 at work: the indices 25 and 51 give different letters. -/
theorem columnIndexToLetter_injective_witness :
    columnIndexToLetter ((25 : Nat) : Int) ≠ columnIndexToLetter ((51 : Nat) : Int) :=
  (columnIndexToLetter_injective 25 51).2.2 (by decide)


/-! ## The row of the student forms, read back -/

/-- The record read back from a header row followed by the row of a form,
when the header row resolves to the columns 0, 1, 2, 3. -/
theorem getStudentData_formRow (useSampleDataOnError : Bool) (header : Row) (f : FormData)
    (hcols : resolveColumns header =
      { idColIndex := 0, nameColIndex := 1, classColIndex := 2, schoolColIndex := 3 }) :
    getStudentData useSampleDataOnError "Students" (.ok [header, formRowData f]) =
      .ok [{ id := orElse (some f.studentId) "S001"
             name := orElse (some f.studentName) "Student 1"
             classValue := orElse (some f.schoolName) "N/A"
             school := orElse (some f.classValue) "N/A" }] := by
  rw [getStudentData_ok useSampleDataOnError "Students" _ (by simp)]
  have hhead : ([header, formRowData f] : Grid).headD [] = header := rfl
  have hdrop : ([header, formRowData f] : Grid).drop 1 = [formRowData f] := rfl
  rw [hhead, hdrop, hcols]
  rfl

/-- C28, the defect: the forms write school in column 2 and class in column
3, while the sample header row `ID, Name, Class, School` of the service and
its default columns (a header row without keywords) have class in column 2
and school in column 3.  So the row of a student entered with school
`schoolName` and class `classValue` is read back by `getStudentData` with
class `schoolName` and school `classValue`: for Asha of Hill School, 6th
Class, the record says class "Hill School", school "6th Class".  Under a
header row in the order of the forms the record is the one entered. -/
theorem form_row_read_back_swapped :
    (∀ (useSampleDataOnError : Bool) (f : FormData),
      getStudentData useSampleDataOnError "Students"
          (.ok [(getSampleData "Students").headD [], formRowData f]) =
        .ok [{ id := orElse (some f.studentId) "S001"
               name := orElse (some f.studentName) "Student 1"
               classValue := orElse (some f.schoolName) "N/A"
               school := orElse (some f.classValue) "N/A" }]) ∧
    (∀ (useSampleDataOnError : Bool) (f : FormData),
      getStudentData useSampleDataOnError "Students"
          (.ok [["A", "B", "C", "D", "E"], formRowData f]) =
        .ok [{ id := orElse (some f.studentId) "S001"
               name := orElse (some f.studentName) "Student 1"
               classValue := orElse (some f.schoolName) "N/A"
               school := orElse (some f.classValue) "N/A" }]) ∧
    formIsValid ⟨"17", "Asha", "Hill School", "6th Class", "999"⟩ = true ∧
    getStudentData true "Students"
        (.ok [["ID", "Name", "Class", "School"],
          formRowData ⟨"17", "Asha", "Hill School", "6th Class", "999"⟩]) =
      .ok [{ id := "17", name := "Asha", classValue := "Hill School", school := "6th Class" }] ∧
    getStudentData true "Students"
        (.ok [["ID", "Name", "School", "Class", "Mobile"],
          formRowData ⟨"17", "Asha", "Hill School", "6th Class", "999"⟩]) =
      .ok [{ id := "17", name := "Asha", classValue := "6th Class", school := "Hill School" }] := by
  refine ⟨?_, ?_, by decide, by decide, by decide⟩
  · intro flag f
    exact getStudentData_formRow flag _ f (by decide)
  · intro flag f
    exact getStudentData_formRow flag _ f (by decide)


/-! ## The modal and what the form submits -/

/-- C29, the defect: `handleModalComplete` calls `setStudents(updatedStudents)`
and then `handleSubmit()`, the function of the same render, which reads that
render's `students`; so the statuses submitted are those the form had before
the modal, whatever was marked.  With the one student Asha, marked Absent in
the modal, the modal hands over "Absent", and the form calls
`updateAttendanceByStudentId` with "Present" when signed in and lists
"Asha: Present" in the demo summary when signed out. -/
theorem handleModalComplete_submits_stale_statuses :
    (∀ (s : Session) (fetched : Except JsError Grid) (sheetName : String)
        (selectedDate : LocalDate) (students updatedStudents : List MarkedStudent),
      (handleModalComplete s fetched sheetName selectedDate students updatedStudents).submission =
        handleSubmit s fetched sheetName selectedDate students) ∧
    (markAbsent (modalInit (studentsWithStatus
        [{ id := "7", name := "Asha", classValue := "6th", school := "Hill" }]))).attendanceData =
      [{ student := { id := "7", name := "Asha", classValue := "6th", school := "Hill" }
         attendanceStatus := "Absent" }] ∧
    (markAbsent (modalInit (studentsWithStatus
        [{ id := "7", name := "Asha", classValue := "6th", school := "Hill" }]))).isCompleted =
      true ∧
    (handleComplete ⟨true, true, true, .ok ⟨""⟩⟩ (.ok [["ID", "Name", "Class", "School"]])
        "Students" ⟨2024, 0, 7⟩
        (studentsWithStatus [{ id := "7", name := "Asha", classValue := "6th", school := "Hill" }])
        (markAbsent (modalInit (studentsWithStatus
          [{ id := "7", name := "Asha", classValue := "6th", school := "Hill" }])))).submission =
      .written [("7", "E", "Present")] ∧
    (handleComplete ⟨true, false, true, .ok ⟨""⟩⟩ (.ok [["ID", "Name", "Class", "School"]])
        "Students" ⟨2024, 0, 7⟩
        (studentsWithStatus [{ id := "7", name := "Asha", classValue := "6th", school := "Hill" }])
        (markAbsent (modalInit (studentsWithStatus
          [{ id := "7", name := "Asha", classValue := "6th", school := "Hill" }])))).submission =
      .simulated "Asha: Present" := by
  refine ⟨fun _ _ _ _ _ _ => rfl, by decide, by decide, ?_, ?_⟩
  · have hdate : formatDateForSheet ⟨2024, 0, 7⟩ = "2024-01-07" := by decide
    have hletter : columnIndexToLetter 4 = "E" := by
      rw [columnIndexToLetter_lt 4 (by decide) (by decide)]; decide
    have hcol : (addDateColumn ⟨true, true, true, .ok ⟨""⟩⟩
        (.ok [["ID", "Name", "Class", "School"]]) "Students" "2024-01-07").result =
        .ok { columnIndex := 4, columnLetter := "E", isExisting := false, simulated := false } := by
      rw [addDateColumn_result, ← hletter]
      rfl
    simp only [handleComplete, handleModalComplete, handleSubmit, hdate, hcol]
    decide
  · have hdate : formatDateForSheet ⟨2024, 0, 7⟩ = "2024-01-07" := by decide
    have hletter : columnIndexToLetter 4 = "E" := by
      rw [columnIndexToLetter_lt 4 (by decide) (by decide)]; decide
    have hcol : (addDateColumn ⟨true, false, true, .ok ⟨""⟩⟩
        (.ok [["ID", "Name", "Class", "School"]]) "Students" "2024-01-07").result =
        .ok { columnIndex := 4, columnLetter := "E", isExisting := false, simulated := true } := by
      rw [addDateColumn_result, ← hletter]
      rfl
    simp only [handleComplete, handleModalComplete, handleSubmit, hdate, hcol]
    decide


/-! ## The date header the form writes -/

/-- The digit characters are decimal digits, and their value is the digit. -/
theorem digitChar_digit (n : Nat) (h : n < 10) :
    (Nat.digitChar n).isDigit = true ∧ (Nat.digitChar n).toNat - 48 = n := by
  interval_cases n <;> decide

/-- The numeral of a number of four digits. -/
theorem toString_four (n : Nat) (h1 : 1000 ≤ n) (h2 : n ≤ 9999) :
    toString n = String.mk [Nat.digitChar (n / 1000), Nat.digitChar (n / 100 % 10),
      Nat.digitChar (n / 10 % 10), Nat.digitChar (n % 10)] := by
  rw [toString_step n (by omega), toString_step (n / 10) (by omega),
    toString_step (n / 10 / 10) (by omega), toString_digit (n / 10 / 10 / 10) (by omega)]
  have e1 : n / 10 / 10 / 10 = n / 1000 := by omega
  have e2 : n / 10 / 10 % 10 = n / 100 % 10 := by omega
  rw [e1, e2]
  rfl

/-- Below 100, `padStart(2, '0')` of the numeral is the numeral of two digits. -/
theorem padStart_two (n : Nat) (h : n < 100) :
    padStart (toString n) 2 '0' = String.mk [Nat.digitChar (n / 10), Nat.digitChar (n % 10)] := by
  unfold padStart
  by_cases h10 : n < 10
  · rw [toString_digit n h10]
    have e1 : n / 10 = 0 := by omega
    have e2 : n % 10 = n := by omega
    rw [e1, e2]
    rfl
  · rw [toString_step n (by omega), toString_digit (n / 10) (by omega)]
    rfl

/-- The ten characters of the header written for a date with a four-digit year. -/
theorem formatDateForSheet_data (y m d : Nat) (hy1 : 1000 ≤ y) (hy2 : y ≤ 9999) (hm : m ≤ 11)
    (hd : d ≤ 31) :
    formatDateForSheet { fullYear := (y : Int), month := m, date := d } =
      String.mk [Nat.digitChar (y / 1000), Nat.digitChar (y / 100 % 10),
        Nat.digitChar (y / 10 % 10), Nat.digitChar (y % 10), '-',
        Nat.digitChar ((m + 1) / 10), Nat.digitChar ((m + 1) % 10), '-',
        Nat.digitChar (d / 10), Nat.digitChar (d % 10)] := by
  unfold formatDateForSheet
  have hyear : toString ((y : Int)) = toString y := rfl
  simp only [hyear]
  rw [toString_four y hy1 hy2, padStart_two (m + 1) (by omega), padStart_two d (by omega)]
  rfl

/-- A header at position `i` of the header row that passes the date test is a date column. -/
theorem mem_dateColumnsOf (headers : Row) (i : Nat) (header : String)
    (hat : headers[i]? = some header) (hdate : isDateHeader header = true) :
    ({ index := i, date := header } : DateColumn) ∈ dateColumnsOf headers := by
  unfold dateColumnsOf
  rw [List.mem_filterMap]
  refine ⟨(i, header), List.mk_mem_enum_iff_getElem?.mpr hat, ?_⟩
  have hne : (header != "") = true := by
    rw [bne_iff_ne]
    intro h
    rw [h] at hdate
    exact absurd hdate (by decide)
  simp [hne, hdate]

/-- C30: for a date with a four-digit year (1000 to 9999) the string of
`formatDateForSheet` passes the date test of the analytics and of
`checkExistingDates`, so as a header it is a date column of the analytics
and is among the existing dates; and two such dates with the same string are
the same date. -/
theorem formatDateForSheet_recognised (d : LocalDate) (hd : fourDigitYear d) :
    isDateHeader (formatDateForSheet d) = true ∧
    (∀ (headers : Row) (i : Nat), headers[i]? = some (formatDateForSheet d) →
      ({ index := i, date := formatDateForSheet d } : DateColumn) ∈
        (analyticsIndices headers).dateColumns) ∧
    (∀ (headers : Row) (rest : Grid) (existingDates : List String),
      formatDateForSheet d ∈ headers →
      formatDateForSheet d ∈ checkExistingDates (.ok (headers :: rest)) existingDates) ∧
    (∀ d2 : LocalDate, fourDigitYear d2 → d2 ≠ d →
      formatDateForSheet d2 ≠ formatDateForSheet d) := by
  have hdata : ∀ e : LocalDate, fourDigitYear e →
      ∃ y : Nat, e.fullYear = (y : Int) ∧ 1000 ≤ y ∧ y ≤ 9999 ∧
        formatDateForSheet e =
          String.mk [Nat.digitChar (y / 1000), Nat.digitChar (y / 100 % 10),
            Nat.digitChar (y / 10 % 10), Nat.digitChar (y % 10), '-',
            Nat.digitChar ((e.month + 1) / 10), Nat.digitChar ((e.month + 1) % 10), '-',
            Nat.digitChar (e.date / 10), Nat.digitChar (e.date % 10)] := by
    intro e he
    obtain ⟨h1, h2, h3, _, h5⟩ := he
    obtain ⟨y, hy⟩ : ∃ y : Nat, e.fullYear = (y : Int) :=
      ⟨e.fullYear.toNat, (Int.toNat_of_nonneg (by omega)).symm⟩
    refine ⟨y, hy, by omega, by omega, ?_⟩
    have he : e = { fullYear := (y : Int), month := e.month, date := e.date } := by
      cases e
      simp only [LocalDate.mk.injEq, and_true]
      exact hy
    rw [he]
    exact formatDateForSheet_data y e.month e.date (by omega) (by omega) h3 h5
  have hdate : isDateHeader (formatDateForSheet d) = true := by
    obtain ⟨y, _, hy1, hy2, hfmt⟩ := hdata d hd
    obtain ⟨_, _, h3, _, h5⟩ := hd
    rw [hfmt]
    simp only [isDateHeader, (digitChar_digit (y / 1000) (by omega)).1,
      (digitChar_digit (y / 100 % 10) (by omega)).1, (digitChar_digit (y / 10 % 10) (by omega)).1,
      (digitChar_digit (y % 10) (by omega)).1,
      (digitChar_digit ((d.month + 1) / 10) (by omega)).1,
      (digitChar_digit ((d.month + 1) % 10) (by omega)).1,
      (digitChar_digit (d.date / 10) (by omega)).1, (digitChar_digit (d.date % 10) (by omega)).1]
    rfl
  refine ⟨hdate, ?_, ?_, ?_⟩
  · intro headers i hat
    exact mem_dateColumnsOf headers i _ hat hdate
  · intro headers rest existingDates hmem
    have hne : (formatDateForSheet d != "") = true := by
      rw [bne_iff_ne]
      intro h
      rw [h] at hdate
      exact absurd hdate (by decide)
    simp only [checkExistingDates, List.head?_cons, List.mem_filter]
    exact ⟨hmem, by simp [hne, hdate]⟩
  · intro d2 hd2 hne heq
    apply hne
    obtain ⟨y, hy, hy1, hy2, hfmt⟩ := hdata d hd
    obtain ⟨y2, hy', hy1', hy2', hfmt2⟩ := hdata d2 hd2
    obtain ⟨_, _, h3, _, h5⟩ := hd
    obtain ⟨_, _, h3', _, h5'⟩ := hd2
    rw [hfmt, hfmt2] at heq
    have hlist := congrArg String.data heq
    simp only [List.cons.injEq, and_true, true_and] at hlist
    obtain ⟨c1, c2, c3, c4, c5, c6, c7, c8⟩ := hlist
    have val : ∀ a b : Nat, a < 10 → b < 10 → Nat.digitChar a = Nat.digitChar b → a = b := by
      intro a b ha hb hab
      rw [← (digitChar_digit a ha).2, ← (digitChar_digit b hb).2, hab]
    have v1 := val _ _ (by omega) (by omega) c1
    have v2 := val _ _ (by omega) (by omega) c2
    have v3 := val _ _ (by omega) (by omega) c3
    have v4 := val _ _ (by omega) (by omega) c4
    have v5 := val _ _ (by omega) (by omega) c5
    have v6 := val _ _ (by omega) (by omega) c6
    have v7 := val _ _ (by omega) (by omega) c7
    have v8 := val _ _ (by omega) (by omega) c8
    cases d
    cases d2
    simp only [LocalDate.mk.injEq]
    simp only at hy hy' v5 v6 v7 v8
    refine ⟨?_, ?_, ?_⟩
    · rw [hy, hy']
      have : y2 = y := by omega
      rw [this]
    · omega
    · omega

/-- C30 at work: 7 January 2024 is written as a header that passes the date test. -/
theorem formatDateForSheet_recognised_witness :
    fourDigitYear ⟨2024, 0, 7⟩ ∧ isDateHeader (formatDateForSheet ⟨2024, 0, 7⟩) = true ∧
    formatDateForSheet ⟨2024, 1, 7⟩ ≠ formatDateForSheet ⟨2024, 0, 7⟩ :=
  ⟨by decide, (formatDateForSheet_recognised ⟨2024, 0, 7⟩ (by decide)).1,
    (formatDateForSheet_recognised ⟨2024, 0, 7⟩ (by decide)).2.2.2 ⟨2024, 1, 7⟩ (by decide)
      (by decide)⟩


end GoogleSheetsService
